import Mathlib

/-!
# Combat and movement in `Entity.cpp`, word wrap in `FontEngine.cpp`

A shallow embedding of `Entity::takeHit` and of the helpers of `Entity.cpp` it
calls (`playSound`, `resetActiveAnimation`), of `Entity::move` with
`Entity::move_from_offending_tile`, of `Entity::setAnimation`, and of
`FontEngine::popTokenByWidth` and `FontEngine::calc_size`, followed by
theorems about them.

Conventions
* C++ `int` values are mathematical integers; `/` on `int` is `cdiv`
  (truncation toward zero).  Signed overflow is undefined in C++ and is not
  modelled.
* `float` values are rationals.  The float computations of `takeHit` (the
  reflected angle of line 374, the returned damage of line 563) are rounded to
  `float` by `roundFloat`; positions in movement are exact rationals, rounding
  is not modelled there.
* The hazard's source `*h.src_stats` is either the StatBlock of another
  entity, `World.src`, or the target's own StatBlock (`World.src_is_self`);
  reads and writes through the pointer are `World.source` and
  `World.setSource`.
* `rand()` reads the next element of an explicit stream and notes what the
  draw was made for; the log records the calls made to the combat-text sink,
  the audio sink, the map and the virtual reward hook, in program order.
* Dereferencing a null `activeAnimation` has no defined result; the embedding
  returns `Fault.nullActiveAnimation` there.  Indexing the direction tables
  outside their eight entries returns `Fault.directionOutOfRange`.
* The loop of `move_from_offending_tile` and the loops of `calc_size` have no
  bound in the source; the embedding runs them on fuel and returns `none` when
  the fuel runs out.
* A string is the list of its bytes.
* Collaborators whose bodies are outside `Entity.cpp` and whose behaviour the
  specification does not fix are fields of `Env`, of `MapRenderer` and of
  `FontBackend`, or parameters (`calc_width`, `getAnimation`).
-/

namespace Flare

/-! ## Data model -/

/-- C++ integer division: the quotient is truncated toward zero. -/
def cdiv (a b : Int) : Int := Int.tdiv a b

/-- The C++ conversion of a `float` to `int`: truncation toward zero. -/
def truncRat (q : Rat) : Int := Int.tdiv q.num q.den

/-- The power of two with an integer exponent. -/
def twoPow (k : Int) : Rat :=
  if 0 ≤ k then ((2 ^ k.toNat : Nat) : Rat) else 1 / ((2 ^ (-k).toNat : Nat) : Rat)

/-- The integer nearest to `m`; of two integers equally near, the even one. -/
def roundHalfEven (m : Rat) : Int :=
  if m - ((m.num / (m.den : Int) : Int) : Rat) < 1 / 2 then m.num / (m.den : Int)
  else if m - ((m.num / (m.den : Int) : Int) : Rat) > 1 / 2 then m.num / (m.den : Int) + 1
  else if (m.num / (m.den : Int)) % 2 = 0 then m.num / (m.den : Int)
  else m.num / (m.den : Int) + 1

/-- The position of the leading binary digit of `n`, found with at most `fuel`
halvings. -/
def log2Fuel : Nat → Nat → Nat
  | 0, _ => 0
  | fuel + 1, n => if n < 2 then 0 else log2Fuel fuel (n / 2) + 1

/-- The position of the leading binary digit of `n`. -/
def ilog2 (n : Nat) : Nat := log2Fuel n n

/-- The binary exponent `e` of a rational other than 0: `2^e ≤ |q| < 2^(e+1)`. -/
def binade (q : Rat) : Int :=
  if twoPow ((ilog2 q.num.natAbs : Int) - (ilog2 q.den : Int)) ≤ |q| then
    (ilog2 q.num.natAbs : Int) - (ilog2 q.den : Int)
  else (ilog2 q.num.natAbs : Int) - (ilog2 q.den : Int) - 1

/-- The `float` nearest to `q`: 24 significant binary digits, rounded to
nearest, ties to even (IEEE 754 binary32, every operation rounded to `float`).
The exponent range of `float` is not modelled. -/
def roundFloat (q : Rat) : Rat :=
  if q = 0 then 0
  else (roundHalfEven (q * twoPow (23 - binade q)) : Rat) / twoPow (23 - binade q)

/-- The value of `static_cast<float>(M_PI)`. -/
def floatPi : Rat := 13176795 / 4194304

/-- A map position (`FPoint`). -/
structure FPoint where
  x : Rat
  y : Rat
deriving DecidableEq

/-- Life-cycle states named in `Entity.cpp`; `OTHER` stands for every other
value of the `cur_state` field (stance, move, block, spawn, attack, ...). -/
inductive EntityState where
  | AVATAR_HIT
  | AVATAR_DEAD
  | ENEMY_POWER
  | ENEMY_HIT
  | ENEMY_DEAD
  | ENEMY_CRITDEAD
  | OTHER (n : Nat)
deriving DecidableEq

/-- Movement classes named in `Entity.cpp`; `OTHER` is any other value of the
`movement_type` field. -/
inductive MovementType where
  | MOVEMENT_NORMAL
  | MOVEMENT_FLYING
  | MOVEMENT_INTANGIBLE
  | OTHER (n : Nat)
deriving DecidableEq

/-- Hazard source categories named in `Entity.cpp`; `OTHER` is any value of the
integer field `source_type` that is none of the three named constants (the
engine also knows a neutral source, used for hazards that belong to nobody). -/
inductive SourceType where
  | SOURCE_TYPE_HERO
  | SOURCE_TYPE_ALLY
  | SOURCE_TYPE_ENEMY
  | OTHER (n : Nat)
deriving DecidableEq

/-- Modifier modes of a power; `OTHER` is any value that is none of the three
named ones (the base value is then used unmodified). -/
inductive StatModifierMode where
  | STAT_MODIFIER_MODE_MULTIPLY
  | STAT_MODIFIER_MODE_ADD
  | STAT_MODIFIER_MODE_ABSOLUTE
  | OTHER (n : Nat)
deriving DecidableEq

/-- Indices of the derived stats read through `StatBlock::get` in `takeHit`. -/
inductive STAT where
  | STAT_HP_MAX
  | STAT_MP_MAX
  | STAT_ABS_MIN
  | STAT_ABS_MAX
  | STAT_AVOIDANCE
  | STAT_REFLECT
  | STAT_HP_STEAL
  | STAT_MP_STEAL
  | STAT_RETURN_DAMAGE
  | STAT_POISE
deriving DecidableEq

/-- Effect types passed to `removeEffectType`. -/
inductive EffectType where
  | EFFECT_STUN
  | OTHER (n : Nat)
deriving DecidableEq

/-- Triggers of AI powers. -/
inductive AIPowerType where
  | AI_POWER_HIT
  | AI_POWER_DEBUFF
deriving DecidableEq

/-- An AI power registered on a StatBlock. -/
structure AIPower where
  type : AIPowerType
  id : Int
deriving DecidableEq

/-- Sound classes of `Entity::playSound`. -/
inductive SoundType where
  | ENTITY_SOUND_HIT
  | ENTITY_SOUND_DIE
  | ENTITY_SOUND_CRITDIE
  | ENTITY_SOUND_BLOCK
deriving DecidableEq

/-- Kinds of combat-text messages. -/
inductive CombatMessage where
  | COMBAT_MESSAGE_GIVEDMG
  | COMBAT_MESSAGE_TAKEDMG
  | COMBAT_MESSAGE_CRIT
  | COMBAT_MESSAGE_MISS
  | COMBAT_MESSAGE_BUFF
deriving DecidableEq

/-- The texts `takeHit` hands to `addString`, before translation. -/
inductive CombatString where
  | miss
  | hpSteal (amount : Int)
  | mpSteal (amount : Int)
deriving DecidableEq

/-- One entry of an effect list, as far as `takeHit` is concerned. -/
structure EffectDef where
  id : String
  type : EffectType
deriving DecidableEq

/-- The status-effect set of a StatBlock (`stats.effects`). -/
structure EffectManager where
  effect_list : List EffectDef
  stun : Bool
  speed : Int
  knockback_speed : Rat
  triggered_block : Bool
  triggered_death : Bool
  immunity_hp_steal : Bool
  immunity_mp_steal : Bool
  immunity_damage_reflect : Bool

/-- The fields of `StatBlock` that `Entity.cpp` reads or writes. -/
structure StatBlock where
  name : String
  hero : Bool
  hero_ally : Bool
  categories : List String
  power_filter : List Int
  cur_state : EntityState
  movement_type : MovementType
  pos : FPoint
  direction : Nat
  speed : Rat
  charge_speed : Rat
  invincible_requires_status : List String
  invincible_requires_not_status : List String
  in_combat : Bool
  join_combat : Bool
  hp : Int
  mp : Int
  current : STAT → Int
  vulnerable : List Int
  perfect_accuracy : Bool
  effects : EffectManager
  cooldown_ticks : Int
  cooldown : Int
  cooldown_hit_ticks : Int
  cooldown_hit : Int
  activated_power : Option AIPower
  prevent_interrupt : Bool
  untransform_on_hit : Bool
  transform_duration : Int

/-- The inline accessor `StatBlock::get`: an index into the table of current
stat values. -/
def StatBlock.get (s : StatBlock) (stat : STAT) : Int := s.current stat

/-- The fields of a power definition read by `takeHit`. -/
structure Power where
  target_categories : List String
  no_aggro : Bool
  beacon : Bool
  mod_accuracy_mode : StatModifierMode
  mod_accuracy_value : Int
  trait_avoidance_ignore : Bool
  mod_damage_mode : StatModifierMode
  mod_damage_value_min : Int
  mod_damage_value_max : Int
  ignore_zero_damage : Bool
  mod_crit_mode : StatModifierMode
  mod_crit_value : Int
  remove_effects : List String

/-- The fields of a hazard read or written by `takeHit`; `angle` is in radians. -/
structure Hazard where
  power_index : Int
  pos : FPoint
  source_type : SourceType
  target_movement_normal : Bool
  target_movement_flying : Bool
  target_movement_intangible : Bool
  walls_block_aoe : Bool
  missile : Bool
  angle : Rat
  lifespan : Int
  base_lifespan : Int
  accuracy : Int
  dmg_min : Int
  dmg_max : Int
  crit_chance : Int
  trait_elemental : Int
  trait_armor_penetration : Bool
  trait_crits_impaired : Int
  hp_steal : Int
  mp_steal : Int
  post_power : Int
  post_power_chance : Int

/-- An animation instance: its name and the frame it is at. -/
structure Animation where
  name : String
  cur_frame : Nat
deriving DecidableEq

/-- What a draw from the random source is made for.  The C++ keeps no such
record; the labels only let statements speak about the order of the draws. -/
inductive Draw where
  | reflect
  | overhit
  | miss
  | damage
  | damageAbsolute
  | absorption
  | crit
  | critScale
  | overhitScale
  | missScale
  | postPower
  | poise
  | sound
deriving DecidableEq

/-- The shared pseudo-random source: a stream of `rand()` results, the number
of results already handed out, and the purposes of those draws, oldest first. -/
structure Rng where
  stream : Nat → Nat
  pos : Nat
  trace : List Draw

/-- Observable calls made during resolution, in program order. -/
inductive Event where
  | addString (text : CombatString) (pos : FPoint) (kind : CombatMessage)
  | addInt (value : Int) (pos : FPoint) (kind : CombatMessage)
  | play (sound : Nat) (kind : SoundType)
  | takeDamageTarget (dmg : Int)
  | takeDamageSource (dmg : Int)
  | doRewards (source : SourceType)
  | unblock (pos : FPoint)
  | collaborator (tag : Nat)
deriving DecidableEq

/-- An entity: its StatBlock, active animation (possibly null) and sounds. -/
structure Entity where
  stats : StatBlock
  activeAnimation : Option Animation
  sound_hit : List Nat
  sound_die : List Nat
  sound_critdie : List Nat
  sound_block : List Nat

/-- Everything one call of `takeHit` can read or write.  The pointer
`h.src_stats` is either on the StatBlock of another entity, `src`, or on the
target's own StatBlock (`src_is_self`): a reflected missile keeps its shooter
as source (lines 376-377) and can come back to it.  In that case `src` is not
used. -/
structure World where
  ent : Entity
  src : StatBlock
  src_is_self : Bool
  h : Hazard
  rng : Rng
  log : List Event
  shaky_cam_ticks : Int

/-- Undefined behaviour reached by the C++ code. -/
inductive Fault where
  | nullActiveAnimation
  | directionOutOfRange
deriving DecidableEq

/-- Result of `PowerManager::effect`: both StatBlocks, the random source and
the calls it made itself, as opaque tags. -/
structure EffectResult where
  target : StatBlock
  source : StatBlock
  rng : Rng
  events : List Nat

/-- Result of `PowerManager::activate` for a follow-up power. -/
structure ActivateResult where
  source : StatBlock
  rng : Rng
  events : List Nat

/-- Engine settings and collaborators that live outside `Entity.cpp`. -/
structure Env where
  MIN_AVOIDANCE : Int
  MAX_AVOIDANCE : Int
  MIN_RESIST : Int
  MAX_RESIST : Int
  MIN_BLOCK : Int
  MAX_BLOCK : Int
  MIN_ABSORB : Int
  MAX_ABSORB : Int
  MIN_CRIT_DAMAGE : Int
  MAX_CRIT_DAMAGE : Int
  MIN_OVERHIT_DAMAGE : Int
  MAX_OVERHIT_DAMAGE : Int
  MIN_MISS_DAMAGE : Int
  MAX_MISS_DAMAGE : Int
  MAX_FRAMES_PER_SEC : Int
  powers : Int → Power
  checkStatus : String → Bool
  line_of_movement : FPoint → FPoint → MovementType → Bool
  isDebuffed : EffectManager → Bool
  removeEffectType : EffectManager → EffectType → EffectManager
  removeEffectID : EffectManager → List String → EffectManager
  effect : StatBlock → StatBlock → Int → SourceType → Rng → EffectResult
  activate : Int → StatBlock → FPoint → Rng → ActivateResult
  getAIPower : StatBlock → AIPowerType → Rng → Option AIPower × Rng

/-! ## Helpers declared outside `Entity.cpp` -/

/-- One call of `rand()`, made for the given purpose. -/
def rand (g : Rng) (purpose : Draw) : Nat × Rng :=
  (g.stream g.pos, { g with pos := g.pos + 1, trace := g.trace ++ [purpose] })

/-- Modelled from the spec: `percentChance` of UtilsMath.h, the "percent-chance
roll": one draw, reduced to 0..99, succeeds when it is below the percentage. -/
def percentChance (g : Rng) (purpose : Draw) (percent : Int) : Bool × Rng :=
  (decide ((((rand g purpose).1 % 100 : Nat) : Int) < percent), (rand g purpose).2)

/-- Modelled from the spec: `randBetween` of UtilsMath.h, a "uniform random
integer in [min,max]"; equal bounds need no draw. -/
def randBetween (g : Rng) (purpose : Draw) (minVal maxVal : Int) : Int × Rng :=
  if minVal = maxVal then (minVal, g)
  else
    (minVal + (((rand g purpose).1 % ((maxVal - minVal).natAbs + 1) : Nat) : Int),
      (rand g purpose).2)

/-- Modelled from the spec: `StatBlock::takeDamage`, "apply damage to the
target's hit points (clamped at 0 floor)". -/
def StatBlock.takeDamage (s : StatBlock) (dmg : Int) : StatBlock :=
  { s with hp := if s.hp - dmg ≤ 0 then 0 else s.hp - dmg }

/-- Modelled from the spec: `Hazard::setAngle` stores the new travel angle. -/
def Hazard.setAngle (h : Hazard) (a : Rat) : Hazard := { h with angle := a }

/-- Modelled from the spec: `Animation::reset` rewinds the animation. -/
def Animation.reset (a : Animation) : Animation := { a with cur_frame := 0 }

/-! ## `Entity.cpp` -/

/-- One branch of `Entity::playSound`: with a non-empty sound list, pick an
entry by `rand() % size` and play it. -/
def playFrom (w : World) (sounds : List Nat) (kind : SoundType) : World :=
  if sounds.isEmpty then w
  else
    { w with
      rng := (rand w.rng .sound).2
      log := w.log ++
        [Event.play (sounds.getD ((rand w.rng .sound).1 % sounds.length) 0) kind] }

/-- The function `Entity::playSound` (lines 161-186). -/
def playSound (w : World) (sound_type : SoundType) : World :=
  match sound_type with
  | .ENTITY_SOUND_HIT => playFrom w w.ent.sound_hit .ENTITY_SOUND_HIT
  | .ENTITY_SOUND_DIE => playFrom w w.ent.sound_die .ENTITY_SOUND_DIE
  | .ENTITY_SOUND_CRITDIE => playFrom w w.ent.sound_critdie .ENTITY_SOUND_CRITDIE
  | .ENTITY_SOUND_BLOCK => playFrom w w.ent.sound_block .ENTITY_SOUND_BLOCK

/-- The power definition the hazard refers to: `powers->powers[h.power_index]`. -/
def Env.power (env : Env) (w : World) : Power := env.powers w.h.power_index

/-- Filter 1 (lines 301-311): the power restricts target categories, the target
is not a hero and none of its categories is on the list. -/
def categoryMismatch (env : Env) (w : World) : Bool :=
  !(env.power w).target_categories.isEmpty && !w.ent.stats.hero &&
    !(w.ent.stats.categories.any fun c => (env.power w).target_categories.contains c)

/-- Filter 2 (lines 314-316): the target has an allow-list of powers and the
hazard's power is not on it. -/
def powerFiltered (w : World) : Bool :=
  !w.ent.stats.power_filter.isEmpty && !w.ent.stats.power_filter.contains w.h.power_index

/-- Filter 3 (lines 319-323): the target is already dead. -/
def alreadyDead (w : World) : Bool :=
  ((w.ent.stats.cur_state == .ENEMY_DEAD || w.ent.stats.cur_state == .ENEMY_CRITDEAD)
      && !w.ent.stats.hero)
    || (w.ent.stats.cur_state == .AVATAR_DEAD && w.ent.stats.hero)

/-- Filter 4 (lines 326-331): the hazard does not target the movement type. -/
def movementNotTargeted (w : World) : Bool :=
  if w.ent.stats.movement_type == .MOVEMENT_NORMAL && !w.h.target_movement_normal then true
  else if w.ent.stats.movement_type == .MOVEMENT_FLYING && !w.h.target_movement_flying then true
  else if w.ent.stats.movement_type == .MOVEMENT_INTANGIBLE && !w.h.target_movement_intangible
    then true
  else false

/-- Filter 5 (lines 334-335): walls block the hazard and there is no line of
movement between target and hazard. -/
def wallBlocked (env : Env) (w : World) : Bool :=
  w.h.walls_block_aoe &&
    !env.line_of_movement w.ent.stats.pos w.h.pos .MOVEMENT_NORMAL

/-- The loop of lines 340-346 over `invincible_requires_status`, started with
the current value of the flag. -/
def requiresStatusLoop (env : Env) : List String → Bool → Bool
  | [], invincible => invincible
  | s :: rest, _ => if !env.checkStatus s then false else requiresStatusLoop env rest true

/-- The loop of lines 350-356 over `invincible_requires_not_status`. -/
def requiresNotStatusLoop (env : Env) : List String → Bool → Bool
  | [], invincible => invincible
  | s :: rest, _ => if env.checkStatus s then false else requiresNotStatusLoop env rest true

/-- Filter 6 (lines 338-359): the invincibility check. -/
def invincibleFilter (env : Env) (w : World) : Bool :=
  if !w.ent.stats.hero && !w.ent.stats.hero_ally
      && !(w.h.source_type == .SOURCE_TYPE_ENEMY) then
    if requiresStatusLoop env w.ent.stats.invincible_requires_status false then true
    else requiresNotStatusLoop env w.ent.stats.invincible_requires_not_status false
  else false

/-- Lines 362-364: the aggro beacon sets `join_combat`. -/
def aggro (env : Env) (w : World) : World :=
  if !w.ent.stats.in_combat && !w.ent.stats.hero && !w.ent.stats.hero_ally
      && !(env.power w).no_aggro then
    { w with ent := { w.ent with stats := { w.ent.stats with join_combat := true } } }
  else w

/-- Lines 378-381: the source category of a reflected hazard. -/
def reflectedSource (source_type : SourceType) (hero : Bool) : SourceType :=
  if source_type == .SOURCE_TYPE_HERO || source_type == .SOURCE_TYPE_ALLY then
    .SOURCE_TYPE_ENEMY
  else if source_type == .SOURCE_TYPE_ENEMY then
    (if hero then .SOURCE_TYPE_HERO else .SOURCE_TYPE_ALLY)
  else source_type

/-- Lines 373-384: turn the missile around, change its source and reset its
lifespan. -/
def reflectHazard (h : Hazard) (hero : Bool) : Hazard :=
  { h.setAngle (roundFloat (h.angle + floatPi)) with
    source_type := reflectedSource h.source_type hero
    lifespan := h.base_lifespan }

/-- Lines 372-391, after the reflect roll succeeded (`w` already has the
roll consumed). -/
def reflect (w : World) : Except Fault (Bool × World) :=
  match w.ent.activeAnimation with
  | none => .error .nullActiveAnimation
  | some a =>
    if a.name == "block" then
      .ok (false, playSound { w with h := reflectHazard w.h w.ent.stats.hero } .ENTITY_SOUND_BLOCK)
    else .ok (false, { w with h := reflectHazard w.h w.ent.stats.hero })

/-- Replace the target's StatBlock. -/
def World.setStats (w : World) (s : StatBlock) : World :=
  { w with ent := { w.ent with stats := s } }

/-- Append one call to the log. -/
def World.emit (w : World) (e : Event) : World := { w with log := w.log ++ [e] }

/-- The StatBlock that `h.src_stats` points at. -/
def World.source (w : World) : StatBlock := if w.src_is_self then w.ent.stats else w.src

/-- A write through `h.src_stats`. -/
def World.setSource (w : World) (s : StatBlock) : World :=
  if w.src_is_self then w.setStats s else { w with src := s }

/-- A stat modifier of a power applied to a base value (lines 395-400,
484-489): multiply by a percentage, add, or replace. -/
def applyModifier (mode : StatModifierMode) (value base : Int) : Int :=
  match mode with
  | .STAT_MODIFIER_MODE_MULTIPLY => cdiv (base * value) 100
  | .STAT_MODIFIER_MODE_ADD => base + value
  | .STAT_MODIFIER_MODE_ABSOLUTE => value
  | .OTHER _ => base

/-- Line 407: `true_avoidance` before clamping. -/
def trueAvoidance (pw : Power) (w : World) : Int :=
  100 - (applyModifier pw.mod_accuracy_mode pw.mod_accuracy_value w.h.accuracy
    - (if !pw.trait_avoidance_ignore then w.ent.stats.get .STAT_AVOIDANCE else 0))

/-- Line 409: `true_avoidance` clamped into the configured band. -/
def clampAvoidance (env : Env) (true_avoidance : Int) : Int :=
  min (max true_avoidance env.MIN_AVOIDANCE) env.MAX_AVOIDANCE

/-- Line 408: the overhit roll, drawn only for a negative `true_avoidance` and
a source without perfect accuracy. -/
def overhitRoll (pw : Power) (w : World) : Bool × Rng :=
  if trueAvoidance pw w < 0 && !w.source.perfect_accuracy then
    percentChance w.rng .overhit ((trueAvoidance pw w).natAbs : Int)
  else (false, w.rng)

/-- Lines 411-414: the miss roll against the clamped avoidance, drawn only
when the source lacks perfect accuracy. -/
def missRoll (env : Env) (pw : Power) (w : World) (g : Rng) : Bool × Rng :=
  if !w.source.perfect_accuracy then
    percentChance g .miss (clampAvoidance env (trueAvoidance pw w))
  else (false, g)

/-- Lines 417-424: base damage and the power's damage modifier. -/
def baseDamage (pw : Power) (h : Hazard) (g : Rng) : Int × Rng :=
  match pw.mod_damage_mode with
  | .STAT_MODIFIER_MODE_MULTIPLY =>
    (cdiv ((randBetween g .damage h.dmg_min h.dmg_max).1 * pw.mod_damage_value_min) 100,
      (randBetween g .damage h.dmg_min h.dmg_max).2)
  | .STAT_MODIFIER_MODE_ADD =>
    ((randBetween g .damage h.dmg_min h.dmg_max).1 + pw.mod_damage_value_min,
      (randBetween g .damage h.dmg_min h.dmg_max).2)
  | .STAT_MODIFIER_MODE_ABSOLUTE =>
    randBetween (randBetween g .damage h.dmg_min h.dmg_max).2 .damageAbsolute
      pw.mod_damage_value_min pw.mod_damage_value_max
  | .OTHER _ => randBetween g .damage h.dmg_min h.dmg_max

/-- Lines 430-432: the vulnerability percentage after clamping. -/
def clampVulnerable (env : Env) (v : Int) : Int :=
  if v < 100 then min (max v env.MIN_RESIST) env.MAX_RESIST else max v env.MIN_RESIST

/-- Lines 427-435: elemental resistance. -/
def applyResist (env : Env) (h : Hazard) (s : StatBlock) (dmg : Int) : Int :=
  if 0 ≤ h.trait_elemental && h.trait_elemental.toNat < s.vulnerable.length then
    cdiv (dmg * clampVulnerable env (s.vulnerable.getD h.trait_elemental.toNat 0)) 100
  else dmg

/-- Lines 444-447 and 450-453: clamp the absorption so that its ratio to the
damage stays within the band; both tests read the unclamped absorption, and
the upper test is made last. -/
def clampAbsorption (lo hi absorption dmg : Int) : Int :=
  let low := if cdiv (absorption * 100) dmg < lo then cdiv (dmg * lo) 100 else absorption
  if cdiv (absorption * 100) dmg > hi then cdiv (dmg * hi) 100 else low

/-- Lines 441-460: the absorption that is subtracted from the damage. -/
def absorbed (env : Env) (s : StatBlock) (absorption dmg : Int) : Int :=
  if absorption > 0 && dmg > 0 then
    let clamped :=
      if s.effects.triggered_block
      then clampAbsorption env.MIN_BLOCK env.MAX_BLOCK absorption dmg
      else clampAbsorption env.MIN_ABSORB env.MAX_ABSORB absorption dmg
    if clamped = 0 then 1 else clamped
  else absorption

/-- Lines 464-472: the damage left when absorption has eaten all of it and
the power does not ignore zero damage. -/
def zeroDamageFloor (env : Env) (h : Hazard) (s : StatBlock) : Int :=
  if h.trait_elemental < 0 then
    if s.effects.triggered_block && env.MAX_BLOCK < 100 then 1
    else if !s.effects.triggered_block && env.MAX_ABSORB < 100 then 1
    else 0
  else if env.MAX_RESIST < 100 then 1 else 0

/-- The function `Entity::resetActiveAnimation` (lines 653-655). -/
def resetActiveAnimation (w : World) : Except Fault World :=
  match w.ent.activeAnimation with
  | none => .error .nullActiveAnimation
  | some a => .ok { w with ent := { w.ent with activeAnimation := some a.reset } }

/-- Lines 473-476: play the block sound and rewind a "block" animation. -/
def blockCheck (w : World) : Except Fault World :=
  match w.ent.activeAnimation with
  | none => .error .nullActiveAnimation
  | some a =>
    if a.name == "block" then resetActiveAnimation (playSound w .ENTITY_SOUND_BLOCK)
    else .ok w

/-- Lines 437-479: subtract absorption unless the hazard penetrates armor. -/
def absorptionStep (env : Env) (pw : Power) (w : World) (dmg : Int) :
    Except Fault (Int × World) :=
  if !w.h.trait_armor_penetration then
    let roll := randBetween w.rng .absorption (w.ent.stats.get .STAT_ABS_MIN) (w.ent.stats.get .STAT_ABS_MAX)
    let left := dmg - absorbed env w.ent.stats roll.1 dmg
    if left ≤ 0 then
      if !pw.ignore_zero_damage then
        (blockCheck { w with rng := roll.2 }).map
          fun w2 => (zeroDamageFloor env w.h w.ent.stats, w2)
      else .ok (0, { w with rng := roll.2 })
    else .ok (left, { w with rng := roll.2 })
  else .ok (dmg, w)

/-- Lines 482-492: the crit chance after the power's modifier and the
impaired-target bonus. -/
def trueCritChance (pw : Power) (h : Hazard) (s : StatBlock) : Int :=
  if s.effects.stun || s.effects.speed < 100 then
    applyModifier pw.mod_crit_mode pw.mod_crit_value h.crit_chance + h.trait_crits_impaired
  else applyModifier pw.mod_crit_mode pw.mod_crit_value h.crit_chance

/-- The damage pipeline's result: the world so far and the locals of `takeHit`
that the rest of the function reads. -/
structure Hit where
  w : World
  dmg : Int
  crit : Bool
  is_overhit : Bool
  missed : Bool

/-- Lines 494-504: the crit roll, then crit scaling or else overhit scaling. -/
def critStep (env : Env) (pw : Power) (w : World) (dmg : Int) (is_overhit missed : Bool) :
    Hit :=
  let roll := percentChance w.rng .crit (trueCritChance pw w.h w.ent.stats)
  if roll.1 then
    let scale := randBetween roll.2 .critScale env.MIN_CRIT_DAMAGE env.MAX_CRIT_DAMAGE
    { w := { w with
        rng := scale.2
        shaky_cam_ticks :=
          if !w.ent.stats.hero then cdiv env.MAX_FRAMES_PER_SEC 2 else w.shaky_cam_ticks }
      dmg := cdiv (dmg * scale.1) 100
      crit := true, is_overhit := is_overhit, missed := missed }
  else if is_overhit then
    let scale := randBetween roll.2 .overhitScale env.MIN_OVERHIT_DAMAGE env.MAX_OVERHIT_DAMAGE
    { w := { w with rng := scale.2 }
      dmg := cdiv (dmg * scale.1) 100
      crit := false, is_overhit := is_overhit, missed := missed }
  else
    { w := { w with rng := roll.2 }
      dmg := dmg, crit := false, is_overhit := is_overhit, missed := missed }

/-- Lines 507-509: a miss scales the damage down. -/
def missStep (env : Env) (hit : Hit) : Hit :=
  if hit.missed then
    let scale := randBetween hit.w.rng .missScale env.MIN_MISS_DAMAGE env.MAX_MISS_DAMAGE
    { hit with
      w := { hit.w with rng := scale.2 }
      dmg := cdiv (hit.dmg * scale.1) 100 }
  else hit

/-- Lines 394-509: accuracy, avoidance and the whole damage computation. -/
def damagePipeline (env : Env) (pw : Power) (w : World) : Except Fault Hit :=
  let overhit := overhitRoll pw w
  let miss := missRoll env pw w overhit.2
  let base := baseDamage pw w.h miss.2
  (absorptionStep env pw { w with rng := base.2 } (applyResist env w.h w.ent.stats base.1)).map
    fun r => missStep env (critStep env pw r.2 r.1 overhit.1 miss.1)

/-- Lines 516-525: the damage number shown for a non-zero hit. -/
def damageText (hit : Hit) : Event :=
  if hit.w.ent.stats.hero then
    .addInt hit.dmg hit.w.ent.stats.pos .COMBAT_MESSAGE_TAKEDMG
  else if hit.crit || hit.is_overhit then
    .addInt hit.dmg hit.w.ent.stats.pos .COMBAT_MESSAGE_CRIT
  else if hit.missed then
    .addInt hit.dmg hit.w.ent.stats.pos .COMBAT_MESSAGE_MISS
  else .addInt hit.dmg hit.w.ent.stats.pos .COMBAT_MESSAGE_GIVEDMG

/-- Lines 548-549 and 555-556: the amount stolen, raised from 0 to 1. -/
def stealAmount (dmg prev_hp percent : Int) : Int :=
  if cdiv (min dmg prev_hp * percent) 100 = 0 then 1 else cdiv (min dmg prev_hp * percent) 100

/-- Lines 546-552: HP steal. -/
def stealHp (w : World) (dmg prev_hp : Int) : World :=
  if !w.ent.stats.effects.immunity_hp_steal
      && w.h.hp_steal + w.source.get .STAT_HP_STEAL != 0 then
    { w.setSource
        { w.source with
          hp := min
            (w.source.hp + stealAmount dmg prev_hp (w.h.hp_steal + w.source.get .STAT_HP_STEAL))
            (w.source.get .STAT_HP_MAX) } with
      log := w.log ++ [.addString
        (.hpSteal (stealAmount dmg prev_hp (w.h.hp_steal + w.source.get .STAT_HP_STEAL)))
        w.source.pos .COMBAT_MESSAGE_BUFF] }
  else w

/-- Lines 553-559: MP steal. -/
def stealMp (w : World) (dmg prev_hp : Int) : World :=
  if !w.ent.stats.effects.immunity_mp_steal
      && w.h.mp_steal + w.source.get .STAT_MP_STEAL != 0 then
    { w.setSource
        { w.source with
          mp := min
            (w.source.mp + stealAmount dmg prev_hp (w.h.mp_steal + w.source.get .STAT_MP_STEAL))
            (w.source.get .STAT_MP_MAX) } with
      log := w.log ++ [.addString
        (.mpSteal (stealAmount dmg prev_hp (w.h.mp_steal + w.source.get .STAT_MP_STEAL)))
        w.source.pos .COMBAT_MESSAGE_BUFF] }
  else w

/-- Lines 563-566: the damage returned to the source,
`static_cast<int>(static_cast<float>(dmg * return_damage) / 100.f)`, raised from
0 to 1. -/
def returnAmount (dmg return_damage : Int) : Int :=
  if truncRat (roundFloat (roundFloat ((dmg * return_damage : Int) : Rat) / 100)) = 0 then 1
  else truncRat (roundFloat (roundFloat ((dmg * return_damage : Int) : Rat) / 100))

/-- Lines 562-570: return damage. -/
def returnDamage (w : World) (dmg : Int) : World :=
  if !w.source.effects.immunity_damage_reflect && w.ent.stats.get .STAT_RETURN_DAMAGE > 0 then
    { w.setSource
        (w.source.takeDamage (returnAmount dmg (w.ent.stats.get .STAT_RETURN_DAMAGE))) with
      log := w.log ++
        [.takeDamageSource (returnAmount dmg (w.ent.stats.get .STAT_RETURN_DAMAGE)),
         .addInt (returnAmount dmg (w.ent.stats.get .STAT_RETURN_DAMAGE)) w.source.pos
           .COMBAT_MESSAGE_GIVEDMG] }
  else w

/-- Lines 541-543: break stun, then apply the power's effects to target and
source.  When both pointers are on the same StatBlock, `target` of the
collaborator's result is what it leaves in that StatBlock. -/
def applyEffects (env : Env) (w : World) : World :=
  let w1 := w.setStats { w.ent.stats with
    effects := env.removeEffectType w.ent.stats.effects .EFFECT_STUN }
  let r := env.effect w1.ent.stats w1.source w.h.power_index w.h.source_type w.rng
  { (w1.setSource r.source).setStats r.target with
    rng := r.rng, log := w.log ++ r.events.map .collaborator }

/-- Lines 575-580: remove the listed effects and maybe trigger the post power. -/
def postPower (env : Env) (pw : Power) (w : World) : World :=
  let w1 := w.setStats { w.ent.stats with
    effects := env.removeEffectID w.ent.stats.effects pw.remove_effects }
  if w1.h.post_power > 0 then
    let roll := percentChance w1.rng .postPower w1.h.post_power_chance
    if roll.1 then
      let r := env.activate w1.h.post_power w1.source w1.ent.stats.pos roll.2
      { w1.setSource r.source with
        rng := r.rng, log := w1.log ++ r.events.map .collaborator }
    else { w1 with rng := roll.2 }
  else w1

/-- Lines 529-581: apply the damage, then the after effects. -/
def afterEffects (env : Env) (pw : Power) (w : World) (dmg : Int) : World :=
  let w1 := (w.setStats (w.ent.stats.takeDamage dmg)).emit (.takeDamageTarget dmg)
  if dmg > 0 || pw.ignore_zero_damage then
    postPower env pw
      (returnDamage (stealMp (stealHp (applyEffects env w1) dmg w.ent.stats.hp)
        dmg w.ent.stats.hp) dmg)
  else w1

/-- Lines 587-601: the target died. -/
def die (w : World) (crit : Bool) : World :=
  let s := { w.ent.stats with
    effects := { w.ent.stats.effects with triggered_death := true } }
  if s.hero then w.setStats { s with cur_state := .AVATAR_DEAD }
  else
    ((w.emit (.doRewards w.h.source_type)).setStats
      { s with cur_state := if crit then .ENEMY_CRITDEAD else .ENEMY_DEAD }).emit
        (.unblock s.pos)

/-- Lines 611-614 and 621-624: switch to the power state with an AI power. -/
def castAIPower (w : World) (ai_power : AIPower) : World :=
  w.setStats { w.ent.stats with
    cur_state := .ENEMY_POWER, activated_power := some ai_power, cooldown_ticks := 0 }

/-- Lines 629-647: the hit animation, when the hit cooldown is over. -/
def hitState (w : World) (chance_poise crit : Bool) : World :=
  if w.ent.stats.cooldown_hit_ticks == 0 then
    let s := { w.ent.stats with cooldown_hit_ticks := w.ent.stats.cooldown_hit }
    if !s.effects.stun && (!chance_poise || crit) && !s.prevent_interrupt then
      let s1 :=
        if s.hero then { s with cur_state := .AVATAR_HIT }
        else if s.cur_state == .ENEMY_POWER then
          { s with cooldown_ticks := s.cooldown, activated_power := none, cur_state := .ENEMY_HIT }
        else { s with cur_state := .ENEMY_HIT }
      w.setStats (if s1.untransform_on_hit then { s1 with transform_duration := 0 } else s1)
    else w.setStats s
  else w

/-- Lines 584-650: the state transition after the damage was applied. -/
def interrupt (env : Env) (w : World) (dmg : Int) (crit was_debuffed : Bool) : World :=
  if dmg > 0 then
    let poise := percentChance w.rng .poise (w.ent.stats.get .STAT_POISE)
    let w1 := { w with rng := poise.2 }
    if w1.ent.stats.hp ≤ 0 then die w1 crit
    else
      let w2 := if w1.ent.stats.cooldown_hit_ticks == 0 then playSound w1 .ENTITY_SOUND_HIT else w1
      let debuff :=
        if !was_debuffed && env.isDebuffed w2.ent.stats.effects then
          env.getAIPower w2.ent.stats .AI_POWER_DEBUFF w2.rng
        else (none, w2.rng)
      match debuff.1 with
      | some ai_power => castAIPower { w2 with rng := debuff.2 } ai_power
      | none =>
        let onhit := env.getAIPower w2.ent.stats .AI_POWER_HIT debuff.2
        match onhit.1 with
        | some ai_power => castAIPower { w2 with rng := onhit.2 } ai_power
        | none => hitState { w2 with rng := onhit.2 } poise.1 crit
  else w

/-- Lines 511-651: report the result, apply the damage and its after effects,
and move the target to its new state. -/
def resolve (env : Env) (pw : Power) (hit : Hit) : Bool × World :=
  if !pw.ignore_zero_damage && hit.dmg == 0 then
    (false, hit.w.emit (.addString .miss hit.w.ent.stats.pos .COMBAT_MESSAGE_MISS))
  else
    let w1 := if !pw.ignore_zero_damage then hit.w.emit (damageText hit) else hit.w
    (true, interrupt env (afterEffects env pw w1 hit.dmg) hit.dmg hit.crit
      (env.isDebuffed hit.w.ent.stats.effects))

/-- Line 372: the reflect roll, drawn only for a missile. -/
def reflectRoll (w : World) : Bool × World :=
  if w.h.missile then
    ((percentChance w.rng .reflect (w.ent.stats.get .STAT_REFLECT)).1,
      { w with rng := (percentChance w.rng .reflect (w.ent.stats.get .STAT_REFLECT)).2 })
  else (false, w)

/-- The function `Entity::takeHit` (lines 298-651). -/
def takeHit (env : Env) (w : World) : Except Fault (Bool × World) :=
  if categoryMismatch env w then .ok (false, w)
  else if powerFiltered w then .ok (false, w)
  else if alreadyDead w then .ok (false, w)
  else if movementNotTargeted w then .ok (false, w)
  else if wallBlocked env w then .ok (false, w)
  else if invincibleFilter env w then .ok (false, w)
  else if (env.power w).beacon then .ok (false, aggro env w)
  else if (reflectRoll (aggro env w)).1 then reflect (reflectRoll (aggro env w)).2
  else
    (damagePipeline env (env.power w) (reflectRoll (aggro env w)).2).map
      (resolve env (env.power w))

/-- The hazard passes the six filters of lines 300-359. -/
def passesFilters (env : Env) (w : World) : Bool :=
  !categoryMismatch env w && !powerFiltered w && !alreadyDead w && !movementNotTargeted w
    && !wallBlocked env w && !invincibleFilter env w

/-- The arguments of the calls of `takeDamage` on the target that a log
records, in order. -/
def targetDamage (log : List Event) : List Int :=
  log.filterMap fun e =>
    match e with
    | .takeDamageTarget d => some d
    | _ => none

/-- The arguments of the calls of `takeDamage` through `h.src_stats` that a
log records, in order. -/
def sourceDamage (log : List Event) : List Int :=
  log.filterMap fun e =>
    match e with
    | .takeDamageSource d => some d
    | _ => none

/-! ## Sample data -/

/-- A status-effect set with nothing active. -/
def sampleEffects : EffectManager :=
  { effect_list := [], stun := false, speed := 100, knockback_speed := 0,
    triggered_block := false, triggered_death := false, immunity_hp_steal := false,
    immunity_mp_steal := false, immunity_damage_reflect := false }

/-- A live enemy with 100 hit points and all derived stats at 0. -/
def sampleStats : StatBlock :=
  { name := "enemy", hero := false, hero_ally := false, categories := [],
    power_filter := [], cur_state := .OTHER 0, movement_type := .MOVEMENT_NORMAL,
    pos := ⟨3, 4⟩, direction := 0, speed := 1, charge_speed := 0,
    invincible_requires_status := [], invincible_requires_not_status := [],
    in_combat := false, join_combat := false, hp := 100, mp := 0,
    current := fun _ => 0, vulnerable := [], perfect_accuracy := false,
    effects := sampleEffects, cooldown_ticks := 0, cooldown := 0,
    cooldown_hit_ticks := 0, cooldown_hit := 0, activated_power := none,
    prevent_interrupt := false, untransform_on_hit := false, transform_duration := 0 }

/-- The hero as the source of a hazard: 50 of 80 hit points, 5 of 20 mana. -/
def sampleSource : StatBlock :=
  { sampleStats with
    name := "hero", hero := true, pos := ⟨1, 1⟩, hp := 50, mp := 5
    current := fun s =>
      match s with
      | .STAT_HP_MAX => 80
      | .STAT_MP_MAX => 20
      | _ => 0 }

/-- A plain power: no modifiers, no flags. -/
def samplePower : Power :=
  { target_categories := [], no_aggro := false, beacon := false,
    mod_accuracy_mode := .OTHER 0, mod_accuracy_value := 0, trait_avoidance_ignore := false,
    mod_damage_mode := .OTHER 0, mod_damage_value_min := 0, mod_damage_value_max := 0,
    ignore_zero_damage := false, mod_crit_mode := .OTHER 0, mod_crit_value := 0,
    remove_effects := [] }

/-- A hero's melee hazard: accuracy 100, damage 10 to 10, no element. -/
def sampleHazard : Hazard :=
  { power_index := 1, pos := ⟨1, 1⟩, source_type := .SOURCE_TYPE_HERO,
    target_movement_normal := true, target_movement_flying := true,
    target_movement_intangible := true, walls_block_aoe := false, missile := false,
    angle := 0, lifespan := 3, base_lifespan := 10, accuracy := 100, dmg_min := 10,
    dmg_max := 10, crit_chance := 0, trait_elemental := -1,
    trait_armor_penetration := false, trait_crits_impaired := 0, hp_steal := 0,
    mp_steal := 0, post_power := 0, post_power_chance := 0 }

/-- The engine's default combat settings, an open map, no campaign status set
and collaborators that leave everything as it is. -/
def sampleEnv : Env :=
  { MIN_AVOIDANCE := 0, MAX_AVOIDANCE := 99, MIN_RESIST := 0, MAX_RESIST := 100,
    MIN_BLOCK := 0, MAX_BLOCK := 100, MIN_ABSORB := 0, MAX_ABSORB := 100,
    MIN_CRIT_DAMAGE := 200, MAX_CRIT_DAMAGE := 200, MIN_OVERHIT_DAMAGE := 100,
    MAX_OVERHIT_DAMAGE := 100, MIN_MISS_DAMAGE := 0, MAX_MISS_DAMAGE := 0,
    MAX_FRAMES_PER_SEC := 60,
    powers := fun _ => samplePower,
    checkStatus := fun _ => false,
    line_of_movement := fun _ _ _ => true,
    isDebuffed := fun e => e.stun,
    removeEffectType := fun e t => { e with effect_list := e.effect_list.filter (·.type != t) },
    removeEffectID := fun e ids => { e with effect_list := e.effect_list.filter (!ids.contains ·.id) },
    effect := fun t s _ _ g => { target := t, source := s, rng := g, events := [] },
    activate := fun _ s _ g => { source := s, rng := g, events := [] },
    getAIPower := fun _ _ g => (none, g) }

/-- An entity in its "stance" animation, without sounds. -/
def sampleEntity : Entity :=
  { stats := sampleStats, activeAnimation := some ⟨"stance", 2⟩,
    sound_hit := [], sound_die := [], sound_critdie := [], sound_block := [] }

/-- The sample hazard about to hit the sample enemy; every `rand()` gives 7. -/
def sampleWorld : World :=
  { ent := sampleEntity, src := sampleSource, src_is_self := false, h := sampleHazard,
    rng := { stream := fun _ => 7, pos := 0, trace := [] }, log := [], shaky_cam_ticks := 0 }

/-- The sample world with an enemy that has already died. -/
def deadWorld : World :=
  sampleWorld.setStats { sampleStats with cur_state := .ENEMY_DEAD, hp := 0 }

/-- The sample world with a hazard that cannot hit ground targets. -/
def flyingOnlyWorld : World :=
  { sampleWorld with h := { sampleHazard with target_movement_normal := false } }

/-- The sample world with a target that has only 5 hit points left. -/
def weakWorld : World :=
  sampleWorld.setStats { sampleStats with hp := 5 }

/-- An observation of the world after a call, if it returned. -/
def observe {α : Type} (r : Except Fault (Bool × World)) (f : World → α) : Option α :=
  match r with
  | .ok (_, w) => some (f w)
  | .error _ => none

/-- What a call returned, if it returned. -/
def returned (r : Except Fault (Bool × World)) : Option Bool :=
  match r with
  | .ok (b, _) => some b
  | .error _ => none

/-- The sample settings with a power that subtracts 20 from the damage. -/
def weakeningEnv : Env :=
  { sampleEnv with
    powers := fun _ =>
      { samplePower with
        mod_damage_mode := .STAT_MODIFIER_MODE_ADD, mod_damage_value_min := -20 } }

/-- The sample world with a target whose armor absorbs 4 points. -/
def armouredWorld : World :=
  sampleWorld.setStats
    { sampleStats with
      current := fun s =>
        match s with
        | .STAT_ABS_MIN => 4
        | .STAT_ABS_MAX => 4
        | _ => 0 }

/-- The sample world with an armor-penetrating hazard. -/
def piercingWorld : World :=
  { sampleWorld with h := { sampleHazard with trait_armor_penetration := true } }

/-- The sample world with a hazard that hits for 150, more than the target has. -/
def lethalWorld : World :=
  { sampleWorld with h := { sampleHazard with dmg_min := 150, dmg_max := 150 } }

/-- The sample world with a hazard whose HP steal is -50 percent. -/
def drainWorld : World :=
  { sampleWorld with h := { sampleHazard with hp_steal := -50 } }

/-- The sample world with a hazard that steals 30 percent HP and 5 percent MP. -/
def stealWorld : World :=
  { sampleWorld with h := { sampleHazard with hp_steal := 30, mp_steal := 5 } }

/-- The sample world with a target that reflects every missile. -/
def reflectWorld : World :=
  { sampleWorld.setStats
      { sampleStats with
        current := fun s =>
          match s with
          | .STAT_REFLECT => 100
          | _ => 0 } with
    h := { sampleHazard with missile := true } }

/-- The reflecting target struck by a missile that belongs to nobody. -/
def neutralMissileWorld : World :=
  { reflectWorld with h := { reflectWorld.h with source_type := .OTHER 1 } }

/-- The sample settings with the avoidance band widened to 0..100. -/
def wideBandEnv : Env := { sampleEnv with MAX_AVOIDANCE := 100 }

/-- The sample world with a hazard of accuracy 0. -/
def inaccurateWorld : World :=
  { sampleWorld with h := { sampleHazard with accuracy := 0 } }

/-- The accuracy-0 hazard fired by a source with perfect accuracy. -/
def perfectWorld : World :=
  { inaccurateWorld with src := { sampleSource with perfect_accuracy := true } }

/-- The sample settings with a pure beacon as the only power. -/
def beaconEnv : Env :=
  { sampleEnv with powers := fun _ => { samplePower with beacon := true } }

/-- The sample world with a target that is an ally of the hero. -/
def allyWorld : World :=
  sampleWorld.setStats { sampleStats with hero_ally := true }

/-- The sample settings with a minimum avoidance of 5 percent. -/
def strictEnv : Env := { sampleEnv with MIN_AVOIDANCE := 5 }

/-- The sample world with a random source that always gives 3. -/
def lowRollWorld : World :=
  { sampleWorld with rng := { stream := fun _ => 3, pos := 0, trace := [] } }

/-- The sample world with a stunned target and a hazard with a 50 percent crit
bonus against impaired targets. -/
def stunnedWorld : World :=
  { sampleWorld.setStats
      { sampleStats with effects := { sampleEffects with stun := true } } with
    h := { sampleHazard with trait_crits_impaired := 50 } }

/-- The sample world with a fire hazard (element 0) on a target that takes half
damage from fire and one and a half times the damage from ice. -/
def fireWorld : World :=
  { sampleWorld.setStats { sampleStats with vulnerable := [50, 150] } with
    h := { sampleHazard with trait_elemental := 0 } }

/-- The sample world with armor that absorbs 50 points, more than the hazard
deals. -/
def plateWorld : World :=
  sampleWorld.setStats
    { sampleStats with
      current := fun s =>
        match s with
        | .STAT_ABS_MIN => 50
        | .STAT_ABS_MAX => 50
        | _ => 0 }

/-- The sample settings with absorption capped at 90 percent and crit, overhit
and miss damage bands of 200..300, 100..150 and 20..40 percent. -/
def bandEnv : Env :=
  { sampleEnv with
    MAX_ABSORB := 90, MIN_CRIT_DAMAGE := 200, MAX_CRIT_DAMAGE := 300,
    MIN_OVERHIT_DAMAGE := 100, MAX_OVERHIT_DAMAGE := 150,
    MIN_MISS_DAMAGE := 20, MAX_MISS_DAMAGE := 40 }

/-- The sample world with a target that returns 50 percent of the damage. -/
def thornsWorld : World :=
  sampleWorld.setStats
    { sampleStats with
      current := fun s =>
        match s with
        | .STAT_RETURN_DAMAGE => 50
        | _ => 0 }

/-- The sample settings with a power that ignores zero damage and subtracts 20
from the damage. -/
def cursingEnv : Env :=
  { sampleEnv with
    powers := fun _ =>
      { samplePower with
        ignore_zero_damage := true
        mod_damage_mode := .STAT_MODIFIER_MODE_ADD, mod_damage_value_min := -20 } }

/-- The damage-returning target struck by an armor-penetrating hazard. -/
def piercedThornsWorld : World :=
  { thornsWorld with h := { sampleHazard with trait_armor_penetration := true } }

/-- The fault a call ended in, if it did not return. -/
def faulted (r : Except Fault (Bool × World)) : Option Fault :=
  match r with
  | .ok _ => none
  | .error e => some e

/-- The reflecting target without an active animation (the state the
constructor leaves, and `setAnimation` after a failed lookup). -/
def nullReflectWorld : World :=
  { reflectWorld with ent := { reflectWorld.ent with activeAnimation := none } }

/-- The heavily armored target without an active animation. -/
def nullPlateWorld : World :=
  { plateWorld with ent := { plateWorld.ent with activeAnimation := none } }

/-- The place of a draw in the sequence reflect roll, overhit roll, miss roll,
damage roll, crit roll, miss-scale roll, poise roll; none for every other
draw. -/
def Draw.order : Draw → Option Nat
  | .reflect => some 0
  | .overhit => some 1
  | .miss => some 2
  | .damage => some 3
  | .crit => some 4
  | .missScale => some 5
  | .poise => some 6
  | _ => none

/-- The places of the draws of a trace that belong to the sequence. -/
def drawOrders (t : List Draw) : List Nat := t.filterMap Draw.order

/-- The draws made between two states of the random source are added at the
end of the trace, those of the sequence at most once each and in its order,
with places from `lo` up to but not including `hi`. -/
def drawsWithin (g g' : Rng) (lo hi : Nat) : Prop :=
  ∃ l, g'.trace = g.trace ++ l ∧ (drawOrders l).Pairwise (· < ·)
    ∧ ∀ r ∈ drawOrders l, lo ≤ r ∧ r < hi

/-- A collaborator hands the random source back with its own draws added to
the trace, none of them of the sequence. -/
def externalDraws (g g' : Rng) : Prop :=
  ∃ l, g'.trace = g.trace ++ l ∧ drawOrders l = []

/-- The collaborators that draw random numbers keep their draws apart from
those of `takeHit`. -/
def Env.drawsApart (env : Env) : Prop :=
  (∀ t s i c g, externalDraws g (env.effect t s i c g).rng)
  ∧ (∀ i s p g, externalDraws g (env.activate i s p g).rng)
  ∧ ∀ s k g, externalDraws g (env.getAIPower s k g).2

/-! ## `FontEngine.cpp` -/

/-- Line 240: the byte is a UTF-8 continuation byte, `(c & 0xc0) == 0x80`. -/
def isContinuation (c : Nat) : Bool := c &&& 0xc0 == 0x80

/-- The loop of lines 239-247 of `popTokenByWidth`, with `n` indices still to
visit starting at `i`; the result is `new_length`.  A text is a list of bytes;
`calc_width` is the font backend's width of a text in pixels. -/
def popScan (calc_width : List Nat → Int) (text : List Nat) (width : Int) :
    Nat → Nat → Nat → Nat
  | 0, _, new_length => new_length
  | n + 1, i, new_length =>
    if i < text.length && isContinuation (text.getD i 0) then
      popScan calc_width text width n (i + 1) new_length
    else if calc_width (text.take i) > width then new_length
    else popScan calc_width text width n (i + 1) i

/-- The function `FontEngine::popTokenByWidth` (lines 236-257): the first
component is `text` after the call, the second the string returned. -/
def popTokenByWidth (calc_width : List Nat → Int) (text : List Nat) (width : Int) :
    List Nat × List Nat :=
  if popScan calc_width text width (text.length + 1) 0 0 > 0 then
    (text.take (popScan calc_width text width (text.length + 1) 0 0),
      text.drop (popScan calc_width text width (text.length + 1) 0 0))
  else (text, text)

/-- A font in which every byte is 10 pixels wide. -/
def tenPixelFont (text : List Nat) : Int := 10 * text.length

/-! ## `Entity.cpp`: movement -/

/-- A tile position (`Point`). -/
structure Point where
  x : Int
  y : Int
deriving DecidableEq

/-- Modelled from the spec: `FPointToPoint` converts both coordinates of a
position to `int`, giving the tile the position lies on. -/
def FPointToPoint (p : FPoint) : Point := ⟨truncRat p.x, truncRat p.y⟩

/-- Modelled from the spec: `calcDist` is the distance between two positions.
The search only compares distances with each other and with 0, which the
squares of the distances decide in the same way, so the square is used. -/
def calcDistSq (a b : FPoint) : Rat :=
  (b.x - a.x) * (b.x - a.x) + (b.y - a.y) * (b.y - a.y)

/-- The map as far as `Entity::move` needs it: its size and the collision
oracle (`mapr->w`, `mapr->h`, `mapr->collider`).  The oracle's `move` gives
back whether the whole displacement was applied and the position reached. -/
structure MapRenderer where
  w : Int
  h : Int
  is_valid_position : Rat → Rat → MovementType → Bool → Bool
  move : FPoint → Rat → Rat → MovementType → Bool → Bool × FPoint

/-- Calls that movement makes to the log and to the collision oracle. -/
inductive MoveEvent where
  | logInfo (name : String) (original_pos : FPoint) (pos : FPoint)
  | colliderMove (pos : FPoint) (dx dy : Rat)
deriving DecidableEq

/-- An entity's StatBlock and the calls made so far. -/
structure MoveState where
  stats : StatBlock
  log : List MoveEvent

/-- The locals `shortest_dist` (squared, see `calcDistSq`) and `shortest_pos`
of the ring search; both start at 0. -/
structure Nearest where
  shortest_dist : Rat
  shortest_pos : FPoint
deriving DecidableEq

/-- The position is valid for the entity (`is_valid_position` with the entity's
movement type and hero flag). -/
def validAt (m : MapRenderer) (s : StatBlock) (x y : Rat) : Bool :=
  m.is_valid_position x y s.movement_type s.hero

/-- Lines 208-212: the push along x. -/
def pushX (m : MapRenderer) (s : StatBlock) : Rat :=
  (if validAt m s (s.pos.x + 1) s.pos.y then
      (1 / 10) * (2 - ((truncRat (s.pos.x + 1) : Rat) + 1 / 2 - s.pos.x))
    else 0)
  - (if validAt m s (s.pos.x - 1) s.pos.y then
      (1 / 10) * (2 - (s.pos.x - ((truncRat (s.pos.x - 1) : Rat) + 1 / 2)))
    else 0)

/-- Lines 214-218: the push along y. -/
def pushY (m : MapRenderer) (s : StatBlock) : Rat :=
  (if validAt m s s.pos.x (s.pos.y + 1) then
      (1 / 10) * (2 - ((truncRat (s.pos.y + 1) : Rat) + 1 / 2 - s.pos.y))
    else 0)
  - (if validAt m s s.pos.x (s.pos.y - 1) then
      (1 / 10) * (2 - (s.pos.y - ((truncRat (s.pos.y - 1) : Rat) + 1 / 2)))
    else 0)

/-- Lines 236-243: one tile of the search.  The distance measured is the one
between the entity and `shortest_pos`, as in the source. -/
def visitTile (m : MapRenderer) (s : StatBlock) (acc : Nearest) (i j : Int) : Nearest :=
  if validAt m s i j then
    if acc.shortest_dist == 0 || calcDistSq s.pos acc.shortest_pos < acc.shortest_dist then
      ⟨calcDistSq s.pos acc.shortest_pos, ⟨(i : Rat) + 1 / 2, (j : Rat) + 1 / 2⟩⟩
    else acc
  else acc

/-- The values `c - radius, ..., c + radius` of a loop variable. -/
def span (c radius : Int) : List Int :=
  (List.range (2 * radius + 1).toNat).map fun k => c - radius + (k : Int)

/-- Lines 234-245: the two nested loops over the square of the given radius. -/
def scanSquare (m : MapRenderer) (s : StatBlock) (src_pos : Point) (radius : Int)
    (acc : Nearest) : Nearest :=
  (span src_pos.x radius).foldl
    (fun a i => (span src_pos.y radius).foldl (fun b j => visitTile m s b i j) a) acc

/-- Result of the ring search: the locals on leaving the loop and the number
of squares scanned. -/
structure RingResult where
  nearest : Nearest
  radius : Int
  steps : Nat

/-- Lines 233-251: the loop over the radius, with `n` radii left up to
`max(mapr->w, mapr->h)`. -/
def ringLoop (m : MapRenderer) (s : StatBlock) (src_pos : Point) :
    Nat → Int → Nearest → Nat → RingResult
  | 0, radius, acc, steps => ⟨acc, radius, steps⟩
  | n + 1, radius, acc, steps =>
    if (scanSquare m s src_pos radius acc).shortest_dist != 0 then
      ⟨scanSquare m s src_pos radius acc, radius, steps + 1⟩
    else ringLoop m s src_pos n (radius + 1) (scanSquare m s src_pos radius acc) (steps + 1)

/-- Lines 228-251: the ring search around the tile of the entity. -/
def ringSearch (m : MapRenderer) (s : StatBlock) : RingResult :=
  ringLoop m s (FPointToPoint s.pos) (max m.w m.h).toNat 1 ⟨0, ⟨0, 0⟩⟩ 0

/-- Lines 203-252: one pass through the body of the outer loop. -/
def sweep (m : MapRenderer) (s : StatBlock) : StatBlock :=
  if pushX m s == 0 && pushY m s == 0 then
    if (ringSearch m { s with pos := ⟨s.pos.x + pushX m s, s.pos.y + pushY m s⟩ }).nearest.shortest_dist
        != 0 then
      { s with pos := (ringSearch m
          { s with pos := ⟨s.pos.x + pushX m s, s.pos.y + pushY m s⟩ }).nearest.shortest_pos }
    else { s with pos := ⟨s.pos.x + pushX m s, s.pos.y + pushY m s⟩ }
  else { s with pos := ⟨s.pos.x + pushX m s, s.pos.y + pushY m s⟩ }

/-- Lines 202-253: the outer loop, run for at most `fuel` tests of its
condition; `none` when it has not ended by then. -/
def unstick (m : MapRenderer) : Nat → StatBlock → Option StatBlock
  | 0, _ => none
  | fuel + 1, s =>
    if validAt m s s.pos.x s.pos.y then some s else unstick m fuel (sweep m s)

/-- The function `Entity::move_from_offending_tile` (lines 188-263). -/
def move_from_offending_tile (m : MapRenderer) (fuel : Nat) (st : MoveState) :
    Option MoveState :=
  match unstick m fuel st.stats with
  | none => none
  | some s =>
    if !validAt m st.stats st.stats.pos.x st.stats.pos.y then
      some { stats := s, log := st.log ++ [.logInfo s.name st.stats.pos s.pos] }
    else some { stats := s, log := st.log }

/-- Lines 49-50: the steps of the eight directions. -/
def directionDeltaX : List Int := [-1, -1, -1, 0, 1, 1, 1, 0]

/-- Line 50: the steps of the eight directions along y. -/
def directionDeltaY : List Int := [1, 0, -1, -1, -1, 0, 1, 1]

/-- The `float` nearest to 1/sqrt(2), which is what
`static_cast<float>(1.0/M_SQRT2)` gives. -/
def invSqrt2 : Rat := 11863283 / 16777216

/-- Line 51: the speed factors of the eight directions. -/
def speedMultiplyer : List Rat := [invSqrt2, 1, invSqrt2, 1, invSqrt2, 1, invSqrt2, 1]

/-- The function `Entity::move` (lines 271-290), with `fuel` for the recovery
loop; `none` when that loop has not ended.  An index outside the direction
tables is a fault. -/
def move (m : MapRenderer) (fuel : Nat) (st : MoveState) :
    Option (Except Fault (Bool × MoveState)) :=
  match move_from_offending_tile m fuel st with
  | none => none
  | some st1 =>
    if st1.stats.effects.knockback_speed != 0 then some (.ok (false, st1))
    else if st1.stats.effects.stun || st1.stats.effects.speed == 0 then some (.ok (false, st1))
    else if st1.stats.charge_speed != 0 then some (.ok (false, st1))
    else
      match speedMultiplyer[st1.stats.direction]?, directionDeltaX[st1.stats.direction]?,
          directionDeltaY[st1.stats.direction]? with
      | some mult, some deltaX, some deltaY =>
        let speed := st1.stats.speed * mult * (st1.stats.effects.speed : Rat) / 100
        let r := m.move st1.stats.pos (speed * (deltaX : Rat)) (speed * (deltaY : Rat))
          st1.stats.movement_type st1.stats.hero
        some (.ok (r.1,
          { stats := { st1.stats with pos := r.2 }
            log := st1.log ++
              [.colliderMove st1.stats.pos (speed * (deltaX : Rat)) (speed * (deltaY : Rat))] }))
      | _, _, _ => some (.error .directionOutOfRange)

/-- The recovery loop ends: some amount of fuel gives a result. -/
def recovers (m : MapRenderer) (st : MoveState) : Prop :=
  ∃ fuel st', move_from_offending_tile m fuel st = some st'

/-- A square map of the given size on which exactly the listed tiles are
valid; the oracle's `move` applies a displacement if it ends on a valid tile. -/
def tileMap (size : Int) (tiles : List (Int × Int)) : MapRenderer :=
  { w := size, h := size,
    is_valid_position := fun x y _ _ => tiles.contains (truncRat x, truncRat y),
    move := fun p dx dy _ _ =>
      if tiles.contains (truncRat (p.x + dx), truncRat (p.y + dy)) then
        (true, ⟨p.x + dx, p.y + dy⟩)
      else (false, p) }

/-- A 3 by 3 map without any valid tile. -/
def sealedMap : MapRenderer := tileMap 3 []

/-- A 10 by 10 map whose only valid tiles are (3,3) and (7,7). -/
def gapMap : MapRenderer := tileMap 10 [(3, 3), (7, 7)]

/-- A 10 by 10 map whose valid tiles are (3,4), where the sample enemy stands,
and its eastern neighbour (4,4). -/
def corridorMap : MapRenderer := tileMap 10 [(3, 4), (4, 4)]

/-- The sample enemy at (1.5, 1.5), in the middle of a 3 by 3 map. -/
def sealedState : MoveState :=
  { stats := { sampleStats with pos := ⟨3 / 2, 3 / 2⟩ }, log := [] }

/-- The sample enemy at (5.2, 5.5), on tile (5,5). -/
def stuckState : MoveState :=
  { stats := { sampleStats with pos := ⟨26 / 5, 11 / 2⟩ }, log := [] }

/-- The sample enemy at (3, 4), facing east (direction 5), with speed 1/2. -/
def walkingState : MoveState :=
  { stats := { sampleStats with direction := 5, speed := 1 / 2 }, log := [] }

/-- The walking enemy, stunned. -/
def stunnedWalker : MoveState :=
  { stats := { walkingState.stats with effects := { sampleEffects with stun := true } },
    log := [] }

/-- The sample settings with the campaign status "b" set and no other. -/
def campaignEnv : Env := { sampleEnv with checkStatus := fun s => s == "b" }

/-- The sample world with an enemy that lists the statuses "a" and "b" in
`invincible_requires_status`. -/
def guardedWorld : World :=
  sampleWorld.setStats { sampleStats with invincible_requires_status := ["a", "b"] }

/-- The sample world with an enemy that lists only "b" in
`invincible_requires_status`. -/
def wardedWorld : World :=
  sampleWorld.setStats { sampleStats with invincible_requires_status := ["b"] }

/-! ## `Entity.cpp`: `setAnimation` -/

/-- What a call of `setAnimation` leaves behind: the value returned, the
entity, and the messages handed to `logError`. -/
structure AnimationChange where
  ret : Bool
  ent : Entity
  errors : List String

/-- Lines 663-672 of `setAnimation`: replace the active animation by what the
animation set gives for the name, report a missing one, and return
`activeAnimation == NULL`. -/
def loadAnimation (getAnimation : String → Option Animation) (e : Entity)
    (animationName : String) : AnimationChange :=
  match getAnimation animationName with
  | none =>
    { ret := true, ent := { e with activeAnimation := none },
      errors := ["Entity::setAnimation(" ++ animationName ++ "): not found"] }
  | some a => { ret := false, ent := { e with activeAnimation := some a }, errors := [] }

/-- The function `Entity::setAnimation` (lines 657-673); `getAnimation` is
`animationSet->getAnimation`, null when the set has no such animation. -/
def setAnimation (getAnimation : String → Option Animation) (e : Entity)
    (animationName : String) : AnimationChange :=
  match e.activeAnimation with
  | some a =>
    if a.name == animationName then { ret := true, ent := e, errors := [] }
    else loadAnimation getAnimation e animationName
  | none => loadAnimation getAnimation e animationName

/-- An animation set that has "stance" and "run" and nothing else. -/
def sampleAnimationSet (name : String) : Option Animation :=
  if name == "stance" || name == "run" then some ⟨name, 0⟩ else none

/-! ## `FontEngine.cpp`: `calc_size` -/

/-- What `calc_size` uses and `FontEngine.cpp` does not define: the font
backend's `calc_width` and `getLineHeight`, and `getNextToken` and `trim` of
UtilsParsing.  `getNextToken` gives the token and the new cursor, which is
absent for `std::string::npos`. -/
structure FontBackend where
  calc_width : List Nat → Int
  getLineHeight : Int
  getNextToken : List Nat → Nat → Nat → List Nat × Option Nat
  trim : List Nat → List Nat

/-- The locals of the long-token loop of `calc_size`. -/
structure LongToken where
  next_word : List Nat
  long_token : List Nat
  max_width : Int
  height : Int
deriving DecidableEq

/-- Lines 100-110: the loop over the pieces of a token wider than the line,
run for at most `fuel` tests of its condition; `none` when it has not ended
by then. -/
def longTokenLoop (f : FontBackend) (width : Int) : Nat → LongToken → Option LongToken
  | 0, _ => none
  | fuel + 1, s =>
    if s.long_token.isEmpty then some s
    else
      longTokenLoop f width fuel
        { next_word := (popTokenByWidth f.calc_width s.long_token width).1
          long_token := (popTokenByWidth f.calc_width s.long_token width).2
          max_width :=
            if f.calc_width s.next_word > s.max_width then f.calc_width s.next_word
            else s.max_width
          height := s.height + f.getLineHeight }

/-- The locals of the word loop of `calc_size`. -/
structure WordWrap where
  builder : List Nat
  builder_prev : List Nat
  next_word : List Nat
  cursor : Option Nat
  max_width : Int
  height : Int
deriving DecidableEq

/-- Lines 82-121: the loop over the words of one line of text, on fuel. -/
def wordLoop (f : FontBackend) (fulltext : List Nat) (width : Int) :
    Nat → WordWrap → Option WordWrap
  | 0, _ => none
  | fuel + 1, s =>
    match s.cursor with
    | none => some s
    | some cursor =>
      if f.calc_width (s.builder ++ s.next_word) > width then
        match longTokenLoop f width fuel
            { next_word := (popTokenByWidth f.calc_width s.next_word width).1
              long_token := (popTokenByWidth f.calc_width s.next_word width).2
              max_width :=
                if !s.builder_prev.isEmpty && f.calc_width s.builder_prev > s.max_width then
                  f.calc_width s.builder_prev
                else s.max_width
              height :=
                if !s.builder_prev.isEmpty then s.height + f.getLineHeight else s.height } with
        | none => none
        | some t =>
          wordLoop f fulltext width fuel
            { builder := t.next_word ++ [32], builder_prev := t.next_word ++ [32]
              next_word := (f.getNextToken fulltext cursor 32).1
              cursor := (f.getNextToken fulltext cursor 32).2
              max_width := t.max_width, height := t.height }
      else
        wordLoop f fulltext width fuel
          { builder := s.builder ++ s.next_word ++ [32]
            builder_prev := s.builder ++ s.next_word ++ [32]
            next_word := (f.getNextToken fulltext cursor 32).1
            cursor := (f.getNextToken fulltext cursor 32).2
            max_width := s.max_width, height := s.height }

/-- Lines 123-135: the size reported when the word loop has ended. -/
def finishSize (f : FontBackend) (text_with_newlines : List Nat) (s : WordWrap) : Point :=
  { x :=
      if f.calc_width (f.trim s.builder) > s.max_width then f.calc_width (f.trim s.builder)
      else s.max_width
    y :=
      (if !(f.trim s.builder).isEmpty then s.height + f.getLineHeight else s.height)
        + (if text_with_newlines == [32] then f.getLineHeight else 0) }

/-- The function `FontEngine::calc_size` (lines 47-136), on fuel: every
recursive call and every test of a loop condition takes one unit, and the
result is `none` when the fuel runs out. -/
def calc_size (f : FontBackend) : Nat → List Nat → Int → Option Point
  | 0, _, _ => none
  | fuel + 1, text, width =>
    if text.indexOf 10 < text.length then
      match calc_size f fuel (text.take (text.indexOf 10)) width,
          calc_size f fuel (text.drop (text.indexOf 10 + 1)) width with
      | some p1, some p2 => some { x := if p1.x > p2.x then p1.x else p2.x, y := p1.y + p2.y }
      | _, _ => none
    else
      (wordLoop f (text ++ [32]) width fuel
        { builder := [], builder_prev := [], max_width := 0, height := 0
          next_word := (f.getNextToken (text ++ [32]) 0 32).1
          cursor := (f.getNextToken (text ++ [32]) 0 32).2 }).map (finishSize f text)

/-- A tokeniser: the bytes from the cursor up to the next separator, with the
cursor moved behind that separator; no cursor when no separator is left. -/
def splitToken (s : List Nat) (cursor separator : Nat) : List Nat × Option Nat :=
  if (s.drop cursor).contains separator then
    ((s.drop cursor).takeWhile (· != separator),
      some (cursor + ((s.drop cursor).takeWhile (· != separator)).length + 1))
  else ([], none)

/-- Removal of the blanks at both ends of a text. -/
def trimBlanks (s : List Nat) : List Nat :=
  ((s.dropWhile (· == 32)).reverse.dropWhile (· == 32)).reverse

/-- A backend in which every byte is 10 pixels wide and a line 12 pixels high. -/
def tenPixelBackend : FontBackend :=
  { calc_width := tenPixelFont, getLineHeight := 12, getNextToken := splitToken,
    trim := trimBlanks }

/-! ## Names for the steps of the state transition of `takeHit` -/

/-- Lines 511-581 for a hit that is not turned into a miss by zero damage:
the world when the state transition of line 584 starts. -/
def damaged (env : Env) (pw : Power) (hit : Hit) : World :=
  afterEffects env pw (if !pw.ignore_zero_damage then hit.w.emit (damageText hit) else hit.w)
    hit.dmg

/-- Lines 585 and 604-605 for a target that survives: the poise roll is drawn
and the hit sound played if the hit cooldown is over. -/
def hitSound (w : World) : World :=
  if w.ent.stats.cooldown_hit_ticks == 0 then
    playSound { w with rng := (percentChance w.rng .poise (w.ent.stats.get .STAT_POISE)).2 }
      .ENTITY_SOUND_HIT
  else { w with rng := (percentChance w.rng .poise (w.ent.stats.get .STAT_POISE)).2 }

/-- Lines 608-609: the lookup of the on-debuff power, made only when the hit
newly caused a debuff. -/
def debuffLookup (env : Env) (w : World) (was_debuffed : Bool) : Option AIPower × Rng :=
  if !was_debuffed && env.isDebuffed w.ent.stats.effects then
    env.getAIPower w.ent.stats .AI_POWER_DEBUFF w.rng
  else (none, w.rng)

/-- Line 619: the lookup of the on-hit power. -/
def hitLookup (env : Env) (w : World) (was_debuffed : Bool) : Option AIPower × Rng :=
  env.getAIPower w.ent.stats .AI_POWER_HIT (debuffLookup env w was_debuffed).2

/-- The sample settings with power effects that stun the target, and an AI
that answers a debuff with power 7 and a hit with power 3. -/
def hexEnv : Env :=
  { sampleEnv with
    effect := fun t s _ _ g =>
      { target := { t with effects := { t.effects with stun := true } }, source := s, rng := g,
        events := [] }
    getAIPower := fun _ k g =>
      match k with
      | .AI_POWER_DEBUFF => (some ⟨.AI_POWER_DEBUFF, 7⟩, g)
      | .AI_POWER_HIT => (some ⟨.AI_POWER_HIT, 3⟩, g) }

/-- The sample settings with an AI that answers a hit with power 3. -/
def riposteEnv : Env :=
  { sampleEnv with
    getAIPower := fun _ k g =>
      match k with
      | .AI_POWER_DEBUFF => (none, g)
      | .AI_POWER_HIT => (some ⟨.AI_POWER_HIT, 3⟩, g) }

/-- The sample world with an enemy that is casting a power when it is hit. -/
def castingWorld : World :=
  sampleWorld.setStats
    { sampleStats with
      cur_state := .ENEMY_POWER, activated_power := some ⟨.AI_POWER_HIT, 3⟩, cooldown := 30,
      cooldown_hit := 20, untransform_on_hit := true, transform_duration := 50 }

/-- The four fields of a StatBlock that the hit-state step of lines 629-647
may write besides `cooldown_ticks`. -/
def StatBlock.hitFields (s : StatBlock) : EntityState × Int × Option AIPower × Int :=
  (s.cur_state, s.cooldown_hit_ticks, s.activated_power, s.transform_duration)

/-- The collaborator `PowerManager::effect` leaves those four fields of the
target as they are. -/
def Env.effectKeepsHitFields (env : Env) : Prop :=
  ∀ t s i c g, (env.effect t s i c g).target.hitFields = t.hitFields

/-- The collaborator `PowerManager::activate` leaves those four fields of the
source as they are. -/
def Env.activateKeepsHitFields (env : Env) : Prop :=
  ∀ i s p g, (env.activate i s p g).source.hitFields = s.hitFields

/-- Line 632: the hit interrupts the target. -/
def interrupts (s : StatBlock) (chance_poise crit : Bool) : Bool :=
  !s.effects.stun && (!chance_poise || crit) && !s.prevent_interrupt

/-- The sample world with an enemy whose hit cooldown has 5 ticks left. -/
def coolingWorld : World :=
  sampleWorld.setStats { sampleStats with cooldown_hit_ticks := 5, cooldown_hit := 20 }

/-- Lines 416-435: the damage after the power's modifier and the resistance
step, as it enters the absorption step. -/
def resistedDamage (env : Env) (pw : Power) (w : World) : Int :=
  applyResist env w.h w.ent.stats
    (baseDamage pw w.h (missRoll env pw w (overhitRoll pw w).2).2).1

/-- The sample settings with a power whose effect lifts the target's hit
points to 50. -/
def healEnv : Env :=
  { sampleEnv with
    effect := fun t s _ _ g =>
      { target := { t with hp := 50 }, source := s, rng := g, events := [] } }

/-- The sample settings with a power that ignores zero damage and whose effect
drains the target's hit points to 0. -/
def drainEnv : Env :=
  { sampleEnv with
    powers := fun _ => { samplePower with ignore_zero_damage := true }
    effect := fun t s _ _ g =>
      { target := { t with hp := 0 }, source := s, rng := g, events := [] } }

/-- The sample world with a hazard that does no damage. -/
def harmlessWorld : World :=
  { sampleWorld with h := { sampleHazard with dmg_min := 0, dmg_max := 0 } }

/-- A missile that has come back to its shooter: the target, with 50 of 80
hit points and 30 percent HP steal, is the hazard's own source. -/
def ownMissileWorld : World :=
  { sampleWorld with
    src_is_self := true
    ent := { sampleEntity with
      stats := { sampleStats with
        hp := 50
        current := fun s =>
          match s with
          | .STAT_HP_MAX => 80
          | .STAT_HP_STEAL => 30
          | _ => 0 } } }

/-- The sample world with a target that returns half of a very large hit. -/
def hugeHitWorld : World :=
  { thornsWorld with h := { sampleHazard with dmg_min := 1342178, dmg_max := 1342178 } }

/-- The position is on a 10 by 10 map and off its diagonal: the tiles (0,0),
(1,1), ..., (9,9) are a wall. -/
def offDiagonal (x y : Rat) : Bool :=
  decide (0 ≤ truncRat x) && decide (truncRat x < 10) && decide (0 ≤ truncRat y)
    && decide (truncRat y < 10) && truncRat x != truncRat y

/-- A 10 by 10 map with a wall along its diagonal and free tiles everywhere
else; the oracle's `move` applies a displacement if it ends on a free tile. -/
def diagonalMap : MapRenderer :=
  { w := 10, h := 10,
    is_valid_position := fun x y _ _ => offDiagonal x y,
    move := fun p dx dy _ _ =>
      if offDiagonal (p.x + dx) (p.y + dy) then (true, ⟨p.x + dx, p.y + dy⟩) else (false, p) }

/-- The sample enemy at (5.6, 5.6), on the wall tile (5,5). -/
def wallState : MoveState :=
  { stats := { sampleStats with pos := ⟨28 / 5, 28 / 5⟩ }, log := [] }

/-- The sample settings with a crit damage band of -200 to -200 percent. -/
def invertedCritEnv : Env :=
  { sampleEnv with MIN_CRIT_DAMAGE := -200, MAX_CRIT_DAMAGE := -200 }

/-- The sample world with a hazard that always crits. -/
def sureCritWorld : World :=
  { sampleWorld with h := { sampleHazard with crit_chance := 100 } }

/-! ## Theorems -/

theorem rat_floor_eq (m : Rat) : m.num / (m.den : Int) = ⌊m⌋ := (Rat.floor_def' m).symm ▸ rfl

theorem truncRat_of_nonneg (z : Rat) (hz : 0 ≤ z) : truncRat z = ⌊z⌋ := by
  unfold truncRat
  rw [Int.tdiv_eq_ediv (Rat.num_nonneg.mpr hz) (by exact_mod_cast Nat.zero_le _), rat_floor_eq]

theorem truncRat_nonneg (z : Rat) (hz : 0 ≤ z) : 0 ≤ truncRat z := by
  rw [truncRat_of_nonneg z hz]
  exact Int.floor_nonneg.mpr hz

theorem truncRat_eq (z : Rat) (a : Int) (ha : 0 ≤ a) (h1 : (a : Rat) ≤ z) (h2 : z < a + 1) :
    truncRat z = a := by
  have hz : 0 ≤ z := le_trans (by exact_mod_cast ha) h1
  rw [truncRat_of_nonneg z hz, Int.floor_eq_iff]
  exact ⟨h1, h2⟩

theorem twoPow_of_nonneg (k : Int) (hk : 0 ≤ k) : twoPow k = ((2 ^ k.toNat : Nat) : Rat) := by
  simp [twoPow, hk]

theorem twoPow_pos (k : Int) : 0 < twoPow k := by
  unfold twoPow
  split
  · positivity
  · positivity

theorem roundHalfEven_bounds (m : Rat) :
    m - 1 / 2 ≤ (roundHalfEven m : Rat) ∧ (roundHalfEven m : Rat) ≤ m + 1 / 2 := by
  have h1 : ((⌊m⌋ : Int) : Rat) ≤ m := Int.floor_le m
  have h2 : m < ((⌊m⌋ : Int) : Rat) + 1 := Int.lt_floor_add_one m
  unfold roundHalfEven
  rw [rat_floor_eq]
  split
  · constructor <;> linarith
  · split
    · constructor
      · push_cast; linarith
      · push_cast; linarith
    · rename_i h3 h4
      have h5 : m - ((⌊m⌋ : Int) : Rat) = 1 / 2 := le_antisymm (not_lt.mp h4) (not_lt.mp h3)
      split
      · constructor <;> linarith
      · constructor
        · push_cast; linarith
        · push_cast; linarith

theorem roundHalfEven_intCast (n : Int) : roundHalfEven (n : Rat) = n := by
  have hb := roundHalfEven_bounds (n : Rat)
  have h1 : ((n : Rat) - 1 / 2) < (roundHalfEven (n : Rat) : Rat) + 1 / 2 := by linarith [hb.1]
  have h3 : (n : Rat) - 1 < (roundHalfEven (n : Rat) : Rat) := by linarith [hb.1]
  have h4 : (roundHalfEven (n : Rat) : Rat) < (n : Rat) + 1 := by linarith [hb.2]
  have h5 : n - 1 < roundHalfEven (n : Rat) := by exact_mod_cast h3
  have h6 : roundHalfEven (n : Rat) < n + 1 := by exact_mod_cast h4
  omega

theorem roundHalfEven_nonneg (m : Rat) (hm : 0 ≤ m) : 0 ≤ roundHalfEven m := by
  have hb := roundHalfEven_bounds m
  have h3 : (-1 : Rat) < (roundHalfEven m : Rat) := by linarith [hb.1]
  have h5 : (-1 : Int) < roundHalfEven m := by exact_mod_cast h3
  omega

theorem roundFloat_nonneg (q : Rat) (hq : 0 ≤ q) : 0 ≤ roundFloat q := by
  unfold roundFloat
  split
  · exact le_refl _
  · apply div_nonneg
    · exact_mod_cast roundHalfEven_nonneg _ (mul_nonneg hq (le_of_lt (twoPow_pos _)))
    · exact le_of_lt (twoPow_pos _)


theorem log2Fuel_spec (fuel n : Nat) (h1 : 1 ≤ n) (h2 : n ≤ fuel) :
    2 ^ log2Fuel fuel n ≤ n ∧ n < 2 ^ (log2Fuel fuel n + 1) := by
  induction fuel generalizing n with
  | zero => omega
  | succ k ih =>
    unfold log2Fuel
    split
    · constructor <;> simp <;> omega
    · have h3 : 1 ≤ n / 2 := by omega
      have h4 : n / 2 ≤ k := by omega
      obtain ⟨a, b⟩ := ih (n / 2) h3 h4
      constructor
      · rw [pow_succ]; omega
      · rw [pow_succ]; omega

theorem ilog2_spec (n : Nat) (h1 : 1 ≤ n) : 2 ^ ilog2 n ≤ n ∧ n < 2 ^ (ilog2 n + 1) :=
  log2Fuel_spec n n h1 (le_refl n)

theorem binade_lt (q : Rat) (hq : 0 < q) (B : Nat) (hB : q < ((2 ^ B : Nat) : Rat)) :
    binade q < B := by
  have hnum : 0 < q.num := Rat.num_pos.mpr hq
  have hn1 : 1 ≤ q.num.natAbs := by omega
  have hd1 : 1 ≤ q.den := q.den_pos
  obtain ⟨n1, n2⟩ := ilog2_spec q.num.natAbs hn1
  obtain ⟨d1, d2⟩ := ilog2_spec q.den hd1
  have hqa : |q| = q := abs_of_pos hq
  -- q.num < 2^B * q.den
  have hlt : q.num.natAbs < 2 ^ B * q.den := by
    have h : (q.num : Rat) / (q.den : Rat) < ((2 ^ B : Nat) : Rat) := by
      rw [Rat.num_div_den]; exact hB
    have hden : (0 : Rat) < (q.den : Rat) := by exact_mod_cast hd1
    rw [div_lt_iff₀ hden] at h
    have h' : q.num < ((2 ^ B * q.den : Nat) : Int) := by exact_mod_cast h
    omega
  have hle : ilog2 q.num.natAbs ≤ B + ilog2 q.den := by
    by_contra hc
    have hc' : B + ilog2 q.den + 1 ≤ ilog2 q.num.natAbs := by omega
    have h1 : 2 ^ (B + ilog2 q.den + 1) ≤ 2 ^ ilog2 q.num.natAbs :=
      Nat.pow_le_pow_right (by decide) hc'
    have h2 : 2 ^ B * q.den < 2 ^ B * 2 ^ (ilog2 q.den + 1) :=
      (Nat.mul_lt_mul_left (Nat.pos_of_ne_zero (by positivity))).mpr d2
    have h3 : 2 ^ B * 2 ^ (ilog2 q.den + 1) = 2 ^ (B + ilog2 q.den + 1) := by
      rw [← pow_add]; congr 1
    omega
  unfold binade
  split
  · rename_i ht
    rw [hqa] at ht
    by_contra hc
    have hc' : (B : Int) ≤ (ilog2 q.num.natAbs : Int) - (ilog2 q.den : Int) := by omega
    have hk : 0 ≤ (ilog2 q.num.natAbs : Int) - (ilog2 q.den : Int) := by omega
    rw [twoPow_of_nonneg _ hk] at ht
    have hB' : B ≤ ((ilog2 q.num.natAbs : Int) - (ilog2 q.den : Int)).toNat := by omega
    have h5 : (2 ^ B : Nat) ≤ 2 ^ ((ilog2 q.num.natAbs : Int) - (ilog2 q.den : Int)).toNat :=
      Nat.pow_le_pow_right (by decide) hB'
    have h6 : ((2 ^ B : Nat) : Rat)
        ≤ ((2 ^ ((ilog2 q.num.natAbs : Int) - (ilog2 q.den : Int)).toNat : Nat) : Rat) := by
      exact_mod_cast h5
    linarith
  · omega


theorem roundFloat_of_binade_le (q : Rat) (hq : q ≠ 0) (hb : binade q ≤ 23) :
    roundFloat q =
      (roundHalfEven (q * ((2 ^ (23 - binade q).toNat : Nat) : Rat)) : Rat)
        / ((2 ^ (23 - binade q).toNat : Nat) : Rat) := by
  unfold roundFloat
  rw [if_neg hq, twoPow_of_nonneg _ (by omega)]

theorem roundFloat_intCast (n : Int) (h0 : 0 ≤ n) (h1 : n < 2 ^ 24) :
    roundFloat (n : Rat) = n := by
  rcases eq_or_lt_of_le h0 with h | h
  · subst h
    simp [roundFloat]
  · have hq : (0 : Rat) < (n : Rat) := by exact_mod_cast h
    have hb : binade (n : Rat) < ((24 : Nat) : Int) :=
      binade_lt _ hq 24 (by exact_mod_cast h1)
    rw [roundFloat_of_binade_le _ (ne_of_gt hq) (by omega)]
    have hc : (n : Rat) * ((2 ^ (23 - binade (n : Rat)).toNat : Nat) : Rat)
        = ((n * ((2 ^ (23 - binade (n : Rat)).toNat : Nat) : Int) : Int) : Rat) := by
      push_cast; rfl
    rw [hc, roundHalfEven_intCast]
    have hN : ((2 ^ (23 - binade (n : Rat)).toNat : Nat) : Rat) ≠ 0 := by positivity
    push_cast
    field_simp

theorem roundFloat_div_hundred (n : Int) (h0 : 0 ≤ n) (h1 : n < 2 ^ 24) :
    truncRat (roundFloat ((n : Rat) / 100)) = n / 100 := by
  rcases eq_or_lt_of_le h0 with h | h
  · subst h
    simp [roundFloat, truncRat]
  · have hq : (0 : Rat) < (n : Rat) / 100 := by
      have : (0 : Rat) < (n : Rat) := by exact_mod_cast h
      positivity
    have hlt : (n : Rat) / 100 < ((2 ^ 18 : Nat) : Rat) := by
      have : (n : Rat) < 2 ^ 24 := by exact_mod_cast h1
      rw [div_lt_iff₀ (by norm_num)]
      norm_num at this ⊢
      linarith
    have hb : binade ((n : Rat) / 100) < ((18 : Nat) : Int) := binade_lt _ hq 18 hlt
    rw [roundFloat_of_binade_le _ (ne_of_gt hq) (by omega)]
    have hk : 6 ≤ (23 - binade ((n : Rat) / 100)).toNat := by omega
    have hN64 : 2 ^ 6 ≤ 2 ^ (23 - binade ((n : Rat) / 100)).toNat :=
      Nat.pow_le_pow_right (by decide) hk
    generalize 2 ^ (23 - binade ((n : Rat) / 100)).toNat = N at hN64
    have hNr : (64 : Rat) ≤ (N : Rat) := by exact_mod_cast hN64
    have hNpos : (0 : Rat) < (N : Rat) := by linarith
    obtain ⟨b1, b2⟩ := roundHalfEven_bounds ((n : Rat) / 100 * (N : Rat))
    generalize roundHalfEven ((n : Rat) / 100 * (N : Rat)) = R at b1 b2
    have hdiv : 100 * (n / 100) + n % 100 = n := Int.ediv_add_emod n 100
    have hr0 : 0 ≤ n % 100 := Int.emod_nonneg n (by decide)
    have hr1 : n % 100 < 100 := Int.emod_lt_of_pos n (by decide)
    have hq0 : 0 ≤ n / 100 := Int.ediv_nonneg h0 (by decide)
    have hn : (n : Rat) = 100 * ((n / 100 : Int) : Rat) + ((n % 100 : Int) : Rat) := by
      exact_mod_cast hdiv.symm
    have hr0' : (0 : Rat) ≤ ((n % 100 : Int) : Rat) := by exact_mod_cast hr0
    have hr1' : ((n % 100 : Int) : Rat) ≤ 99 := by
      have : n % 100 ≤ 99 := by omega
      exact_mod_cast this
    have hx1 : ((n / 100 : Int) : Rat) * N ≤ (n : Rat) / 100 * N := by
      apply mul_le_mul_of_nonneg_right _ (le_of_lt hNpos)
      rw [le_div_iff₀ (by norm_num)]
      linarith
    have hx2 : (n : Rat) / 100 * N ≤ (((n / 100 : Int) : Rat) + 99 / 100) * N := by
      apply mul_le_mul_of_nonneg_right _ (le_of_lt hNpos)
      rw [div_le_iff₀ (by norm_num)]
      linarith
    have hlo : ((n / 100 : Int) : Rat) * N - 1 < (R : Rat) := by linarith
    have hhi : (R : Rat) < (((n / 100 : Int) : Rat) + 1) * N := by nlinarith
    have hlo' : (n / 100) * (N : Int) - 1 < R := by exact_mod_cast hlo
    have hlo'' : (n / 100) * (N : Int) ≤ R := by omega
    apply truncRat_eq _ _ hq0
    · rw [le_div_iff₀ hNpos]
      exact_mod_cast hlo''
    · rw [div_lt_iff₀ hNpos]
      exact hhi

theorem float_quotient_exact (n : Int) (h0 : 0 ≤ n) (h1 : n < 2 ^ 24) :
    truncRat (roundFloat (roundFloat (n : Rat) / 100)) = Int.tdiv n 100 := by
  rw [roundFloat_intCast n h0 h1, roundFloat_div_hundred n h0 h1,
    Int.tdiv_eq_ediv h0 (by decide)]

theorem float_quotient_nonneg (n : Int) (h0 : 0 ≤ n) :
    0 ≤ truncRat (roundFloat (roundFloat (n : Rat) / 100)) := by
  apply truncRat_nonneg
  apply roundFloat_nonneg
  apply div_nonneg _ (by norm_num)
  apply roundFloat_nonneg
  exact_mod_cast h0

theorem World.source_of_other (w : World) (h : w.src_is_self = false) : w.source = w.src := by
  simp [World.source, h]

theorem World.source_of_self (w : World) (h : w.src_is_self = true) :
    w.source = w.ent.stats := by
  simp [World.source, h]

theorem World.setSource_of_other (w : World) (s : StatBlock) (h : w.src_is_self = false) :
    w.setSource s = { w with src := s } := by
  simp [World.setSource, h]

theorem World.setSource_of_self (w : World) (s : StatBlock) (h : w.src_is_self = true) :
    w.setSource s = w.setStats s := by
  simp [World.setSource, h]

theorem World.source_setSource (w : World) (s : StatBlock) : (w.setSource s).source = s := by
  cases h : w.src_is_self <;> simp [World.setSource, World.source, World.setStats, h]

theorem World.setSource_src_is_self (w : World) (s : StatBlock) :
    (w.setSource s).src_is_self = w.src_is_self := by
  unfold World.setSource; split <;> rfl

theorem World.setSource_h (w : World) (s : StatBlock) : (w.setSource s).h = w.h := by
  unfold World.setSource; split <;> rfl

theorem World.setSource_rng (w : World) (s : StatBlock) : (w.setSource s).rng = w.rng := by
  unfold World.setSource; split <;> rfl

theorem World.setSource_log (w : World) (s : StatBlock) : (w.setSource s).log = w.log := by
  unfold World.setSource; split <;> rfl

theorem World.setSource_ent (w : World) (s : StatBlock) (h : w.src_is_self = false) :
    (w.setSource s).ent = w.ent := by
  rw [World.setSource_of_other w s h]

theorem World.setSource_stats (w : World) (s : StatBlock) :
    (w.setSource s).ent.stats = if w.src_is_self then s else w.ent.stats := by
  unfold World.setSource; split <;> rfl

theorem takeHit_of_pass (env : Env) (w : World) (hp : passesFilters env w = true) :
    takeHit env w =
      if (env.power w).beacon then .ok (false, aggro env w)
      else if (reflectRoll (aggro env w)).1 then reflect (reflectRoll (aggro env w)).2
      else
        (damagePipeline env (env.power w) (reflectRoll (aggro env w)).2).map
          (resolve env (env.power w)) := by
  simp only [passesFilters, Bool.and_eq_true, Bool.not_eq_true'] at hp
  obtain ⟨⟨⟨⟨⟨h1, h2⟩, h3⟩, h4⟩, h5⟩, h6⟩ := hp
  simp [takeHit, h1, h2, h3, h4, h5, h6]

theorem takeHit_of_filtered (env : Env) (w : World) (hp : passesFilters env w = false) :
    takeHit env w = .ok (false, w) := by
  unfold takeHit
  by_cases h1 : categoryMismatch env w = true
  · simp [h1]
  by_cases h2 : powerFiltered w = true
  · simp [h1, h2]
  by_cases h3 : alreadyDead w = true
  · simp [h1, h2, h3]
  by_cases h4 : movementNotTargeted w = true
  · simp [h1, h2, h3, h4]
  by_cases h5 : wallBlocked env w = true
  · simp [h1, h2, h3, h4, h5]
  by_cases h6 : invincibleFilter env w = true
  · simp [h1, h2, h3, h4, h5, h6]
  · simp [passesFilters, h1, h2, h3, h4, h5, h6] at hp

/-- C1: when one of the first five filters rejects the hazard (category
mismatch, power not on the allow-list, target already dead, movement type not
targeted, walls in the way), `takeHit` returns false and the hit points and
life-cycle state of target and source are what they were. -/
theorem takeHit_filtered (env : Env) (w : World)
    (h : categoryMismatch env w = true ∨ powerFiltered w = true ∨ alreadyDead w = true
      ∨ movementNotTargeted w = true ∨ wallBlocked env w = true) :
    ∃ w', takeHit env w = .ok (false, w')
      ∧ w'.ent.stats.hp = w.ent.stats.hp ∧ w'.ent.stats.cur_state = w.ent.stats.cur_state
      ∧ w'.src.hp = w.src.hp ∧ w'.src.cur_state = w.src.cur_state := by
  refine ⟨w, ?_, rfl, rfl, rfl, rfl⟩
  unfold takeHit
  by_cases h1 : categoryMismatch env w = true
  · simp [h1]
  by_cases h2 : powerFiltered w = true
  · simp [h1, h2]
  by_cases h3 : alreadyDead w = true
  · simp [h1, h2, h3]
  by_cases h4 : movementNotTargeted w = true
  · simp [h1, h2, h3, h4]
  by_cases h5 : wallBlocked env w = true
  · simp [h1, h2, h3, h4, h5]
  · simp_all

theorem takeHit_filtered_witness :
    movementNotTargeted flyingOnlyWorld = true ∧
    ∃ w', takeHit sampleEnv flyingOnlyWorld = .ok (false, w')
      ∧ w'.ent.stats.hp = flyingOnlyWorld.ent.stats.hp
      ∧ w'.ent.stats.cur_state = flyingOnlyWorld.ent.stats.cur_state
      ∧ w'.src.hp = flyingOnlyWorld.src.hp
      ∧ w'.src.cur_state = flyingOnlyWorld.src.cur_state :=
  ⟨by decide, takeHit_filtered sampleEnv flyingOnlyWorld (by decide)⟩

/-- C2: a target that is already dead (a non-hero in the dead or critically
dead state, or a hero in its dead state) makes `takeHit` return false with
nothing changed: entity, source, hazard, random source and log are as before
(no draw is consumed and nothing is emitted). -/
theorem takeHit_dead_target (env : Env) (w : World)
    (h : (w.ent.stats.hero = false ∧
          (w.ent.stats.cur_state = .ENEMY_DEAD ∨ w.ent.stats.cur_state = .ENEMY_CRITDEAD))
        ∨ (w.ent.stats.hero = true ∧ w.ent.stats.cur_state = .AVATAR_DEAD)) :
    ∃ w', takeHit env w = .ok (false, w')
      ∧ w'.ent.stats = w.ent.stats ∧ w'.ent.activeAnimation = w.ent.activeAnimation
      ∧ w'.src = w.src ∧ w'.h = w.h
      ∧ w'.rng.pos = w.rng.pos ∧ w'.log = w.log := by
  refine ⟨w, ?_, rfl, rfl, rfl, rfl, rfl, rfl⟩
  have h3 : alreadyDead w = true := by
    unfold alreadyDead
    rcases h with ⟨hh, hs | hs⟩ | ⟨hh, hs⟩ <;> simp [hh, hs]
  unfold takeHit
  by_cases h1 : categoryMismatch env w = true
  · simp [h1]
  by_cases h2 : powerFiltered w = true
  · simp [h1, h2]
  · simp [h1, h2, h3]

theorem takeHit_dead_target_witness :
    ∃ w', takeHit sampleEnv deadWorld = .ok (false, w')
      ∧ w'.ent.stats = deadWorld.ent.stats
      ∧ w'.ent.activeAnimation = deadWorld.ent.activeAnimation
      ∧ w'.src = deadWorld.src ∧ w'.h = deadWorld.h
      ∧ w'.rng.pos = deadWorld.rng.pos ∧ w'.log = deadWorld.log :=
  takeHit_dead_target sampleEnv deadWorld (Or.inl ⟨rfl, Or.inl rfl⟩)

theorem percentChance_nonpos (g : Rng) (k : Draw) (p : Int) (hp : p ≤ 0) :
    (percentChance g k p).1 = false := by
  simp only [percentChance, decide_eq_false_iff_not, not_lt]
  omega

theorem percentChance_ge_100 (g : Rng) (k : Draw) (p : Int) (hp : 100 ≤ p) :
    (percentChance g k p).1 = true := by
  simp only [percentChance, decide_eq_true_eq]
  omega

theorem randBetween_same (g : Rng) (k : Draw) (a : Int) : randBetween g k a a = (a, g) := by
  simp [randBetween]

theorem plain_pipeline (env : Env) (pw : Power) (w : World) (a b c : Nat)
    (hmin : w.h.dmg_min = 10) (hmax : w.h.dmg_max = 10) (hacc : w.h.accuracy = 100)
    (hma : pw.mod_accuracy_mode = .OTHER a) (hmd : pw.mod_damage_mode = .OTHER b)
    (hmc : pw.mod_crit_mode = .OTHER c) (hel : w.h.trait_elemental < 0)
    (hcrit : w.h.crit_chance = 0) (himp : w.h.trait_crits_impaired = 0)
    (habs1 : w.ent.stats.get .STAT_ABS_MIN = 0) (habs2 : w.ent.stats.get .STAT_ABS_MAX = 0)
    (havoid : w.ent.stats.get .STAT_AVOIDANCE = 0) (hset : env.MIN_AVOIDANCE ≤ 0) :
    ∃ hit, damagePipeline env pw w = .ok hit ∧ hit.dmg = 10 ∧ hit.w.ent = w.ent
      ∧ hit.w.src = w.src ∧ hit.w.h = w.h ∧ hit.w.log = w.log
      ∧ hit.w.src_is_self = w.src_is_self := by
  have hta : trueAvoidance pw w = 0 := by
    simp [trueAvoidance, applyModifier, hma, hacc, havoid]
  have hover : overhitRoll pw w = (false, w.rng) := by
    simp [overhitRoll, hta]
  have hmiss : ∀ g, (missRoll env pw w g).1 = false := by
    intro g
    unfold missRoll
    split
    · apply percentChance_nonpos
      simp only [clampAvoidance, hta]
      omega
    · rfl
  have hbase : ∀ g, baseDamage pw w.h g = (10, g) := by
    intro g
    simp [baseDamage, hmd, hmin, hmax, randBetween_same]
  have hres : ∀ d, applyResist env w.h w.ent.stats d = d := by
    intro d
    simp [applyResist]
    intro h0; omega
  have hc : ∀ s, trueCritChance pw w.h s = 0 := by
    intro s
    simp [trueCritChance, applyModifier, hmc, hcrit, himp]
  have habsorb : ∀ (w0 : World), w0.h = w.h → w0.ent = w.ent →
      absorptionStep env pw w0 10 = .ok (10, w0) := by
    intro w0 h0 e0
    have q1 : w0.ent.stats.get .STAT_ABS_MIN = 0 := by rw [e0]; exact habs1
    have q2 : w0.ent.stats.get .STAT_ABS_MAX = 0 := by rw [e0]; exact habs2
    unfold absorptionStep
    split
    · simp [q1, q2, randBetween_same, absorbed]
    · rfl
  simp only [damagePipeline, hover, hbase, hres]
  rw [habsorb { w with rng := (missRoll env pw w w.rng).2 } rfl rfl]
  simp only [Except.map]
  refine ⟨_, rfl, ?_⟩
  simp [missStep, critStep, hmiss, hc, percentChance_nonpos]

theorem targetDamage_append (l m : List Event) :
    targetDamage (l ++ m) = targetDamage l ++ targetDamage m := by
  simp [targetDamage, List.filterMap_append]

theorem targetDamage_collaborator (l : List Nat) :
    targetDamage (l.map Event.collaborator) = [] := by
  induction l with
  | nil => rfl
  | cons x xs ih => simp [targetDamage]

theorem playSound_stats (w : World) (k : SoundType) : (playSound w k).ent = w.ent := by
  cases k <;> simp only [playSound, playFrom] <;> split <;> rfl

theorem playSound_targetDamage (w : World) (k : SoundType) :
    targetDamage (playSound w k).log = targetDamage w.log := by
  cases k <;> simp only [playSound, playFrom] <;> split <;>
    simp [targetDamage_append, targetDamage]

theorem die_hp (w : World) (crit : Bool) : (die w crit).ent.stats.hp = w.ent.stats.hp := by
  simp only [die]
  split <;> simp [World.setStats, World.emit]

theorem die_targetDamage (w : World) (crit : Bool) :
    targetDamage (die w crit).log = targetDamage w.log := by
  simp only [die]
  split <;> simp [World.setStats, World.emit, targetDamage_append, targetDamage]

theorem hitState_hp (w : World) (p c : Bool) : (hitState w p c).ent.stats.hp = w.ent.stats.hp := by
  simp only [hitState]
  repeat' split
  all_goals simp [World.setStats]

theorem hitState_log (w : World) (p c : Bool) : (hitState w p c).log = w.log := by
  simp only [hitState]
  repeat' split
  all_goals simp [World.setStats]

theorem interrupt_hp (env : Env) (w : World) (d : Int) (c wd : Bool) :
    (interrupt env w d c wd).ent.stats.hp = w.ent.stats.hp := by
  simp only [interrupt]
  repeat' split
  all_goals simp [die_hp, hitState_hp, castAIPower, World.setStats, playSound_stats]

theorem interrupt_targetDamage (env : Env) (w : World) (d : Int) (c wd : Bool) :
    targetDamage (interrupt env w d c wd).log = targetDamage w.log := by
  simp only [interrupt]
  repeat' split
  all_goals simp [die_targetDamage, hitState_log, castAIPower, World.setStats,
    playSound_targetDamage]

theorem stealHp_ent (w : World) (d p : Int) (h : w.src_is_self = false) :
    (stealHp w d p).ent = w.ent := by
  unfold stealHp
  split
  · exact World.setSource_ent w _ h
  · rfl

theorem stealMp_ent (w : World) (d p : Int) (h : w.src_is_self = false) :
    (stealMp w d p).ent = w.ent := by
  unfold stealMp
  split
  · exact World.setSource_ent w _ h
  · rfl

theorem returnDamage_ent (w : World) (d : Int) (h : w.src_is_self = false) :
    (returnDamage w d).ent = w.ent := by
  unfold returnDamage
  split
  · exact World.setSource_ent w _ h
  · rfl

theorem stealHp_src_is_self (w : World) (d p : Int) :
    (stealHp w d p).src_is_self = w.src_is_self := by
  unfold stealHp
  split
  · exact World.setSource_src_is_self w _
  · rfl

theorem stealMp_src_is_self (w : World) (d p : Int) :
    (stealMp w d p).src_is_self = w.src_is_self := by
  unfold stealMp
  split
  · exact World.setSource_src_is_self w _
  · rfl

theorem returnDamage_src_is_self (w : World) (d : Int) :
    (returnDamage w d).src_is_self = w.src_is_self := by
  unfold returnDamage
  split
  · exact World.setSource_src_is_self w _
  · rfl

theorem applyEffects_src_is_self (env : Env) (w : World) :
    (applyEffects env w).src_is_self = w.src_is_self := by
  unfold applyEffects
  exact World.setSource_src_is_self _ _

theorem applyEffects_stats (env : Env) (w : World) :
    (applyEffects env w).ent.stats =
      (env.effect
        { w.ent.stats with effects := env.removeEffectType w.ent.stats.effects .EFFECT_STUN }
        (w.setStats { w.ent.stats with
          effects := env.removeEffectType w.ent.stats.effects .EFFECT_STUN }).source
        w.h.power_index w.h.source_type w.rng).target := rfl

theorem stealHp_targetDamage (w : World) (d p : Int) :
    targetDamage (stealHp w d p).log = targetDamage w.log := by
  simp only [stealHp]; split <;> simp [targetDamage_append, targetDamage]

theorem stealMp_targetDamage (w : World) (d p : Int) :
    targetDamage (stealMp w d p).log = targetDamage w.log := by
  simp only [stealMp]; split <;> simp [targetDamage_append, targetDamage]

theorem returnDamage_targetDamage (w : World) (d : Int) :
    targetDamage (returnDamage w d).log = targetDamage w.log := by
  simp only [returnDamage]; split <;> simp [targetDamage_append, targetDamage]

theorem applyEffects_targetDamage (env : Env) (w : World) :
    targetDamage (applyEffects env w).log = targetDamage w.log := by
  simp [applyEffects, targetDamage_append, targetDamage_collaborator]

theorem postPower_hp (env : Env) (pw : Power) (w : World) (h : w.src_is_self = false) :
    (postPower env pw w).ent.stats.hp = w.ent.stats.hp := by
  simp only [postPower]
  repeat' split
  all_goals simp [World.setStats, World.setSource, h]

theorem postPower_targetDamage (env : Env) (pw : Power) (w : World) :
    targetDamage (postPower env pw w).log = targetDamage w.log := by
  simp only [postPower]
  repeat' split
  all_goals simp [World.setStats, targetDamage_append, targetDamage_collaborator]

theorem afterEffects_targetDamage (env : Env) (pw : Power) (w : World) (d : Int) :
    targetDamage (afterEffects env pw w d).log = targetDamage w.log ++ [d] := by
  have h1 : targetDamage [Event.takeDamageTarget d] = [d] := rfl
  simp only [afterEffects]
  split <;>
    simp only [postPower_targetDamage, returnDamage_targetDamage, stealMp_targetDamage,
      stealHp_targetDamage, applyEffects_targetDamage, World.emit, World.setStats,
      targetDamage_append, h1]

theorem afterEffects_hp_ge (env : Env) (pw : Power) (w : World) (d : Int)
    (hs : w.src_is_self = false)
    (heff : ∀ t s i c g, t.hp ≤ (env.effect t s i c g).target.hp) :
    (w.ent.stats.takeDamage d).hp ≤ (afterEffects env pw w d).ent.stats.hp := by
  simp only [afterEffects]
  split
  · have h1 : (applyEffects env
        ((w.setStats (w.ent.stats.takeDamage d)).emit (.takeDamageTarget d))).src_is_self
        = false := by
      rw [applyEffects_src_is_self]; exact hs
    have h2 := (stealHp_src_is_self _ d w.ent.stats.hp).trans h1
    have h3 := (stealMp_src_is_self _ d w.ent.stats.hp).trans h2
    have h4 := (returnDamage_src_is_self _ d).trans h3
    rw [postPower_hp _ _ _ h4, returnDamage_ent _ _ h3, stealMp_ent _ _ _ h2,
      stealHp_ent _ _ _ h1, applyEffects_stats]
    exact heff _ _ _ _ _
  · simp [World.emit, World.setStats]

theorem afterEffects_hp_eq (env : Env) (pw : Power) (w : World) (d : Int)
    (hs : w.src_is_self = false)
    (heff : ∀ t s i c g, (env.effect t s i c g).target.hp = t.hp) :
    (afterEffects env pw w d).ent.stats.hp = (w.ent.stats.takeDamage d).hp := by
  simp only [afterEffects]
  split
  · have h1 : (applyEffects env
        ((w.setStats (w.ent.stats.takeDamage d)).emit (.takeDamageTarget d))).src_is_self
        = false := by
      rw [applyEffects_src_is_self]; exact hs
    have h2 := (stealHp_src_is_self _ d w.ent.stats.hp).trans h1
    have h3 := (stealMp_src_is_self _ d w.ent.stats.hp).trans h2
    have h4 := (returnDamage_src_is_self _ d).trans h3
    rw [postPower_hp _ _ _ h4, returnDamage_ent _ _ h3, stealMp_ent _ _ _ h2,
      stealHp_ent _ _ _ h1, applyEffects_stats]
    exact heff _ _ _ _ _
  · simp [World.emit, World.setStats]

theorem aggro_h (env : Env) (w : World) : (aggro env w).h = w.h := by
  simp only [aggro]; split <;> rfl

theorem aggro_src (env : Env) (w : World) : (aggro env w).src = w.src := by
  simp only [aggro]; split <;> rfl

theorem aggro_log (env : Env) (w : World) : (aggro env w).log = w.log := by
  simp only [aggro]; split <;> rfl

theorem aggro_hp (env : Env) (w : World) : (aggro env w).ent.stats.hp = w.ent.stats.hp := by
  simp only [aggro]; split <;> rfl

theorem aggro_get (env : Env) (w : World) (stat : STAT) :
    (aggro env w).ent.stats.get stat = w.ent.stats.get stat := by
  simp only [aggro]; split <;> rfl

theorem reflectRoll_ent (w : World) : (reflectRoll w).2.ent = w.ent := by
  simp only [reflectRoll]; split <;> rfl

theorem reflectRoll_h (w : World) : (reflectRoll w).2.h = w.h := by
  simp only [reflectRoll]; split <;> rfl

theorem reflectRoll_src (w : World) : (reflectRoll w).2.src = w.src := by
  simp only [reflectRoll]; split <;> rfl

theorem reflectRoll_log (w : World) : (reflectRoll w).2.log = w.log := by
  simp only [reflectRoll]; split <;> rfl

theorem aggro_src_is_self (env : Env) (w : World) :
    (aggro env w).src_is_self = w.src_is_self := by
  simp only [aggro]; split <;> rfl

theorem reflectRoll_src_is_self (w : World) :
    (reflectRoll w).2.src_is_self = w.src_is_self := by
  simp only [reflectRoll]; split <;> rfl

theorem playSound_src_is_self (w : World) (k : SoundType) :
    (playSound w k).src_is_self = w.src_is_self := by
  cases k <;> simp only [playSound, playFrom] <;> split <;> rfl

theorem blockCheck_src_is_self (w w' : World) (h : blockCheck w = .ok w') :
    w'.src_is_self = w.src_is_self := by
  unfold blockCheck at h
  split at h
  · cases h
  · split at h
    · unfold resetActiveAnimation at h
      split at h
      · cases h
      · cases h
        exact playSound_src_is_self _ _
    · cases h
      rfl

theorem absorptionStep_src_is_self (env : Env) (pw : Power) (w w' : World) (d d' : Int)
    (h : absorptionStep env pw w d = .ok (d', w')) : w'.src_is_self = w.src_is_self := by
  unfold absorptionStep at h
  simp only at h
  split at h
  · split at h
    · split at h
      · cases hb : blockCheck { w with rng := (randBetween w.rng .absorption
            (w.ent.stats.get .STAT_ABS_MIN) (w.ent.stats.get .STAT_ABS_MAX)).2 } with
        | error e => rw [hb] at h; cases h
        | ok w2 =>
          rw [hb] at h
          cases h
          exact (blockCheck_src_is_self _ _ hb).trans rfl
      · cases h
        rfl
    · cases h
      rfl
  · cases h
    rfl

theorem critStep_src_is_self (env : Env) (pw : Power) (w : World) (d : Int) (o m : Bool) :
    (critStep env pw w d o m).w.src_is_self = w.src_is_self := by
  simp only [critStep]
  repeat' split
  all_goals rfl

theorem missStep_src_is_self (env : Env) (hit : Hit) :
    (missStep env hit).w.src_is_self = hit.w.src_is_self := by
  simp only [missStep]
  split <;> rfl

theorem takeHit_resolved (env : Env) (w : World) (hp : passesFilters env w = true)
    (hb : (env.power w).beacon = false) (hr : (reflectRoll (aggro env w)).1 = false) :
    takeHit env w =
      (damagePipeline env (env.power w) (reflectRoll (aggro env w)).2).map
        (resolve env (env.power w)) := by
  rw [takeHit_of_pass env w hp]
  simp [hb, hr]

theorem damageText_targetDamage (hit : Hit) : targetDamage [damageText hit] = [] := by
  simp only [damageText]
  repeat' split
  all_goals rfl

theorem resolve_applied (env : Env) (pw : Power) (hit : Hit)
    (h : pw.ignore_zero_damage = true ∨ hit.dmg ≠ 0) :
    resolve env pw hit =
      (true, interrupt env
        (afterEffects env pw
          (if !pw.ignore_zero_damage then hit.w.emit (damageText hit) else hit.w) hit.dmg)
        hit.dmg hit.crit (env.isDebuffed hit.w.ent.stats.effects)) := by
  unfold resolve
  rcases h with h | h <;> simp [h]

theorem resolve_zero (env : Env) (pw : Power) (hit : Hit)
    (hi : pw.ignore_zero_damage = false) (hz : hit.dmg = 0) :
    resolve env pw hit =
      (false, hit.w.emit (.addString .miss hit.w.ent.stats.pos .COMBAT_MESSAGE_MISS)) := by
  simp [resolve, hi, hz]

/-- C3 (amended): a hazard with damage range [10,10] and accuracy 100, a power
without accuracy, damage or crit modifier, no element, crit chance 0 and no
impaired-target crit bonus, striking a target with 0 absorption and 0 avoidance
that passes the filters, is no beacon and is not reflected, the hazard's
source being another entity than the target, with the minimum avoidance
setting at most 0 and power effects that leave the target's hit points alone:
`takeHit` returns true, calls `takeDamage` once, with 10, and the
target's hit points drop by 10 but not below 0. -/
theorem takeHit_plain_hit (env : Env) (w : World) (a b c : Nat)
    (hpass : passesFilters env w = true) (hbeacon : (env.power w).beacon = false)
    (hrefl : (reflectRoll (aggro env w)).1 = false)
    (hmin : w.h.dmg_min = 10) (hmax : w.h.dmg_max = 10) (hacc : w.h.accuracy = 100)
    (hma : (env.power w).mod_accuracy_mode = .OTHER a)
    (hmd : (env.power w).mod_damage_mode = .OTHER b)
    (hmc : (env.power w).mod_crit_mode = .OTHER c)
    (hel : w.h.trait_elemental < 0)
    (hcrit : w.h.crit_chance = 0) (himp : w.h.trait_crits_impaired = 0)
    (habs1 : w.ent.stats.get .STAT_ABS_MIN = 0) (habs2 : w.ent.stats.get .STAT_ABS_MAX = 0)
    (havoid : w.ent.stats.get .STAT_AVOIDANCE = 0) (hset : env.MIN_AVOIDANCE ≤ 0)
    (hother : w.src_is_self = false)
    (heff : ∀ t s i c g, (env.effect t s i c g).target.hp = t.hp) :
    ∃ w', takeHit env w = .ok (true, w')
      ∧ targetDamage w'.log = targetDamage w.log ++ [10]
      ∧ w'.ent.stats.hp = if w.ent.stats.hp ≤ 10 then 0 else w.ent.stats.hp - 10 := by
  obtain ⟨hit, hpipe, hd, hent, -, -, hlog, hfl⟩ :=
    plain_pipeline env (env.power w) (reflectRoll (aggro env w)).2 a b c
      (by rw [reflectRoll_h, aggro_h]; exact hmin) (by rw [reflectRoll_h, aggro_h]; exact hmax)
      (by rw [reflectRoll_h, aggro_h]; exact hacc) hma hmd hmc
      (by rw [reflectRoll_h, aggro_h]; exact hel) (by rw [reflectRoll_h, aggro_h]; exact hcrit)
      (by rw [reflectRoll_h, aggro_h]; exact himp)
      (by rw [reflectRoll_ent, aggro_get]; exact habs1)
      (by rw [reflectRoll_ent, aggro_get]; exact habs2)
      (by rw [reflectRoll_ent, aggro_get]; exact havoid) hset
  rw [takeHit_resolved env w hpass hbeacon hrefl, hpipe]
  have hhp : hit.w.ent.stats.hp = w.ent.stats.hp := by
    rw [hent, reflectRoll_ent, aggro_hp]
  have hl : targetDamage hit.w.log = targetDamage w.log := by
    rw [hlog, reflectRoll_log, aggro_log]
  rw [Except.map, resolve_applied env _ hit (Or.inr (by rw [hd]; decide)), hd]
  refine ⟨_, rfl, ?_, ?_⟩
  · rw [interrupt_targetDamage, afterEffects_targetDamage]
    split
    · simp [World.emit, targetDamage_append, damageText_targetDamage, hl]
    · rw [hl]
  · have hflag : hit.w.src_is_self = false := by
      rw [hfl, reflectRoll_src_is_self, aggro_src_is_self]
      exact hother
    have hflag' : (if !(env.power w).ignore_zero_damage then hit.w.emit (damageText hit)
        else hit.w).src_is_self = false := by
      split
      · exact hflag
      · exact hflag
    rw [interrupt_hp, afterEffects_hp_eq env _ _ _ hflag' heff]
    split <;> simp [World.emit, StatBlock.takeDamage, hhp]

theorem takeHit_plain_hit_witness :
    ∃ w', takeHit sampleEnv sampleWorld = .ok (true, w')
      ∧ targetDamage w'.log = targetDamage sampleWorld.log ++ [10]
      ∧ w'.ent.stats.hp = if sampleWorld.ent.stats.hp ≤ 10 then 0
          else sampleWorld.ent.stats.hp - 10 :=
  takeHit_plain_hit sampleEnv sampleWorld 0 0 0 (by decide) (by decide) (by decide)
    (by decide) (by decide) (by decide) rfl rfl rfl (by decide) (by decide) (by decide)
    (by decide) (by decide) (by decide) (by decide) rfl (fun _ _ _ _ _ => rfl)

/-- C3, as stated, fails for a target with fewer than 10 hit points: in the
scenario a target with 5 hit points is hit (`takeHit` returns true, 10 is passed
to `takeDamage`) and ends with 0 hit points, not with 10 fewer. -/
theorem plain_hit_not_reduced_by_ten :
    returned (takeHit sampleEnv weakWorld) = some true
      ∧ observe (takeHit sampleEnv weakWorld) (fun w => targetDamage w.log) = some [10]
      ∧ weakWorld.ent.stats.hp = 5
      ∧ observe (takeHit sampleEnv weakWorld) (fun w => w.ent.stats.hp) = some 0
      ∧ observe (takeHit sampleEnv weakWorld) (fun w => w.ent.stats.hp)
          ≠ some (weakWorld.ent.stats.hp - 10) := by
  decide

/-- Why C3 needs the hazard's source to be another entity: when a missile
comes back to its shooter, the steal of line 551 writes to the target's own
StatBlock.  With 30 percent HP steal the target of the scenario goes from 50
hit points to 40 and back up to 43. -/
theorem plain_hit_on_own_source :
    ownMissileWorld.ent.stats.hp = 50
      ∧ returned (takeHit sampleEnv ownMissileWorld) = some true
      ∧ observe (takeHit sampleEnv ownMissileWorld) (fun w => targetDamage w.log) = some [10]
      ∧ observe (takeHit sampleEnv ownMissileWorld) (fun w => w.ent.stats.hp) = some 43 := by
  decide

theorem randBetween_ge (g : Rng) (k : Draw) (lo hi : Int) : lo ≤ (randBetween g k lo hi).1 := by
  unfold randBetween
  split
  · exact le_refl _
  · simp only
    omega

theorem randBetween_le (g : Rng) (k : Draw) (lo hi : Int) (h : lo ≤ hi) :
    (randBetween g k lo hi).1 ≤ hi := by
  unfold randBetween
  split
  · simpa using h
  · simp only
    have h1 : (rand g k).1 % ((hi - lo).natAbs + 1) < (hi - lo).natAbs + 1 :=
      Nat.mod_lt _ (Nat.succ_pos _)
    generalize (rand g k).1 % ((hi - lo).natAbs + 1) = n at h1
    omega

theorem cdiv_nonneg (a b : Int) (ha : 0 ≤ a) (hb : 0 ≤ b) : 0 ≤ cdiv a b :=
  Int.tdiv_nonneg ha hb

theorem resetActiveAnimation_preserves (w w' : World) (h : resetActiveAnimation w = .ok w') :
    w'.ent.stats = w.ent.stats ∧ w'.src = w.src ∧ w'.h = w.h ∧ w'.log = w.log := by
  unfold resetActiveAnimation at h
  split at h
  · cases h
  · cases h
    exact ⟨rfl, rfl, rfl, rfl⟩

theorem playSound_src (w : World) (k : SoundType) : (playSound w k).src = w.src := by
  cases k <;> simp only [playSound, playFrom] <;> split <;> rfl

theorem playSound_h (w : World) (k : SoundType) : (playSound w k).h = w.h := by
  cases k <;> simp only [playSound, playFrom] <;> split <;> rfl

theorem blockCheck_preserves (w w' : World) (h : blockCheck w = .ok w') :
    w'.ent.stats = w.ent.stats ∧ w'.src = w.src ∧ w'.h = w.h
      ∧ targetDamage w'.log = targetDamage w.log := by
  unfold blockCheck at h
  split at h
  · cases h
  · split at h
    · obtain ⟨h1, h2, h3, h4⟩ := resetActiveAnimation_preserves _ _ h
      rw [h1, h2, h3, h4, playSound_stats, playSound_src, playSound_h, playSound_targetDamage]
      exact ⟨rfl, rfl, rfl, rfl⟩
    · cases h
      exact ⟨rfl, rfl, rfl, rfl⟩

theorem absorptionStep_preserves (env : Env) (pw : Power) (w w' : World) (d d' : Int)
    (h : absorptionStep env pw w d = .ok (d', w')) :
    w'.ent.stats = w.ent.stats ∧ w'.src = w.src ∧ w'.h = w.h
      ∧ targetDamage w'.log = targetDamage w.log := by
  unfold absorptionStep at h
  simp only at h
  split at h
  · split at h
    · split at h
      · cases hb : blockCheck { w with rng := (randBetween w.rng .absorption
            (w.ent.stats.get .STAT_ABS_MIN) (w.ent.stats.get .STAT_ABS_MAX)).2 } with
        | error e => rw [hb] at h; cases h
        | ok w2 =>
          rw [hb] at h
          cases h
          exact blockCheck_preserves _ _ hb |>.imp id id
      · cases h
        exact ⟨rfl, rfl, rfl, rfl⟩
    · cases h
      exact ⟨rfl, rfl, rfl, rfl⟩
  · cases h
    exact ⟨rfl, rfl, rfl, rfl⟩

theorem zeroDamageFloor_nonneg (env : Env) (h : Hazard) (s : StatBlock) :
    0 ≤ zeroDamageFloor env h s := by
  unfold zeroDamageFloor
  repeat' split
  all_goals decide

theorem absorptionStep_nonneg (env : Env) (pw : Power) (w w' : World) (d d' : Int)
    (harm : w.h.trait_armor_penetration = false)
    (h : absorptionStep env pw w d = .ok (d', w')) : 0 ≤ d' := by
  unfold absorptionStep at h
  simp only [harm] at h
  split at h
  · split at h
    · split at h
      · cases hb : blockCheck { w with rng := (randBetween w.rng .absorption
            (w.ent.stats.get .STAT_ABS_MIN) (w.ent.stats.get .STAT_ABS_MAX)).2 } with
        | error e => rw [hb] at h; cases h
        | ok w2 =>
          rw [hb] at h
          cases h
          exact zeroDamageFloor_nonneg _ _ _
      · cases h
        exact le_refl _
    · cases h
      omega
  · simp at *

theorem critStep_w (env : Env) (pw : Power) (w : World) (d : Int) (o m : Bool) :
    (critStep env pw w d o m).w.ent = w.ent ∧ (critStep env pw w d o m).w.src = w.src
      ∧ (critStep env pw w d o m).w.h = w.h ∧ (critStep env pw w d o m).w.log = w.log := by
  simp only [critStep]
  repeat' split
  all_goals exact ⟨rfl, rfl, rfl, rfl⟩

theorem critStep_flags (env : Env) (pw : Power) (w : World) (d : Int) (o m : Bool) :
    (critStep env pw w d o m).is_overhit = o ∧ (critStep env pw w d o m).missed = m := by
  simp only [critStep]
  repeat' split
  all_goals exact ⟨rfl, rfl⟩

theorem critStep_nonneg (env : Env) (pw : Power) (w : World) (d : Int) (o m : Bool)
    (hd : 0 ≤ d) (hc : 0 ≤ env.MIN_CRIT_DAMAGE) (ho : 0 ≤ env.MIN_OVERHIT_DAMAGE) :
    0 ≤ (critStep env pw w d o m).dmg := by
  simp only [critStep]
  split
  · exact cdiv_nonneg _ _ (mul_nonneg hd (le_trans hc (randBetween_ge _ _ _ _))) (by decide)
  · split
    · exact cdiv_nonneg _ _ (mul_nonneg hd (le_trans ho (randBetween_ge _ _ _ _))) (by decide)
    · exact hd

theorem missStep_w (env : Env) (hit : Hit) :
    (missStep env hit).w.ent = hit.w.ent ∧ (missStep env hit).w.src = hit.w.src
      ∧ (missStep env hit).w.h = hit.w.h ∧ (missStep env hit).w.log = hit.w.log := by
  simp only [missStep]
  split <;> exact ⟨rfl, rfl, rfl, rfl⟩

theorem missStep_flags (env : Env) (hit : Hit) :
    (missStep env hit).crit = hit.crit ∧ (missStep env hit).is_overhit = hit.is_overhit
      ∧ (missStep env hit).missed = hit.missed := by
  simp only [missStep]
  split <;> exact ⟨rfl, rfl, rfl⟩

theorem missStep_nonneg (env : Env) (hit : Hit) (hd : 0 ≤ hit.dmg)
    (hm : 0 ≤ env.MIN_MISS_DAMAGE) : 0 ≤ (missStep env hit).dmg := by
  simp only [missStep]
  split
  · exact cdiv_nonneg _ _ (mul_nonneg hd (le_trans hm (randBetween_ge _ _ _ _))) (by decide)
  · exact hd

theorem damagePipeline_cases (env : Env) (pw : Power) (w : World) (hit : Hit)
    (h : damagePipeline env pw w = .ok hit) :
    ∃ d w1,
      absorptionStep env pw
          { w with rng := (baseDamage pw w.h (missRoll env pw w (overhitRoll pw w).2).2).2 }
          (applyResist env w.h w.ent.stats
            (baseDamage pw w.h (missRoll env pw w (overhitRoll pw w).2).2).1) = .ok (d, w1)
      ∧ hit = missStep env (critStep env pw w1 d (overhitRoll pw w).1
          (missRoll env pw w (overhitRoll pw w).2).1) := by
  unfold damagePipeline at h
  simp only at h
  cases ha : absorptionStep env pw
      { w with rng := (baseDamage pw w.h (missRoll env pw w (overhitRoll pw w).2).2).2 }
      (applyResist env w.h w.ent.stats
        (baseDamage pw w.h (missRoll env pw w (overhitRoll pw w).2).2).1) with
  | error e => rw [ha] at h; cases h
  | ok r =>
    rw [ha] at h
    cases h
    exact ⟨r.1, r.2, rfl, rfl⟩

theorem damagePipeline_preserves (env : Env) (pw : Power) (w : World) (hit : Hit)
    (h : damagePipeline env pw w = .ok hit) :
    hit.w.ent.stats = w.ent.stats ∧ hit.w.src = w.src ∧ hit.w.h = w.h
      ∧ targetDamage hit.w.log = targetDamage w.log := by
  obtain ⟨d, w1, ha, rfl⟩ := damagePipeline_cases env pw w hit h
  obtain ⟨h1, h2, h3, h4⟩ := absorptionStep_preserves env pw _ _ _ _ ha
  obtain ⟨m1, m2, m3, m4⟩ := missStep_w env (critStep env pw w1 d (overhitRoll pw w).1
    (missRoll env pw w (overhitRoll pw w).2).1)
  obtain ⟨c1, c2, c3, c4⟩ := critStep_w env pw w1 d (overhitRoll pw w).1
    (missRoll env pw w (overhitRoll pw w).2).1
  rw [m1, m2, m3, m4, c1, c2, c3, c4, h1, h2, h3, h4]
  exact ⟨rfl, rfl, rfl, rfl⟩

theorem damagePipeline_src_is_self (env : Env) (pw : Power) (w : World) (hit : Hit)
    (h : damagePipeline env pw w = .ok hit) : hit.w.src_is_self = w.src_is_self := by
  obtain ⟨d, w1, ha, rfl⟩ := damagePipeline_cases env pw w hit h
  rw [missStep_src_is_self, critStep_src_is_self,
    absorptionStep_src_is_self env pw _ _ _ _ ha]

theorem absorptionStep_pierce (env : Env) (pw : Power) (w : World) (d : Int)
    (h : w.h.trait_armor_penetration = true) : absorptionStep env pw w d = .ok (d, w) := by
  simp [absorptionStep, h]

theorem damagePipeline_nonneg_of (env : Env) (pw : Power) (w : World) (hit : Hit)
    (hpre : w.h.trait_armor_penetration = false ∨ 0 ≤ resistedDamage env pw w)
    (hc : 0 ≤ env.MIN_CRIT_DAMAGE) (ho : 0 ≤ env.MIN_OVERHIT_DAMAGE)
    (hm : 0 ≤ env.MIN_MISS_DAMAGE)
    (h : damagePipeline env pw w = .ok hit) : 0 ≤ hit.dmg := by
  obtain ⟨d, w1, ha, rfl⟩ := damagePipeline_cases env pw w hit h
  have hd : 0 ≤ d := by
    cases harm : w.h.trait_armor_penetration
    · exact absorptionStep_nonneg env pw
        { w with rng := (baseDamage pw w.h (missRoll env pw w (overhitRoll pw w).2).2).2 }
        _ _ _ harm ha
    · have hp2 := absorptionStep_pierce env pw
        { w with rng := (baseDamage pw w.h (missRoll env pw w (overhitRoll pw w).2).2).2 }
        (applyResist env w.h w.ent.stats
          (baseDamage pw w.h (missRoll env pw w (overhitRoll pw w).2).2).1) harm
      rw [hp2] at ha
      have hd' := (Prod.mk.inj (Except.ok.inj ha)).1
      rcases hpre with hp | hp
      · rw [harm] at hp; cases hp
      · rw [← hd']; exact hp
  exact missStep_nonneg env _ (critStep_nonneg env pw w1 d _ _ hd hc ho) hm

theorem damagePipeline_nonneg (env : Env) (pw : Power) (w : World) (hit : Hit)
    (harm : w.h.trait_armor_penetration = false)
    (hc : 0 ≤ env.MIN_CRIT_DAMAGE) (ho : 0 ≤ env.MIN_OVERHIT_DAMAGE)
    (hm : 0 ≤ env.MIN_MISS_DAMAGE)
    (h : damagePipeline env pw w = .ok hit) : 0 ≤ hit.dmg := by
  obtain ⟨d, w1, ha, rfl⟩ := damagePipeline_cases env pw w hit h
  have hd : 0 ≤ d := absorptionStep_nonneg env pw
    { w with rng := (baseDamage pw w.h (missRoll env pw w (overhitRoll pw w).2).2).2 }
    _ _ _ harm ha
  exact missStep_nonneg env _ (critStep_nonneg env pw w1 d _ _ hd hc ho) hm

theorem reflect_cases (w : World) (b : Bool) (w' : World) (h : reflect w = .ok (b, w')) :
    b = false ∧ w'.ent.stats = w.ent.stats ∧ w'.src = w.src
      ∧ w'.h = reflectHazard w.h w.ent.stats.hero
      ∧ targetDamage w'.log = targetDamage w.log := by
  unfold reflect at h
  split at h
  · cases h
  · split at h
    · cases h
      rw [playSound_stats, playSound_src, playSound_h, playSound_targetDamage]
      exact ⟨rfl, rfl, rfl, rfl, rfl⟩
    · cases h
      exact ⟨rfl, rfl, rfl, rfl, rfl⟩

theorem takeHit_cases (env : Env) (w : World) (b : Bool) (w' : World)
    (h : takeHit env w = .ok (b, w')) :
    (b = false ∧ w' = w) ∨ (b = false ∧ w' = aggro env w)
      ∨ reflect (reflectRoll (aggro env w)).2 = .ok (b, w')
      ∨ ∃ hit, damagePipeline env (env.power w) (reflectRoll (aggro env w)).2 = .ok hit
          ∧ (b, w') = resolve env (env.power w) hit := by
  by_cases hp : passesFilters env w = true
  · rw [takeHit_of_pass env w hp] at h
    split at h
    · cases h
      exact Or.inr (Or.inl ⟨rfl, rfl⟩)
    · split at h
      · exact Or.inr (Or.inr (Or.inl h))
      · cases hd : damagePipeline env (env.power w) (reflectRoll (aggro env w)).2 with
        | error e => rw [hd] at h; cases h
        | ok hit =>
          rw [hd, Except.map] at h
          exact Or.inr (Or.inr (Or.inr ⟨hit, rfl, (Except.ok.inj h).symm⟩))
  · rw [takeHit_of_filtered env w (by simpa using hp)] at h
    cases h
    exact Or.inl ⟨rfl, rfl⟩

/-- C4 (amended): (1) for a hazard that does not penetrate armor, the damage
left after absorption is never negative; (2) for an armor-penetrating hazard
the absorption step changes nothing: the damage enters the scaling steps as
the resistance step left it, not floored; (3) with non-negative minimum crit,
overhit and miss damage percentages, whenever the hazard does not penetrate
armor or the damage after the resistance step is not negative, `takeHit`
calls the target's `takeDamage` (line 535) at most once, with a value that is
at least 0. -/
theorem takeHit_damage_nonneg (env : Env) (w : World)
    (hc : 0 ≤ env.MIN_CRIT_DAMAGE) (ho : 0 ≤ env.MIN_OVERHIT_DAMAGE)
    (hm : 0 ≤ env.MIN_MISS_DAMAGE) :
    (w.h.trait_armor_penetration = false →
      ∀ pw rng d d' w1, absorptionStep env pw { w with rng := rng } d = .ok (d', w1) → 0 ≤ d')
    ∧ (w.h.trait_armor_penetration = true →
      ∀ pw rng d, absorptionStep env pw { w with rng := rng } d = .ok (d, { w with rng := rng }))
    ∧ ∀ b w', takeHit env w = .ok (b, w') →
        (w.h.trait_armor_penetration = false
          ∨ 0 ≤ resistedDamage env (env.power w) (reflectRoll (aggro env w)).2) →
        targetDamage w'.log = targetDamage w.log
        ∨ ∃ d, 0 ≤ d ∧ targetDamage w'.log = targetDamage w.log ++ [d] := by
  refine ⟨fun harm pw rng d d' w1 h =>
    absorptionStep_nonneg env pw { w with rng := rng } _ _ _ harm h,
    fun harm pw rng d => absorptionStep_pierce env pw { w with rng := rng } d harm, ?_⟩
  intro b w' h hpre
  rcases takeHit_cases env w b w' h with ⟨-, rfl⟩ | ⟨-, rfl⟩ | hr | ⟨hit, hd, hres⟩
  · exact Or.inl rfl
  · exact Or.inl (by rw [aggro_log])
  · obtain ⟨-, -, -, -, hl⟩ := reflect_cases _ _ _ hr
    exact Or.inl (by rw [hl, reflectRoll_log, aggro_log])
  · obtain ⟨-, -, hh, hl⟩ := damagePipeline_preserves env _ _ hit hd
    have hl' : targetDamage hit.w.log = targetDamage w.log := by
      rw [hl, reflectRoll_log, aggro_log]
    have hnn : 0 ≤ hit.dmg :=
      damagePipeline_nonneg_of env _ _ hit
        (by rw [reflectRoll_h, aggro_h]; exact hpre) hc ho hm hd
    by_cases hz : (env.power w).ignore_zero_damage = false ∧ hit.dmg = 0
    · rw [resolve_zero env _ hit hz.1 hz.2] at hres
      cases hres
      left
      simp only [World.emit, targetDamage_append, hl']
      simp [targetDamage]
    · rw [resolve_applied env _ hit (by
        by_cases hi : (env.power w).ignore_zero_damage = true
        · exact Or.inl hi
        · exact Or.inr (fun h0 => hz ⟨by simpa using hi, h0⟩))] at hres
      cases hres
      right
      refine ⟨hit.dmg, hnn, ?_⟩
      rw [interrupt_targetDamage, afterEffects_targetDamage]
      split
      · simp [World.emit, targetDamage_append, damageText_targetDamage, hl']
      · rw [hl']

theorem takeHit_damage_nonneg_witness :
    ∃ w1 w', absorptionStep sampleEnv samplePower armouredWorld 10 = .ok (6, w1)
      ∧ (0 : Int) ≤ 6
      ∧ takeHit sampleEnv armouredWorld = .ok (true, w')
      ∧ (targetDamage w'.log = targetDamage armouredWorld.log
        ∨ ∃ d, 0 ≤ d ∧ targetDamage w'.log = targetDamage armouredWorld.log ++ [d]) :=
  ⟨_, _, rfl,
    (takeHit_damage_nonneg sampleEnv armouredWorld (by decide) (by decide) (by decide)).1
      (by decide) samplePower armouredWorld.rng 10 6 _ rfl,
    rfl,
    (takeHit_damage_nonneg sampleEnv armouredWorld (by decide) (by decide) (by decide)).2.2
      true _ rfl (Or.inl (by decide))⟩

/-- C4, as stated, fails for an armor-penetrating hazard: the floor at 0 is
part of the absorption step, which such a hazard skips.  With a power that
subtracts 20 from a base damage of 10, `takeDamage` is called with -10 and the
target's hit points rise from 100 to 110. -/
theorem piercing_negative_damage :
    piercingWorld.h.trait_armor_penetration = true
      ∧ observe (takeHit weakeningEnv piercingWorld) (fun w => targetDamage w.log) = some [-10]
      ∧ piercingWorld.ent.stats.hp = 100
      ∧ observe (takeHit weakeningEnv piercingWorld) (fun w => w.ent.stats.hp) = some 110 := by
  decide

/-- Why C4 needs the minimum scaling percentages to be non-negative: with a
crit damage band of -200 percent a crit turns a damage of 10, not negative
after absorption, into -20. -/
theorem inverted_crit_negative_damage :
    sureCritWorld.h.trait_armor_penetration = false
      ∧ observe (takeHit invertedCritEnv sureCritWorld) (fun w => targetDamage w.log)
          = some [-20] := by
  decide

theorem die_state (w : World) (crit : Bool) :
    (die w crit).ent.stats.hero = w.ent.stats.hero
      ∧ (die w crit).ent.stats.cur_state =
          if w.ent.stats.hero then .AVATAR_DEAD
          else if crit then .ENEMY_CRITDEAD else .ENEMY_DEAD := by
  simp only [die]
  split <;> simp_all [World.setStats, World.emit]

theorem interrupt_dead (env : Env) (w : World) (d : Int) (c wd : Bool)
    (hd : 0 < d) (hhp : w.ent.stats.hp ≤ 0) :
    interrupt env w d c wd =
      die { w with rng := (percentChance w.rng .poise (w.ent.stats.get .STAT_POISE)).2 } c := by
  simp [interrupt, hd, hhp]

theorem stealAmount_pos (dmg prev_hp percent : Int) (hd : 0 < dmg) (hp : 0 ≤ prev_hp)
    (hpc : 0 < percent) : 1 ≤ stealAmount dmg prev_hp percent := by
  have h0 : 0 ≤ cdiv (min dmg prev_hp * percent) 100 :=
    cdiv_nonneg _ _ (mul_nonneg (le_min (le_of_lt hd) hp) (le_of_lt hpc)) (by decide)
  unfold stealAmount
  split <;> omega

theorem stealHp_applied (w : World) (d p : Int)
    (hi : w.ent.stats.effects.immunity_hp_steal = false)
    (hz : w.h.hp_steal + w.source.get .STAT_HP_STEAL ≠ 0) :
    stealHp w d p =
      { w.setSource
          { w.source with
            hp := min
              (w.source.hp + stealAmount d p (w.h.hp_steal + w.source.get .STAT_HP_STEAL))
              (w.source.get .STAT_HP_MAX) } with
        log := w.log ++ [.addString
          (.hpSteal (stealAmount d p (w.h.hp_steal + w.source.get .STAT_HP_STEAL)))
          w.source.pos .COMBAT_MESSAGE_BUFF] } := by
  simp [stealHp, hi, hz]

theorem stealHp_skipped (w : World) (d p : Int)
    (h : ¬(w.ent.stats.effects.immunity_hp_steal = false
      ∧ w.h.hp_steal + w.source.get .STAT_HP_STEAL ≠ 0)) : stealHp w d p = w := by
  unfold stealHp
  split
  · rename_i hc
    simp only [Bool.and_eq_true, Bool.not_eq_true', bne_iff_ne] at hc
    exact absurd hc h
  · rfl

theorem stealMp_applied (w : World) (d p : Int)
    (hi : w.ent.stats.effects.immunity_mp_steal = false)
    (hz : w.h.mp_steal + w.source.get .STAT_MP_STEAL ≠ 0) :
    stealMp w d p =
      { w.setSource
          { w.source with
            mp := min
              (w.source.mp + stealAmount d p (w.h.mp_steal + w.source.get .STAT_MP_STEAL))
              (w.source.get .STAT_MP_MAX) } with
        log := w.log ++ [.addString
          (.mpSteal (stealAmount d p (w.h.mp_steal + w.source.get .STAT_MP_STEAL)))
          w.source.pos .COMBAT_MESSAGE_BUFF] } := by
  simp [stealMp, hi, hz]

theorem stealMp_skipped (w : World) (d p : Int)
    (h : ¬(w.ent.stats.effects.immunity_mp_steal = false
      ∧ w.h.mp_steal + w.source.get .STAT_MP_STEAL ≠ 0)) : stealMp w d p = w := by
  unfold stealMp
  split
  · rename_i hc
    simp only [Bool.and_eq_true, Bool.not_eq_true', bne_iff_ne] at hc
    exact absurd hc h
  · rfl

theorem World.setSource_effects (w : World) (s : StatBlock)
    (h : s.effects = w.source.effects) :
    (w.setSource s).ent.stats.effects = w.ent.stats.effects := by
  rw [World.setSource_stats]
  cases hs : w.src_is_self
  · rfl
  · rw [World.source_of_self w hs] at h
    simpa using h

theorem stealHp_h (w : World) (d p : Int) : (stealHp w d p).h = w.h := by
  unfold stealHp
  split
  · exact World.setSource_h w _
  · rfl

theorem stealHp_effects (w : World) (d p : Int) :
    (stealHp w d p).ent.stats.effects = w.ent.stats.effects := by
  unfold stealHp
  split
  · exact World.setSource_effects w _ rfl
  · rfl

theorem stealHp_source (w : World) (d p : Int) :
    (stealHp w d p).source =
      if w.ent.stats.effects.immunity_hp_steal = false
          ∧ w.h.hp_steal + w.source.get .STAT_HP_STEAL ≠ 0 then
        { w.source with
          hp := min
            (w.source.hp + stealAmount d p (w.h.hp_steal + w.source.get .STAT_HP_STEAL))
            (w.source.get .STAT_HP_MAX) }
      else w.source := by
  by_cases h : w.ent.stats.effects.immunity_hp_steal = false
      ∧ w.h.hp_steal + w.source.get .STAT_HP_STEAL ≠ 0
  · rw [stealHp_applied w d p h.1 h.2, if_pos h]
    exact World.source_setSource w _
  · rw [stealHp_skipped w d p h, if_neg h]

theorem stealMp_source (w : World) (d p : Int) :
    (stealMp w d p).source =
      if w.ent.stats.effects.immunity_mp_steal = false
          ∧ w.h.mp_steal + w.source.get .STAT_MP_STEAL ≠ 0 then
        { w.source with
          mp := min
            (w.source.mp + stealAmount d p (w.h.mp_steal + w.source.get .STAT_MP_STEAL))
            (w.source.get .STAT_MP_MAX) }
      else w.source := by
  by_cases h : w.ent.stats.effects.immunity_mp_steal = false
      ∧ w.h.mp_steal + w.source.get .STAT_MP_STEAL ≠ 0
  · rw [stealMp_applied w d p h.1 h.2, if_pos h]
    exact World.source_setSource w _
  · rw [stealMp_skipped w d p h, if_neg h]

theorem stealHp_log (w : World) (d p : Int) :
    (stealHp w d p).log =
      w.log ++
        (if w.ent.stats.effects.immunity_hp_steal = false
            ∧ w.h.hp_steal + w.source.get .STAT_HP_STEAL ≠ 0 then
          [.addString
            (.hpSteal (stealAmount d p (w.h.hp_steal + w.source.get .STAT_HP_STEAL)))
            w.source.pos .COMBAT_MESSAGE_BUFF]
        else []) := by
  by_cases h : w.ent.stats.effects.immunity_hp_steal = false
      ∧ w.h.hp_steal + w.source.get .STAT_HP_STEAL ≠ 0
  · rw [stealHp_applied w d p h.1 h.2, if_pos h]
  · rw [stealHp_skipped w d p h, if_neg h]
    simp

theorem stealMp_log (w : World) (d p : Int) :
    (stealMp w d p).log =
      w.log ++
        (if w.ent.stats.effects.immunity_mp_steal = false
            ∧ w.h.mp_steal + w.source.get .STAT_MP_STEAL ≠ 0 then
          [.addString
            (.mpSteal (stealAmount d p (w.h.mp_steal + w.source.get .STAT_MP_STEAL)))
            w.source.pos .COMBAT_MESSAGE_BUFF]
        else []) := by
  by_cases h : w.ent.stats.effects.immunity_mp_steal = false
      ∧ w.h.mp_steal + w.source.get .STAT_MP_STEAL ≠ 0
  · rw [stealMp_applied w d p h.1 h.2, if_pos h]
  · rw [stealMp_skipped w d p h, if_neg h]
    simp

/-- C6 (amended): in the steal step of a hit with positive damage on a target
whose hit points before the hit were not negative, the HP-steal amount is at
least 1 when the cumulative HP-steal percent is positive, and the MP-steal
amount is at least 1 when the cumulative MP-steal percent is positive; each
amount depends on its own percent only and is reported in its own message;
and whenever a steal is applied (percent nonzero, target not immune) the
source's hp ends at most at STAT_HP_MAX, its mp at most at STAT_MP_MAX.  The
source is `*h.src_stats`, be it another entity or the target itself. -/
theorem steal_step (w : World) (dmg prev_hp : Int) (hd : 0 < dmg) (hp : 0 ≤ prev_hp) :
    (0 < w.h.hp_steal + w.source.get .STAT_HP_STEAL →
      1 ≤ stealAmount dmg prev_hp (w.h.hp_steal + w.source.get .STAT_HP_STEAL))
    ∧ (0 < w.h.mp_steal + w.source.get .STAT_MP_STEAL →
      1 ≤ stealAmount dmg prev_hp (w.h.mp_steal + w.source.get .STAT_MP_STEAL))
    ∧ (stealMp (stealHp w dmg prev_hp) dmg prev_hp).log =
        w.log
        ++ (if w.ent.stats.effects.immunity_hp_steal = false
              ∧ w.h.hp_steal + w.source.get .STAT_HP_STEAL ≠ 0 then
            [.addString
              (.hpSteal
                (stealAmount dmg prev_hp (w.h.hp_steal + w.source.get .STAT_HP_STEAL)))
              w.source.pos .COMBAT_MESSAGE_BUFF]
          else [])
        ++ (if w.ent.stats.effects.immunity_mp_steal = false
              ∧ w.h.mp_steal + w.source.get .STAT_MP_STEAL ≠ 0 then
            [.addString
              (.mpSteal
                (stealAmount dmg prev_hp (w.h.mp_steal + w.source.get .STAT_MP_STEAL)))
              w.source.pos .COMBAT_MESSAGE_BUFF]
          else [])
    ∧ (w.ent.stats.effects.immunity_hp_steal = false
        → w.h.hp_steal + w.source.get .STAT_HP_STEAL ≠ 0
        → (stealMp (stealHp w dmg prev_hp) dmg prev_hp).source.hp
            ≤ w.source.get .STAT_HP_MAX)
    ∧ (w.ent.stats.effects.immunity_mp_steal = false
        → w.h.mp_steal + w.source.get .STAT_MP_STEAL ≠ 0
        → (stealMp (stealHp w dmg prev_hp) dmg prev_hp).source.mp
            ≤ w.source.get .STAT_MP_MAX) := by
  have e1 := stealHp_effects w dmg prev_hp
  have e2 := stealHp_h w dmg prev_hp
  have e3 : ∀ st, (stealHp w dmg prev_hp).source.get st = w.source.get st := by
    intro st; rw [stealHp_source]; split <;> rfl
  have e4 : (stealHp w dmg prev_hp).source.pos = w.source.pos := by
    rw [stealHp_source]; split <;> rfl
  refine ⟨stealAmount_pos _ _ _ hd hp, stealAmount_pos _ _ _ hd hp, ?_, ?_, ?_⟩
  · rw [stealMp_log, stealHp_log, e1, e2, e3, e4]
  · intro h1 h2
    rw [stealMp_source]
    have h5 : (stealHp w dmg prev_hp).source.hp ≤ w.source.get .STAT_HP_MAX := by
      rw [stealHp_source, if_pos ⟨h1, h2⟩]
      exact min_le_right _ _
    split
    · exact h5
    · exact h5
  · intro h1 h2
    rw [stealMp_source, e1, e2, e3, if_pos ⟨h1, h2⟩]
    dsimp only
    exact le_trans (min_le_right _ _) (le_of_eq (e3 _))

theorem steal_step_witness :
    (0 < stealWorld.h.hp_steal + stealWorld.source.get .STAT_HP_STEAL →
      1 ≤ stealAmount 10 100 (stealWorld.h.hp_steal + stealWorld.source.get .STAT_HP_STEAL))
    ∧ (0 < stealWorld.h.mp_steal + stealWorld.source.get .STAT_MP_STEAL →
      1 ≤ stealAmount 10 100 (stealWorld.h.mp_steal + stealWorld.source.get .STAT_MP_STEAL))
    ∧ (stealMp (stealHp stealWorld 10 100) 10 100).log =
        stealWorld.log
        ++ (if stealWorld.ent.stats.effects.immunity_hp_steal = false
              ∧ stealWorld.h.hp_steal + stealWorld.source.get .STAT_HP_STEAL ≠ 0 then
            [.addString
              (.hpSteal (stealAmount 10 100
                (stealWorld.h.hp_steal + stealWorld.source.get .STAT_HP_STEAL)))
              stealWorld.source.pos .COMBAT_MESSAGE_BUFF]
          else [])
        ++ (if stealWorld.ent.stats.effects.immunity_mp_steal = false
              ∧ stealWorld.h.mp_steal + stealWorld.source.get .STAT_MP_STEAL ≠ 0 then
            [.addString
              (.mpSteal (stealAmount 10 100
                (stealWorld.h.mp_steal + stealWorld.source.get .STAT_MP_STEAL)))
              stealWorld.source.pos .COMBAT_MESSAGE_BUFF]
          else [])
    ∧ (stealWorld.ent.stats.effects.immunity_hp_steal = false
        → stealWorld.h.hp_steal + stealWorld.source.get .STAT_HP_STEAL ≠ 0
        → (stealMp (stealHp stealWorld 10 100) 10 100).source.hp
            ≤ stealWorld.source.get .STAT_HP_MAX)
    ∧ (stealWorld.ent.stats.effects.immunity_mp_steal = false
        → stealWorld.h.mp_steal + stealWorld.source.get .STAT_MP_STEAL ≠ 0
        → (stealMp (stealHp stealWorld 10 100) 10 100).source.mp
            ≤ stealWorld.source.get .STAT_MP_MAX) :=
  steal_step stealWorld 10 100 (by decide) (by decide)

/-- C6, as stated, fails for a negative cumulative steal percent: the amount
is only raised to 1 when it is exactly 0.  With 10 damage and -50 percent HP
steal the message reports -5 and the source loses 5 hit points (50 to 45). -/
theorem negative_steal_amount :
    stealAmount 10 100 (drainWorld.h.hp_steal + drainWorld.src.get .STAT_HP_STEAL) = -5
      ∧ observe (takeHit sampleEnv drainWorld) (fun w => w.log) = some
          [.addInt 10 ⟨3, 4⟩ .COMBAT_MESSAGE_GIVEDMG, .takeDamageTarget 10,
            .addString (.hpSteal (-5)) ⟨1, 1⟩ .COMBAT_MESSAGE_BUFF]
      ∧ drainWorld.src.hp = 50
      ∧ observe (takeHit sampleEnv drainWorld) (fun w => w.src.hp) = some 45 := by
  decide

theorem aggro_rng (env : Env) (w : World) : (aggro env w).rng = w.rng := by
  simp only [aggro]; split <;> rfl

theorem aggro_hero (env : Env) (w : World) :
    (aggro env w).ent.stats.hero = w.ent.stats.hero := by
  simp only [aggro]; split <;> rfl

theorem aggro_animation (env : Env) (w : World) :
    (aggro env w).ent.activeAnimation = w.ent.activeAnimation := by
  simp only [aggro]; split <;> rfl

theorem reflectRoll_fst (env : Env) (w : World) :
    (reflectRoll (aggro env w)).1 =
      (w.h.missile && (percentChance w.rng .reflect (w.ent.stats.get .STAT_REFLECT)).1) := by
  simp only [reflectRoll, aggro_h, aggro_rng, aggro_get]
  split <;> simp_all

/-- C7 (amended): when `takeHit` reflects a hazard (the hazard passes the
filters, is no beacon, is a missile and the reflect roll succeeds) on a target
with an active animation, it returns false, the target's hit points are
unchanged, the hazard's lifespan is its base lifespan, and the source type
goes from hero or ally to enemy and from enemy to hero (hero target) or ally
(other target); a source type that is none of the three stays as it is. -/
theorem takeHit_reflects (env : Env) (w : World) (a : Animation)
    (hpass : passesFilters env w = true) (hbeacon : (env.power w).beacon = false)
    (hmissile : w.h.missile = true)
    (hroll : (percentChance w.rng .reflect (w.ent.stats.get .STAT_REFLECT)).1 = true)
    (hanim : w.ent.activeAnimation = some a) :
    ∃ w', takeHit env w = .ok (false, w')
      ∧ w'.ent.stats.hp = w.ent.stats.hp
      ∧ w'.h.lifespan = w.h.base_lifespan
      ∧ (w.h.source_type = .SOURCE_TYPE_HERO ∨ w.h.source_type = .SOURCE_TYPE_ALLY →
          w'.h.source_type = .SOURCE_TYPE_ENEMY)
      ∧ (w.h.source_type = .SOURCE_TYPE_ENEMY →
          w'.h.source_type =
            if w.ent.stats.hero then .SOURCE_TYPE_HERO else .SOURCE_TYPE_ALLY)
      ∧ ∀ n, w.h.source_type = .OTHER n → w'.h.source_type = .OTHER n := by
  have hr : (reflectRoll (aggro env w)).1 = true := by
    rw [reflectRoll_fst, hmissile, hroll]; rfl
  have hret : ∃ w', reflect (reflectRoll (aggro env w)).2 = .ok (false, w') := by
    unfold reflect
    rw [reflectRoll_ent, aggro_animation, hanim]
    simp only
    split
    · exact ⟨_, rfl⟩
    · exact ⟨_, rfl⟩
  obtain ⟨w', hw'⟩ := hret
  obtain ⟨-, hs, -, hh, -⟩ := reflect_cases _ _ _ hw'
  refine ⟨w', ?_, ?_, ?_, ?_, ?_, ?_⟩
  · rw [takeHit_of_pass env w hpass]
    simp [hbeacon, hr, hw']
  · rw [hs, reflectRoll_ent, aggro_hp]
  · rw [hh, reflectRoll_h, aggro_h]
    rfl
  · intro h
    rw [hh, reflectRoll_h, aggro_h]
    rcases h with h | h <;> simp [reflectHazard, reflectedSource, Hazard.setAngle, h]
  · intro h
    rw [hh, reflectRoll_h, aggro_h, reflectRoll_ent, aggro_hero]
    simp [reflectHazard, reflectedSource, Hazard.setAngle, h]
  · intro n h
    rw [hh, reflectRoll_h, aggro_h]
    simp [reflectHazard, reflectedSource, Hazard.setAngle, h]

theorem takeHit_reflects_witness :
    ∃ w', takeHit sampleEnv reflectWorld = .ok (false, w')
      ∧ w'.ent.stats.hp = reflectWorld.ent.stats.hp
      ∧ w'.h.lifespan = reflectWorld.h.base_lifespan
      ∧ (reflectWorld.h.source_type = .SOURCE_TYPE_HERO
          ∨ reflectWorld.h.source_type = .SOURCE_TYPE_ALLY →
          w'.h.source_type = .SOURCE_TYPE_ENEMY)
      ∧ (reflectWorld.h.source_type = .SOURCE_TYPE_ENEMY →
          w'.h.source_type =
            if reflectWorld.ent.stats.hero then .SOURCE_TYPE_HERO else .SOURCE_TYPE_ALLY)
      ∧ ∀ n, reflectWorld.h.source_type = .OTHER n → w'.h.source_type = .OTHER n :=
  takeHit_reflects sampleEnv reflectWorld ⟨"stance", 2⟩ (by decide) (by decide) (by decide)
    (by decide) rfl

/-- C7, as stated, fails for a hazard whose source is neither hero, ally nor
enemy: the missile is reflected (`takeHit` returns false, lifespan reset from
3 to 10) but its source type is not changed. -/
theorem neutral_source_not_flipped :
    returned (takeHit sampleEnv neutralMissileWorld) = some false
      ∧ observe (takeHit sampleEnv neutralMissileWorld) (fun w => w.h.lifespan) = some 10
      ∧ neutralMissileWorld.h.source_type = .OTHER 1
      ∧ observe (takeHit sampleEnv neutralMissileWorld) (fun w => w.h.source_type)
          = some (.OTHER 1) := by
  decide

theorem damagePipeline_missed (env : Env) (pw : Power) (w : World) (hit : Hit)
    (h : damagePipeline env pw w = .ok hit) :
    hit.missed = (missRoll env pw w (overhitRoll pw w).2).1 := by
  obtain ⟨d, w1, -, rfl⟩ := damagePipeline_cases env pw w hit h
  rw [(missStep_flags env _).2.2, (critStep_flags env pw w1 d _ _).2]

/-- C8 (amended): in the accuracy step, if `true_avoidance` is clamped to
MIN_AVOIDANCE and MIN_AVOIDANCE <= 0, the miss roll fails for every state of
the random source; if it is clamped to MAX_AVOIDANCE, MAX_AVOIDANCE >= 100 and
the source lacks perfect accuracy, the miss roll succeeds for every state of
the random source; a source with perfect accuracy never misses, whatever the
avoidance and the random source; and the `missed` flag of a resolved hit is
that roll. -/
theorem missRoll_at_clamp (env : Env) (pw : Power) (w : World) :
    (clampAvoidance env (trueAvoidance pw w) = env.MIN_AVOIDANCE → env.MIN_AVOIDANCE ≤ 0 →
      ∀ g, (missRoll env pw w g).1 = false)
    ∧ (clampAvoidance env (trueAvoidance pw w) = env.MAX_AVOIDANCE →
      100 ≤ env.MAX_AVOIDANCE →
      w.source.perfect_accuracy = false → ∀ g, (missRoll env pw w g).1 = true)
    ∧ (w.source.perfect_accuracy = true →
        (∀ g, (missRoll env pw w g).1 = false)
        ∧ ∀ hit, damagePipeline env pw w = .ok hit → hit.missed = false)
    ∧ ∀ hit, damagePipeline env pw w = .ok hit →
        hit.missed = (missRoll env pw w (overhitRoll pw w).2).1 := by
  have hperf : w.source.perfect_accuracy = true → ∀ g, (missRoll env pw w g).1 = false := by
    intro hp g
    simp [missRoll, hp]
  refine ⟨?_, ?_, fun hp => ⟨hperf hp, fun hit h => ?_⟩,
    fun hit h => damagePipeline_missed env pw w hit h⟩
  · intro hc hmin g
    unfold missRoll
    split
    · rw [hc]
      exact percentChance_nonpos g _ _ hmin
    · rfl
  · intro hc hmax hp g
    unfold missRoll
    rw [hp, hc]
    exact percentChance_ge_100 g _ _ hmax
  · rw [damagePipeline_missed env pw w hit h]
    exact hperf hp _

theorem missRoll_at_clamp_witness :
    (missRoll sampleEnv samplePower sampleWorld sampleWorld.rng).1 = false
      ∧ (missRoll wideBandEnv samplePower inaccurateWorld sampleWorld.rng).1 = true
      ∧ (missRoll wideBandEnv samplePower perfectWorld perfectWorld.rng).1 = false :=
  ⟨(missRoll_at_clamp sampleEnv samplePower sampleWorld).1 (by decide) (by decide) _,
    (missRoll_at_clamp wideBandEnv samplePower inaccurateWorld).2.1 (by decide) (by decide)
      (by decide) _,
    ((missRoll_at_clamp wideBandEnv samplePower perfectWorld).2.2.1 (by decide)).1 _⟩

/-- C8, as stated, fails for a source with perfect accuracy: `true_avoidance`
is 100, clamped to MAX_AVOIDANCE = 100, yet no miss roll is made, the hit is
not a miss and the full 10 damage is applied. -/
theorem perfect_accuracy_never_misses :
    clampAvoidance wideBandEnv (trueAvoidance samplePower perfectWorld)
        = wideBandEnv.MAX_AVOIDANCE
      ∧ 100 ≤ wideBandEnv.MAX_AVOIDANCE
      ∧ (missRoll wideBandEnv samplePower perfectWorld perfectWorld.rng).1 = false
      ∧ observe (takeHit wideBandEnv perfectWorld) (fun w => w.log) = some
          [.addInt 10 ⟨3, 4⟩ .COMBAT_MESSAGE_GIVEDMG, .takeDamageTarget 10] := by
  decide

/-- C9 (amended): a pure beacon that is not flagged no-aggro, striking a
target that is neither hero nor ally, is not in combat and passes the filters:
`takeHit` returns false, the target's `join_combat` flag is set, its
`in_combat` flag and its hit points are unchanged. -/
theorem takeHit_beacon (env : Env) (w : World)
    (hpass : passesFilters env w = true) (hbeacon : (env.power w).beacon = true)
    (hna : (env.power w).no_aggro = false)
    (hhero : w.ent.stats.hero = false) (hally : w.ent.stats.hero_ally = false)
    (hic : w.ent.stats.in_combat = false) :
    ∃ w', takeHit env w = .ok (false, w')
      ∧ w'.ent.stats.join_combat = true
      ∧ w'.ent.stats.in_combat = w.ent.stats.in_combat
      ∧ w'.ent.stats.hp = w.ent.stats.hp := by
  refine ⟨aggro env w, ?_, ?_, ?_, ?_⟩
  · rw [takeHit_of_pass env w hpass]
    simp [hbeacon]
  · simp [aggro, hna, hhero, hally, hic]
  · simp [aggro, hna, hhero, hally, hic]
  · exact aggro_hp env w

theorem takeHit_beacon_witness :
    ∃ w', takeHit beaconEnv sampleWorld = .ok (false, w')
      ∧ w'.ent.stats.join_combat = true
      ∧ w'.ent.stats.in_combat = sampleWorld.ent.stats.in_combat
      ∧ w'.ent.stats.hp = sampleWorld.ent.stats.hp :=
  takeHit_beacon beaconEnv sampleWorld (by decide) (by decide) (by decide) (by decide)
    (by decide) (by decide)

/-- C9, as stated, fails for a non-hero target that is an ally of the hero:
the beacon returns false but the target is not drawn into combat, neither
`join_combat` nor `in_combat` is set. -/
theorem beacon_ignores_ally :
    allyWorld.ent.stats.hero = false ∧ allyWorld.ent.stats.in_combat = false
      ∧ (beaconEnv.power allyWorld).beacon = true
      ∧ returned (takeHit beaconEnv allyWorld) = some false
      ∧ observe (takeHit beaconEnv allyWorld) (fun w => w.ent.stats.join_combat) = some false
      ∧ observe (takeHit beaconEnv allyWorld) (fun w => w.ent.stats.in_combat) = some false := by
  decide

/-- C10: for a power that does not ignore zero damage, when the damage
pipeline ends with damage 0, `takeHit` returns false after adding exactly the
"miss" message at the target's position: entity, source, hazard and random
source are what they were before the result-reporting step, the target's and
the source's StatBlock are still the ones the call started with (but for the
aggro flag), and no `takeDamage` call on the target is logged. -/
theorem takeHit_zero_damage (env : Env) (w : World) (hit : Hit)
    (hpass : passesFilters env w = true) (hbeacon : (env.power w).beacon = false)
    (hrefl : (reflectRoll (aggro env w)).1 = false)
    (hpipe : damagePipeline env (env.power w) (reflectRoll (aggro env w)).2 = .ok hit)
    (hi : (env.power w).ignore_zero_damage = false) (hz : hit.dmg = 0) :
    ∃ w', takeHit env w = .ok (false, w')
      ∧ w'.log = hit.w.log ++ [.addString .miss hit.w.ent.stats.pos .COMBAT_MESSAGE_MISS]
      ∧ w'.ent = hit.w.ent ∧ w'.src = hit.w.src ∧ w'.h = hit.w.h
      ∧ w'.rng.pos = hit.w.rng.pos ∧ w'.shaky_cam_ticks = hit.w.shaky_cam_ticks
      ∧ w'.ent.stats = (aggro env w).ent.stats ∧ w'.src = w.src
      ∧ targetDamage w'.log = targetDamage w.log := by
  obtain ⟨hs, hsrc, -, hl⟩ := damagePipeline_preserves env _ _ hit hpipe
  refine ⟨hit.w.emit (.addString .miss hit.w.ent.stats.pos .COMBAT_MESSAGE_MISS),
    ?_, rfl, rfl, rfl, rfl, rfl, rfl, ?_, ?_, ?_⟩
  · rw [takeHit_resolved env w hpass hbeacon hrefl, hpipe, Except.map,
      resolve_zero env _ hit hi hz]
  · show hit.w.ent.stats = _
    rw [hs, reflectRoll_ent]
  · show hit.w.src = _
    rw [hsrc, reflectRoll_src, aggro_src]
  · simp only [World.emit, targetDamage_append, hl, reflectRoll_log, aggro_log]
    simp [targetDamage]

theorem takeHit_zero_damage_witness :
    ∃ hit w', damagePipeline sampleEnv (sampleEnv.power inaccurateWorld)
          (reflectRoll (aggro sampleEnv inaccurateWorld)).2 = .ok hit
      ∧ hit.dmg = 0 ∧ hit.missed = true
      ∧ takeHit sampleEnv inaccurateWorld = .ok (false, w')
      ∧ w'.log = hit.w.log ++ [.addString .miss hit.w.ent.stats.pos .COMBAT_MESSAGE_MISS]
      ∧ w'.ent = hit.w.ent ∧ w'.src = hit.w.src ∧ w'.h = hit.w.h
      ∧ w'.rng.pos = hit.w.rng.pos ∧ w'.shaky_cam_ticks = hit.w.shaky_cam_ticks
      ∧ w'.ent.stats = (aggro sampleEnv inaccurateWorld).ent.stats
      ∧ w'.src = inaccurateWorld.src
      ∧ targetDamage w'.log = targetDamage inaccurateWorld.log := by
  obtain ⟨w', h⟩ := takeHit_zero_damage sampleEnv inaccurateWorld _ (by decide) (by decide)
    (by decide) rfl (by decide) rfl
  exact ⟨_, w', rfl, rfl, rfl, h⟩

/-- Why C3 needs the minimum avoidance setting to be at most 0: with
MIN_AVOIDANCE = 5 the scenario's hit can be a miss, which the default miss
damage of 0 percent turns into a "miss" message and a false return. -/
theorem plain_hit_misses_with_min_avoidance :
    returned (takeHit strictEnv lowRollWorld) = some false
      ∧ observe (takeHit strictEnv lowRollWorld) (fun w => w.ent.stats.hp) = some 100 := by
  decide

/-- Why C3 needs the impaired-target crit bonus to be 0: against a stunned
target the bonus alone makes the scenario's hit a crit, for 20 damage. -/
theorem plain_hit_crits_when_impaired :
    stunnedWorld.h.crit_chance = 0
      ∧ observe (takeHit sampleEnv stunnedWorld) (fun w => targetDamage w.log) = some [20]
      ∧ observe (takeHit sampleEnv stunnedWorld) (fun w => w.ent.stats.hp) = some 80 := by
  decide

/-- C19: elemental resistance.  For an element index inside the target's
vulnerability table, with raw value v, the damage becomes (damage * p) / 100
(truncating division) with p = max(v, MIN_RESIST) if v >= 100 and
p = min(max(v, MIN_RESIST), MAX_RESIST) if v < 100; without an element, or
with an index outside the table, the damage is unchanged.  In the pipeline the
step sits between the base damage and the absorption. -/
theorem applyResist_formula (env : Env) (h : Hazard) (s : StatBlock) (dmg : Int) :
    (0 ≤ h.trait_elemental → h.trait_elemental.toNat < s.vulnerable.length →
      ∃ v, s.vulnerable[h.trait_elemental.toNat]? = some v
        ∧ applyResist env h s dmg =
            cdiv (dmg * (if 100 ≤ v then max v env.MIN_RESIST
              else min (max v env.MIN_RESIST) env.MAX_RESIST)) 100)
    ∧ (h.trait_elemental < 0 ∨ s.vulnerable.length ≤ h.trait_elemental.toNat →
      applyResist env h s dmg = dmg)
    ∧ ∀ pw w hit, damagePipeline env pw w = .ok hit →
        ∃ d w1,
          absorptionStep env pw
            { w with rng := (baseDamage pw w.h (missRoll env pw w (overhitRoll pw w).2).2).2 }
            (applyResist env w.h w.ent.stats
              (baseDamage pw w.h (missRoll env pw w (overhitRoll pw w).2).2).1) = .ok (d, w1) := by
  refine ⟨?_, ?_, ?_⟩
  · intro h0 hlt
    refine ⟨s.vulnerable.getD h.trait_elemental.toNat 0, ?_, ?_⟩
    · rw [List.getD_eq_getElem?_getD, List.getElem?_eq_getElem hlt]
      rfl
    · simp only [applyResist, clampVulnerable, h0, hlt, decide_True, Bool.and_self, if_true]
      by_cases hv : s.vulnerable.getD h.trait_elemental.toNat 0 < 100
      · rw [if_pos hv, if_neg (not_le.mpr hv)]
      · rw [if_neg hv, if_pos (not_lt.mp hv)]
  · intro hout
    unfold applyResist
    rw [if_neg]
    simp only [Bool.and_eq_true, decide_eq_true_eq, not_and, not_lt]
    intro h0
    rcases hout with hneg | hlen
    · omega
    · exact hlen
  · intro pw w hit hp
    obtain ⟨d, w1, ha, -⟩ := damagePipeline_cases env pw w hit hp
    exact ⟨d, w1, ha⟩

theorem applyResist_formula_witness :
    (∃ v, fireWorld.ent.stats.vulnerable[fireWorld.h.trait_elemental.toNat]? = some v
      ∧ applyResist sampleEnv fireWorld.h fireWorld.ent.stats 10 =
          cdiv (10 * (if 100 ≤ v then max v sampleEnv.MIN_RESIST
            else min (max v sampleEnv.MIN_RESIST) sampleEnv.MAX_RESIST)) 100)
    ∧ applyResist sampleEnv fireWorld.h fireWorld.ent.stats 10 = 5
    ∧ applyResist sampleEnv sampleWorld.h sampleWorld.ent.stats 10 = 10 :=
  ⟨(applyResist_formula sampleEnv fireWorld.h fireWorld.ent.stats 10).1 (by decide) (by decide),
    by decide,
    (applyResist_formula sampleEnv sampleWorld.h sampleWorld.ent.stats 10).2.1
      (Or.inl (by decide))⟩

theorem critStep_crit (env : Env) (pw : Power) (w : World) (d : Int) (o m : Bool)
    (hp : (percentChance w.rng .crit (trueCritChance pw w.h w.ent.stats)).1 = true) :
    (critStep env pw w d o m).crit = true
    ∧ (critStep env pw w d o m).dmg =
        cdiv (d * (randBetween (percentChance w.rng .crit (trueCritChance pw w.h w.ent.stats)).2
          .critScale env.MIN_CRIT_DAMAGE env.MAX_CRIT_DAMAGE).1) 100
    ∧ (critStep env pw w d o m).w.rng =
        (randBetween (percentChance w.rng .crit (trueCritChance pw w.h w.ent.stats)).2
          .critScale env.MIN_CRIT_DAMAGE env.MAX_CRIT_DAMAGE).2 := by
  simp [critStep, hp]

theorem critStep_overhit (env : Env) (pw : Power) (w : World) (d : Int) (m : Bool)
    (hp : (percentChance w.rng .crit (trueCritChance pw w.h w.ent.stats)).1 = false) :
    (critStep env pw w d true m).crit = false
    ∧ (critStep env pw w d true m).dmg =
        cdiv (d * (randBetween (percentChance w.rng .crit (trueCritChance pw w.h w.ent.stats)).2
          .overhitScale env.MIN_OVERHIT_DAMAGE env.MAX_OVERHIT_DAMAGE).1) 100 := by
  simp [critStep, hp]

theorem critStep_plain (env : Env) (pw : Power) (w : World) (d : Int) (m : Bool)
    (hp : (percentChance w.rng .crit (trueCritChance pw w.h w.ent.stats)).1 = false) :
    (critStep env pw w d false m).crit = false ∧ (critStep env pw w d false m).dmg = d := by
  simp [critStep, hp]

/-- C17: crit scaling, else overhit scaling, then miss scaling.  With d the
damage before the crit step and non-empty percent bands: when the crit roll
succeeds the damage is d*c/100 with c in [MIN_CRIT_DAMAGE, MAX_CRIT_DAMAGE] and
the only scaling draw is the crit one; when it fails and the overhit flag is
set the damage is d*c/100 with c in [MIN_OVERHIT_DAMAGE, MAX_OVERHIT_DAMAGE];
otherwise it stays d; after that a miss scales the result by a percent in
[MIN_MISS_DAMAGE, MAX_MISS_DAMAGE], and a hit that is no miss leaves it.  The
damage pipeline ends with exactly these two steps. -/
theorem crit_overhit_miss_scaling (env : Env) (pw : Power) (w : World) (d : Int)
    (o m : Bool)
    (hc : env.MIN_CRIT_DAMAGE ≤ env.MAX_CRIT_DAMAGE)
    (ho : env.MIN_OVERHIT_DAMAGE ≤ env.MAX_OVERHIT_DAMAGE)
    (hm : env.MIN_MISS_DAMAGE ≤ env.MAX_MISS_DAMAGE) :
    (critStep env pw w d o m).crit
        = (percentChance w.rng .crit (trueCritChance pw w.h w.ent.stats)).1
    ∧ ((critStep env pw w d o m).crit = true →
        (∃ c, env.MIN_CRIT_DAMAGE ≤ c ∧ c ≤ env.MAX_CRIT_DAMAGE
          ∧ (critStep env pw w d o m).dmg = cdiv (d * c) 100)
        ∧ (critStep env pw w d o m).w.rng =
            (randBetween (percentChance w.rng .crit (trueCritChance pw w.h w.ent.stats)).2
              .critScale env.MIN_CRIT_DAMAGE env.MAX_CRIT_DAMAGE).2)
    ∧ ((critStep env pw w d o m).crit = false → o = true →
        ∃ c, env.MIN_OVERHIT_DAMAGE ≤ c ∧ c ≤ env.MAX_OVERHIT_DAMAGE
          ∧ (critStep env pw w d o m).dmg = cdiv (d * c) 100)
    ∧ ((critStep env pw w d o m).crit = false → o = false →
        (critStep env pw w d o m).dmg = d)
    ∧ (m = true →
        ∃ p, env.MIN_MISS_DAMAGE ≤ p ∧ p ≤ env.MAX_MISS_DAMAGE
          ∧ (missStep env (critStep env pw w d o m)).dmg
              = cdiv ((critStep env pw w d o m).dmg * p) 100)
    ∧ (m = false →
        (missStep env (critStep env pw w d o m)).dmg = (critStep env pw w d o m).dmg)
    ∧ ∀ w0 hit, damagePipeline env pw w0 = .ok hit →
        ∃ d0 w1, hit = missStep env (critStep env pw w1 d0 (overhitRoll pw w0).1
          (missRoll env pw w0 (overhitRoll pw w0).2).1) := by
  have hcrit : (critStep env pw w d o m).crit
      = (percentChance w.rng .crit (trueCritChance pw w.h w.ent.stats)).1 := by
    cases hp : (percentChance w.rng .crit (trueCritChance pw w.h w.ent.stats)).1
    · cases o
      · exact (critStep_plain env pw w d m hp).1
      · exact (critStep_overhit env pw w d m hp).1
    · exact (critStep_crit env pw w d o m hp).1
  refine ⟨hcrit, ?_, ?_, ?_, ?_, ?_, ?_⟩
  · intro h
    rw [hcrit] at h
    obtain ⟨-, h2, h3⟩ := critStep_crit env pw w d o m h
    exact ⟨⟨_, randBetween_ge _ _ _ _, randBetween_le _ _ _ _ hc, h2⟩, h3⟩
  · intro h ho'
    rw [hcrit] at h
    subst ho'
    exact ⟨_, randBetween_ge _ _ _ _, randBetween_le _ _ _ _ ho,
      (critStep_overhit env pw w d m h).2⟩
  · intro h ho'
    rw [hcrit] at h
    subst ho'
    exact (critStep_plain env pw w d m h).2
  · intro hm'
    have hmm : (critStep env pw w d o m).missed = true := by
      rw [(critStep_flags env pw w d o m).2, hm']
    simp only [missStep, hmm, if_true]
    exact ⟨_, randBetween_ge _ _ _ _, randBetween_le _ _ _ _ hm, rfl⟩
  · intro hm'
    have hmm : (critStep env pw w d o m).missed = false := by
      rw [(critStep_flags env pw w d o m).2, hm']
    simp [missStep, hmm]
  · intro w0 hit hp
    obtain ⟨d0, w1, -, hh⟩ := damagePipeline_cases env pw w0 hit hp
    exact ⟨d0, w1, hh⟩

theorem crit_overhit_miss_scaling_witness :
    (critStep bandEnv samplePower stunnedWorld 10 true true).crit = true
    ∧ (critStep bandEnv samplePower stunnedWorld 10 true true).dmg = 20
    ∧ (∃ c, bandEnv.MIN_CRIT_DAMAGE ≤ c ∧ c ≤ bandEnv.MAX_CRIT_DAMAGE
        ∧ (critStep bandEnv samplePower stunnedWorld 10 true true).dmg = cdiv (10 * c) 100)
    ∧ ∃ p, bandEnv.MIN_MISS_DAMAGE ≤ p ∧ p ≤ bandEnv.MAX_MISS_DAMAGE
        ∧ (missStep bandEnv (critStep bandEnv samplePower stunnedWorld 10 true true)).dmg
            = cdiv ((critStep bandEnv samplePower stunnedWorld 10 true true).dmg * p) 100 :=
  ⟨by decide, by decide,
    ((crit_overhit_miss_scaling bandEnv samplePower stunnedWorld 10 true true (by decide)
      (by decide) (by decide)).2.1 (by decide)).1,
    (crit_overhit_miss_scaling bandEnv samplePower stunnedWorld 10 true true (by decide)
      (by decide) (by decide)).2.2.2.2.1 rfl⟩

theorem returnAmount_pos (dmg ret : Int) (hd : 0 ≤ dmg) (hr : 0 < ret) :
    1 ≤ returnAmount dmg ret := by
  have h0 := float_quotient_nonneg (dmg * ret) (mul_nonneg hd (le_of_lt hr))
  unfold returnAmount
  split <;> omega

theorem returnAmount_exact (dmg ret : Int) (hd : 0 ≤ dmg) (hr : 0 < ret)
    (hb : dmg * ret < 2 ^ 24) : returnAmount dmg ret = max 1 (dmg * ret / 100) := by
  have hn : 0 ≤ dmg * ret := mul_nonneg hd (le_of_lt hr)
  have hq0 : 0 ≤ dmg * ret / 100 := Int.ediv_nonneg hn (by decide)
  unfold returnAmount
  rw [float_quotient_exact _ hn hb, Int.tdiv_eq_ediv hn (by decide)]
  split <;> omega

theorem returnDamage_applied (w : World) (dmg : Int)
    (himm : w.source.effects.immunity_damage_reflect = false)
    (hret : 0 < w.ent.stats.get .STAT_RETURN_DAMAGE) :
    returnDamage w dmg =
      { w.setSource
          (w.source.takeDamage (returnAmount dmg (w.ent.stats.get .STAT_RETURN_DAMAGE))) with
        log := w.log ++
          [.takeDamageSource (returnAmount dmg (w.ent.stats.get .STAT_RETURN_DAMAGE)),
           .addInt (returnAmount dmg (w.ent.stats.get .STAT_RETURN_DAMAGE)) w.source.pos
             .COMBAT_MESSAGE_GIVEDMG] } := by
  simp [returnDamage, himm, hret]

theorem afterEffects_applied (env : Env) (pw : Power) (w : World) (dmg : Int)
    (h : 0 < dmg ∨ pw.ignore_zero_damage = true) :
    afterEffects env pw w dmg =
      postPower env pw
        (returnDamage (stealMp (stealHp
          (applyEffects env
            ((w.setStats (w.ent.stats.takeDamage dmg)).emit (.takeDamageTarget dmg)))
          dmg w.ent.stats.hp) dmg w.ent.stats.hp) dmg) := by
  unfold afterEffects
  rcases h with h | h <;> simp [h]

/-- C20 (amended): return damage.  When the target's return-damage stat is
above 0, the source is not immune to reflected damage and the damage is not
negative, the amount, computed in `float` by line 563 and raised from 0 to 1,
is at least 1; it is damage * return_damage / 100 raised to at least 1 when
damage * return_damage is below 2^24; the source, be it another entity or the
target itself, takes it through `takeDamage` (no cap other than the floor of
its hit points at 0) and a give-damage message with the amount is emitted at
the source's position; the target's entity is left alone if the source is
another entity; the step runs in the post-damage branch, after the steals. -/
theorem returnDamage_amount (w : World) (dmg : Int)
    (himm : w.source.effects.immunity_damage_reflect = false)
    (hret : 0 < w.ent.stats.get .STAT_RETURN_DAMAGE) (hd : 0 ≤ dmg) :
    1 ≤ returnAmount dmg (w.ent.stats.get .STAT_RETURN_DAMAGE)
    ∧ (dmg * w.ent.stats.get .STAT_RETURN_DAMAGE < 2 ^ 24 →
        returnAmount dmg (w.ent.stats.get .STAT_RETURN_DAMAGE)
          = max 1 (dmg * w.ent.stats.get .STAT_RETURN_DAMAGE / 100))
    ∧ (returnDamage w dmg).log = w.log ++
        [.takeDamageSource (returnAmount dmg (w.ent.stats.get .STAT_RETURN_DAMAGE)),
         .addInt (returnAmount dmg (w.ent.stats.get .STAT_RETURN_DAMAGE)) w.source.pos
           .COMBAT_MESSAGE_GIVEDMG]
    ∧ (returnDamage w dmg).source
        = w.source.takeDamage (returnAmount dmg (w.ent.stats.get .STAT_RETURN_DAMAGE))
    ∧ (returnDamage w dmg).source.hp
        = (if w.source.hp - returnAmount dmg (w.ent.stats.get .STAT_RETURN_DAMAGE) ≤ 0 then 0
          else w.source.hp - returnAmount dmg (w.ent.stats.get .STAT_RETURN_DAMAGE))
    ∧ (w.src_is_self = false → (returnDamage w dmg).ent = w.ent)
    ∧ ∀ env pw w0, 0 < dmg ∨ pw.ignore_zero_damage = true →
        afterEffects env pw w0 dmg =
          postPower env pw
            (returnDamage (stealMp (stealHp
              (applyEffects env
                ((w0.setStats (w0.ent.stats.takeDamage dmg)).emit (.takeDamageTarget dmg)))
              dmg w0.ent.stats.hp) dmg w0.ent.stats.hp) dmg) := by
  have hsrc : (returnDamage w dmg).source
      = w.source.takeDamage (returnAmount dmg (w.ent.stats.get .STAT_RETURN_DAMAGE)) := by
    rw [returnDamage_applied w dmg himm hret]
    exact World.source_setSource w _
  refine ⟨returnAmount_pos dmg _ hd hret, fun hb => returnAmount_exact dmg _ hd hret hb,
    ?_, hsrc, ?_, fun h => returnDamage_ent w dmg h,
    fun env pw w0 h => afterEffects_applied env pw w0 dmg h⟩
  · rw [returnDamage_applied w dmg himm hret]
  · rw [hsrc]
    rfl

theorem returnDamage_amount_witness :
    1 ≤ returnAmount 10 (thornsWorld.ent.stats.get .STAT_RETURN_DAMAGE)
    ∧ returnAmount 10 (thornsWorld.ent.stats.get .STAT_RETURN_DAMAGE) = max 1 (10 * 50 / 100)
    ∧ (returnDamage thornsWorld 10).log = thornsWorld.log ++
        [.takeDamageSource (returnAmount 10 (thornsWorld.ent.stats.get .STAT_RETURN_DAMAGE)),
         .addInt (returnAmount 10 (thornsWorld.ent.stats.get .STAT_RETURN_DAMAGE))
           thornsWorld.source.pos .COMBAT_MESSAGE_GIVEDMG]
    ∧ (returnDamage thornsWorld 10).source.hp = 45 :=
  ⟨(returnDamage_amount thornsWorld 10 (by decide) (by decide) (by decide)).1,
    (returnDamage_amount thornsWorld 10 (by decide) (by decide) (by decide)).2.1 (by decide),
    (returnDamage_amount thornsWorld 10 (by decide) (by decide) (by decide)).2.2.1,
    by with_unfolding_all decide⟩

/-- An observation has the value that its comparison with the value confirms. -/
theorem observe_eq_of_decide {α : Type} [DecidableEq α] (r : Except Fault (Bool × World))
    (f : World → α) (v : α) (h : observe r (fun w => decide (f w = v)) = some true) :
    observe r f = some v := by
  cases r with
  | error e => simp [observe] at h
  | ok p =>
    obtain ⟨b, w⟩ := p
    simp only [observe, Option.some.injEq, decide_eq_true_eq] at h ⊢
    exact h

theorem pierced_thorns_log :
    observe (takeHit cursingEnv piercedThornsWorld) (fun w => w.log) = some
      [.takeDamageTarget (-10), .takeDamageSource (-5),
        .addInt (-5) ⟨1, 1⟩ .COMBAT_MESSAGE_GIVEDMG] :=
  observe_eq_of_decide _ _ _ (by with_unfolding_all decide)

theorem pierced_thorns_source :
    observe (takeHit cursingEnv piercedThornsWorld) (fun w => w.source.hp) = some 55 :=
  observe_eq_of_decide _ _ _ (by with_unfolding_all decide)

theorem returnAmount_huge : returnAmount 1342178 50 = 671088 := by
  with_unfolding_all decide

theorem huge_hit_target :
    observe (takeHit sampleEnv hugeHitWorld) (fun w => targetDamage w.log)
      = some [1342178] :=
  observe_eq_of_decide _ _ _ (by with_unfolding_all decide)

theorem huge_hit_source :
    observe (takeHit sampleEnv hugeHitWorld) (fun w => sourceDamage w.log)
      = some [671088] :=
  observe_eq_of_decide _ _ _ (by with_unfolding_all decide)

/-- C20, as stated, fails in two ways.  When the post-damage branch runs with
negative damage (a power that ignores zero damage and subtracts 20 from an
armor-penetrating hit of 10 passes -10 on), the amount returned is -5, not at
least 1, and the source gains 5 hit points (50 to 55).  And the quotient is
computed in `float`: for a hit of 1342178 at 50 percent the product 67108900
has no `float` of its own, and the amount is 671088 where damage *
return_damage / 100 is 671089. -/
theorem negative_return_damage :
    0 < piercedThornsWorld.ent.stats.get .STAT_RETURN_DAMAGE
      ∧ piercedThornsWorld.source.effects.immunity_damage_reflect = false
      ∧ (cursingEnv.power piercedThornsWorld).ignore_zero_damage = true
      ∧ observe (takeHit cursingEnv piercedThornsWorld) (fun w => w.log) = some
          [.takeDamageTarget (-10), .takeDamageSource (-5),
            .addInt (-5) ⟨1, 1⟩ .COMBAT_MESSAGE_GIVEDMG]
      ∧ piercedThornsWorld.source.hp = 50
      ∧ observe (takeHit cursingEnv piercedThornsWorld) (fun w => w.source.hp) = some 55
      ∧ returnAmount 1342178 50 = 671088
      ∧ 1342178 * 50 / 100 = (671089 : Int)
      ∧ observe (takeHit sampleEnv hugeHitWorld) (fun w => targetDamage w.log)
          = some [1342178]
      ∧ observe (takeHit sampleEnv hugeHitWorld) (fun w => sourceDamage w.log)
          = some [671088] := by
  exact ⟨by decide, by decide, by decide, pierced_thorns_log, by decide,
    pierced_thorns_source, returnAmount_huge, by decide, huge_hit_target, huge_hit_source⟩

/-- C14 fails on the code: both block-check sites read
`activeAnimation->getName()` without a null test.  A target without an active
animation that reflects a missile (line 386), or whose armor absorbs the whole
hit (line 473), ends the call in a null dereference; the same targets with an
active animation return false. -/
theorem null_animation_dereferenced :
    nullReflectWorld.ent.activeAnimation = none
      ∧ faulted (takeHit sampleEnv nullReflectWorld) = some .nullActiveAnimation
      ∧ returned (takeHit sampleEnv reflectWorld) = some false
      ∧ nullPlateWorld.ent.activeAnimation = none
      ∧ faulted (takeHit sampleEnv nullPlateWorld) = some .nullActiveAnimation
      ∧ returned (takeHit sampleEnv plateWorld) = some false := by
  decide

theorem drawsWithin_refl (g : Rng) (lo hi : Nat) : drawsWithin g g lo hi :=
  ⟨[], by simp, by simp [drawOrders], by simp [drawOrders]⟩

theorem drawsWithin_mono {g g' : Rng} {a b a' b' : Nat} (h : drawsWithin g g' a b)
    (ha : a' ≤ a) (hb : b ≤ b') : drawsWithin g g' a' b' := by
  obtain ⟨l, h1, h2, h3⟩ := h
  exact ⟨l, h1, h2, fun r hr => ⟨le_trans ha (h3 r hr).1, lt_of_lt_of_le (h3 r hr).2 hb⟩⟩

theorem drawsWithin_trans {g g' g'' : Rng} {a b c : Nat} (h1 : drawsWithin g g' a b)
    (h2 : drawsWithin g' g'' b c) (hab : a ≤ b) (hbc : b ≤ c) : drawsWithin g g'' a c := by
  obtain ⟨l1, e1, p1, b1⟩ := h1
  obtain ⟨l2, e2, p2, b2⟩ := h2
  refine ⟨l1 ++ l2, by rw [e2, e1, List.append_assoc], ?_, ?_⟩
  · simp only [drawOrders, List.filterMap_append] at *
    rw [List.pairwise_append]
    exact ⟨p1, p2, fun x hx y hy => lt_of_lt_of_le (b1 x hx).2 (b2 y hy).1⟩
  · intro r hr
    simp only [drawOrders, List.filterMap_append, List.mem_append] at hr b1 b2
    rcases hr with hr | hr
    · exact ⟨(b1 r hr).1, lt_of_lt_of_le (b1 r hr).2 hbc⟩
    · exact ⟨le_trans hab (b2 r hr).1, (b2 r hr).2⟩

theorem drawsWithin_rand (g : Rng) (d : Draw) (r lo hi : Nat) (h : d.order = some r)
    (hlo : lo ≤ r) (hhi : r < hi) : drawsWithin g (rand g d).2 lo hi :=
  ⟨[d], rfl, by simp [drawOrders, h], by simp [drawOrders, h, hlo, hhi]⟩

theorem drawsWithin_rand_other (g : Rng) (d : Draw) (lo hi : Nat) (h : d.order = none) :
    drawsWithin g (rand g d).2 lo hi :=
  ⟨[d], rfl, by simp [drawOrders, h], by simp [drawOrders, h]⟩

theorem drawsWithin_external {g g' : Rng} (h : externalDraws g g') (lo hi : Nat) :
    drawsWithin g g' lo hi := by
  obtain ⟨l, h1, h2⟩ := h
  exact ⟨l, h1, by simp [h2], by simp [h2]⟩

theorem drawsWithin_randBetween (g : Rng) (d : Draw) (a b : Int) (r lo hi : Nat)
    (h : d.order = some r) (hlo : lo ≤ r) (hhi : r < hi) :
    drawsWithin g (randBetween g d a b).2 lo hi := by
  unfold randBetween
  split
  · exact drawsWithin_refl g lo hi
  · exact drawsWithin_rand g d r lo hi h hlo hhi

theorem drawsWithin_randBetween_other (g : Rng) (d : Draw) (a b : Int) (lo hi : Nat)
    (h : d.order = none) : drawsWithin g (randBetween g d a b).2 lo hi := by
  unfold randBetween
  split
  · exact drawsWithin_refl g lo hi
  · exact drawsWithin_rand_other g d lo hi h

theorem drawsWithin_playSound (w : World) (k : SoundType) (lo hi : Nat) :
    drawsWithin w.rng (playSound w k).rng lo hi := by
  cases k <;> simp only [playSound, playFrom] <;> split <;>
    first
    | exact drawsWithin_refl _ lo hi
    | exact drawsWithin_rand_other _ .sound lo hi rfl

theorem drawsWithin_reflectRoll (w : World) :
    drawsWithin w.rng (reflectRoll w).2.rng 0 1 := by
  unfold reflectRoll
  split
  · exact drawsWithin_rand _ .reflect 0 0 1 rfl (le_refl _) (by decide)
  · exact drawsWithin_refl _ 0 1

theorem drawsWithin_reflect (w : World) (b : Bool) (w' : World) (lo hi : Nat)
    (h : reflect w = .ok (b, w')) : drawsWithin w.rng w'.rng lo hi := by
  unfold reflect at h
  split at h
  · cases h
  · split at h
    · cases h
      exact drawsWithin_playSound _ _ lo hi
    · cases h
      exact drawsWithin_refl _ lo hi

theorem drawsWithin_overhitRoll (pw : Power) (w : World) :
    drawsWithin w.rng (overhitRoll pw w).2 1 2 := by
  unfold overhitRoll
  split
  · exact drawsWithin_rand _ .overhit 1 1 2 rfl (le_refl _) (by decide)
  · exact drawsWithin_refl _ 1 2

theorem drawsWithin_missRoll (env : Env) (pw : Power) (w : World) (g : Rng) :
    drawsWithin g (missRoll env pw w g).2 2 3 := by
  unfold missRoll
  split
  · exact drawsWithin_rand _ .miss 2 2 3 rfl (le_refl _) (by decide)
  · exact drawsWithin_refl _ 2 3

theorem drawsWithin_baseDamage (pw : Power) (h : Hazard) (g : Rng) :
    drawsWithin g (baseDamage pw h g).2 3 4 := by
  have h1 : drawsWithin g (randBetween g .damage h.dmg_min h.dmg_max).2 3 4 :=
    drawsWithin_randBetween g .damage _ _ 3 3 4 rfl (le_refl _) (by decide)
  unfold baseDamage
  split
  · exact h1
  · exact h1
  · exact drawsWithin_trans h1
      (drawsWithin_randBetween_other _ .damageAbsolute _ _ 4 4 rfl) (by decide) (le_refl _)
  · exact h1

theorem drawsWithin_blockCheck (w w' : World) (lo hi : Nat) (h : blockCheck w = .ok w') :
    drawsWithin w.rng w'.rng lo hi := by
  unfold blockCheck at h
  split at h
  · cases h
  · split at h
    · unfold resetActiveAnimation at h
      split at h
      · cases h
      · cases h
        exact drawsWithin_playSound _ _ lo hi
    · cases h
      exact drawsWithin_refl _ lo hi

theorem drawsWithin_absorptionStep (env : Env) (pw : Power) (w w' : World) (d d' : Int)
    (k : Nat) (h : absorptionStep env pw w d = .ok (d', w')) :
    drawsWithin w.rng w'.rng k k := by
  have hroll : drawsWithin w.rng (randBetween w.rng .absorption
      (w.ent.stats.get .STAT_ABS_MIN) (w.ent.stats.get .STAT_ABS_MAX)).2 k k :=
    drawsWithin_randBetween_other _ .absorption _ _ k k rfl
  unfold absorptionStep at h
  simp only at h
  split at h
  · split at h
    · split at h
      · cases hb : blockCheck { w with rng := (randBetween w.rng .absorption
            (w.ent.stats.get .STAT_ABS_MIN) (w.ent.stats.get .STAT_ABS_MAX)).2 } with
        | error e => rw [hb] at h; cases h
        | ok w2 =>
          rw [hb] at h
          cases h
          exact drawsWithin_trans hroll (drawsWithin_blockCheck _ _ k k hb) (le_refl _)
            (le_refl _)
      · cases h
        exact hroll
    · cases h
      exact hroll
  · cases h
    exact drawsWithin_refl _ k k

theorem drawsWithin_critStep (env : Env) (pw : Power) (w : World) (d : Int) (o m : Bool) :
    drawsWithin w.rng (critStep env pw w d o m).w.rng 4 5 := by
  have h1 : drawsWithin w.rng
      (percentChance w.rng .crit (trueCritChance pw w.h w.ent.stats)).2 4 5 :=
    drawsWithin_rand _ .crit 4 4 5 rfl (le_refl _) (by decide)
  simp only [critStep]
  split
  · exact drawsWithin_trans h1
      (drawsWithin_randBetween_other _ .critScale _ _ 5 5 rfl) (by decide) (le_refl _)
  · split
    · exact drawsWithin_trans h1
        (drawsWithin_randBetween_other _ .overhitScale _ _ 5 5 rfl) (by decide) (le_refl _)
    · exact h1

theorem drawsWithin_missStep (env : Env) (hit : Hit) :
    drawsWithin hit.w.rng (missStep env hit).w.rng 5 6 := by
  simp only [missStep]
  split
  · exact drawsWithin_randBetween _ .missScale _ _ 5 5 6 rfl (le_refl _) (by decide)
  · exact drawsWithin_refl _ 5 6

theorem drawsWithin_damagePipeline (env : Env) (pw : Power) (w : World) (hit : Hit)
    (h : damagePipeline env pw w = .ok hit) : drawsWithin w.rng hit.w.rng 1 6 := by
  obtain ⟨d, w1, ha, rfl⟩ := damagePipeline_cases env pw w hit h
  have h1 := drawsWithin_overhitRoll pw w
  have h2 := drawsWithin_missRoll env pw w (overhitRoll pw w).2
  have h3 := drawsWithin_baseDamage pw w.h (missRoll env pw w (overhitRoll pw w).2).2
  have h4 := drawsWithin_absorptionStep env pw
    { w with rng := (baseDamage pw w.h (missRoll env pw w (overhitRoll pw w).2).2).2 }
    w1 _ d 4 ha
  have h5 := drawsWithin_critStep env pw w1 d (overhitRoll pw w).1
    (missRoll env pw w (overhitRoll pw w).2).1
  have h6 := drawsWithin_missStep env (critStep env pw w1 d (overhitRoll pw w).1
    (missRoll env pw w (overhitRoll pw w).2).1)
  exact drawsWithin_trans (drawsWithin_trans (drawsWithin_trans (drawsWithin_trans
    (drawsWithin_trans h1 h2 (by decide) (by decide)) h3 (by decide) (by decide))
    h4 (by decide) (by decide)) h5 (by decide) (by decide)) h6 (by decide) (by decide)

theorem stealHp_rng (w : World) (d p : Int) : (stealHp w d p).rng = w.rng := by
  unfold stealHp
  split
  · exact World.setSource_rng w _
  · rfl

theorem stealMp_rng (w : World) (d p : Int) : (stealMp w d p).rng = w.rng := by
  unfold stealMp
  split
  · exact World.setSource_rng w _
  · rfl

theorem returnDamage_rng (w : World) (d : Int) : (returnDamage w d).rng = w.rng := by
  unfold returnDamage
  split
  · exact World.setSource_rng w _
  · rfl

theorem drawsWithin_postPower (env : Env) (pw : Power) (w : World) (k : Nat)
    (henv : env.drawsApart) : drawsWithin w.rng (postPower env pw w).rng k k := by
  simp only [postPower]
  split
  · split
    · exact drawsWithin_trans (drawsWithin_rand_other _ .postPower k k rfl)
        (drawsWithin_external (henv.2.1 _ _ _ _) k k) (le_refl _) (le_refl _)
    · exact drawsWithin_rand_other _ .postPower k k rfl
  · exact drawsWithin_refl _ k k

theorem drawsWithin_afterEffects (env : Env) (pw : Power) (w : World) (d : Int) (k : Nat)
    (henv : env.drawsApart) : drawsWithin w.rng (afterEffects env pw w d).rng k k := by
  simp only [afterEffects]
  split
  · refine drawsWithin_trans ?_ (drawsWithin_postPower env pw _ k henv) (le_refl _) (le_refl _)
    rw [returnDamage_rng, stealMp_rng, stealHp_rng]
    exact drawsWithin_external (henv.1 _ _ _ _ _) k k
  · exact drawsWithin_refl _ k k

theorem die_rng (w : World) (crit : Bool) : (die w crit).rng = w.rng := by
  simp only [die]
  split <;> rfl

theorem hitState_rng (w : World) (p c : Bool) : (hitState w p c).rng = w.rng := by
  simp only [hitState]
  repeat' split
  all_goals rfl

theorem drawsWithin_interrupt (env : Env) (w : World) (d : Int) (c wd : Bool)
    (henv : env.drawsApart) : drawsWithin w.rng (interrupt env w d c wd).rng 6 7 := by
  have hpoise : drawsWithin w.rng (percentChance w.rng .poise (w.ent.stats.get .STAT_POISE)).2
      6 7 := drawsWithin_rand _ .poise 6 6 7 rfl (le_refl _) (by decide)
  simp only [interrupt]
  split
  · split
    · rw [die_rng]
      exact hpoise
    · have hsound : ∀ w2 : World,
          w2 = (if ({ w with rng := (percentChance w.rng .poise
              (w.ent.stats.get .STAT_POISE)).2 } : World).ent.stats.cooldown_hit_ticks == 0
            then playSound { w with rng := (percentChance w.rng .poise
              (w.ent.stats.get .STAT_POISE)).2 } .ENTITY_SOUND_HIT
            else { w with rng := (percentChance w.rng .poise
              (w.ent.stats.get .STAT_POISE)).2 }) →
          drawsWithin w.rng w2.rng 6 7 := by
        intro w2 hw2
        subst hw2
        split
        · exact drawsWithin_trans hpoise (drawsWithin_playSound _ _ 7 7) (by decide)
            (le_refl _)
        · exact hpoise
      generalize hw2 : (if ({ w with rng := (percentChance w.rng .poise
              (w.ent.stats.get .STAT_POISE)).2 } : World).ent.stats.cooldown_hit_ticks == 0
            then playSound { w with rng := (percentChance w.rng .poise
              (w.ent.stats.get .STAT_POISE)).2 } .ENTITY_SOUND_HIT
            else { w with rng := (percentChance w.rng .poise
              (w.ent.stats.get .STAT_POISE)).2 }) = w2
      have h2 := hsound w2 hw2.symm
      have hdebuff : drawsWithin w2.rng
          (if !wd && env.isDebuffed w2.ent.stats.effects then
            env.getAIPower w2.ent.stats .AI_POWER_DEBUFF w2.rng
          else (none, w2.rng)).2 7 7 := by
        split
        · exact drawsWithin_external (henv.2.2 _ _ _) 7 7
        · exact drawsWithin_refl _ 7 7
      have h3 := drawsWithin_trans h2 hdebuff (by decide) (le_refl _)
      split
      · exact h3
      · have h4 := drawsWithin_trans h3
          (drawsWithin_external (henv.2.2 w2.ent.stats .AI_POWER_HIT
            (if !wd && env.isDebuffed w2.ent.stats.effects then
              env.getAIPower w2.ent.stats .AI_POWER_DEBUFF w2.rng
            else (none, w2.rng)).2) 7 7) (by decide) (le_refl _)
        split
        · exact h4
        · rw [hitState_rng]
          exact h4
  · exact drawsWithin_refl _ 6 7

theorem drawsWithin_resolve (env : Env) (pw : Power) (hit : Hit) (henv : env.drawsApart) :
    drawsWithin hit.w.rng (resolve env pw hit).2.rng 6 7 := by
  unfold resolve
  split
  · exact drawsWithin_refl _ 6 7
  · refine drawsWithin_trans (b := 6) ?_ (drawsWithin_interrupt env _ _ _ _ henv) (le_refl _)
      (by decide)
    have h := drawsWithin_afterEffects env pw
      (if !pw.ignore_zero_damage then hit.w.emit (damageText hit) else hit.w) hit.dmg 6 henv
    have hr : (if !pw.ignore_zero_damage then hit.w.emit (damageText hit) else hit.w).rng
        = hit.w.rng := by
      split <;> rfl
    rw [hr] at h
    exact h

theorem sampleEnv_drawsApart : sampleEnv.drawsApart :=
  ⟨fun _ _ _ _ g => ⟨[], by simp [sampleEnv], rfl⟩,
    fun _ _ _ g => ⟨[], by simp [sampleEnv], rfl⟩,
    fun _ _ g => ⟨[], by simp [sampleEnv], rfl⟩⟩

/-- C16: the random draws of one `takeHit` call are added to the trace of the
random source, and those among reflect roll, overhit roll, miss roll, damage
roll, crit roll, miss-scale roll and poise roll occur at most once each and in
that order, whatever the input and the random stream (the collaborators'
own draws being none of these). -/
theorem takeHit_draw_order (env : Env) (w : World) (b : Bool) (w' : World)
    (henv : env.drawsApart) (h : takeHit env w = .ok (b, w')) :
    ∃ l, w'.rng.trace = w.rng.trace ++ l
      ∧ (l.filterMap Draw.order).Pairwise (· < ·) := by
  have hmain : drawsWithin w.rng w'.rng 0 7 := by
    have hroll : drawsWithin w.rng (reflectRoll (aggro env w)).2.rng 0 1 := by
      have := drawsWithin_reflectRoll (aggro env w)
      rw [aggro_rng] at this
      exact this
    rcases takeHit_cases env w b w' h with ⟨-, rfl⟩ | ⟨-, rfl⟩ | hr | ⟨hit, hd, hres⟩
    · exact drawsWithin_refl _ 0 7
    · rw [aggro_rng]
      exact drawsWithin_refl _ 0 7
    · exact drawsWithin_trans hroll (drawsWithin_reflect _ _ _ 1 7 hr) (by decide) (by decide)
    · have h1 := drawsWithin_damagePipeline env _ _ hit hd
      have h2 := drawsWithin_resolve env (env.power w) hit henv
      rw [← hres] at h2
      exact drawsWithin_trans (drawsWithin_trans hroll h1 (by decide) (by decide)) h2
        (by decide) (by decide)
  obtain ⟨l, h1, h2, -⟩ := hmain
  exact ⟨l, h1, h2⟩

theorem takeHit_draw_order_witness :
    ∃ w', takeHit sampleEnv sampleWorld = .ok (true, w')
      ∧ w'.rng.trace = [.miss, .crit, .poise]
      ∧ ∃ l, w'.rng.trace = sampleWorld.rng.trace ++ l
        ∧ (l.filterMap Draw.order).Pairwise (· < ·) :=
  ⟨_, rfl, by decide, takeHit_draw_order sampleEnv sampleWorld true _ sampleEnv_drawsApart rfl⟩

theorem popTokenByWidth_split_of_fit (calc_width : List Nat → Int) (text : List Nat)
    (width : Int) (h : 0 < popScan calc_width text width (text.length + 1) 0 0) :
    (popTokenByWidth calc_width text width).1 ++ (popTokenByWidth calc_width text width).2
      = text := by
  unfold popTokenByWidth
  rw [if_pos h]
  exact List.take_append_drop _ _

/-- C15 fails on the code: when not even the first character fits in the
width, `popTokenByWidth` takes the else branch of line 254, leaves `text` as
it is and returns all of it.  For the one-letter text "W" (10 pixels wide) and
width 5 the text after the call is "W", too wide for the width, the string
returned is "W", and the two together are "WW", not the original; with width
25 the text "WWW" is split into "WW" and "W". -/
theorem popTokenByWidth_nothing_fits :
    popTokenByWidth tenPixelFont [87] 5 = ([87], [87])
      ∧ (popTokenByWidth tenPixelFont [87] 5).1 ++ (popTokenByWidth tenPixelFont [87] 5).2
          ≠ [87]
      ∧ tenPixelFont (popTokenByWidth tenPixelFont [87] 5).1 > 5
      ∧ popTokenByWidth tenPixelFont [87, 87, 87] 25 = ([87, 87], [87]) := by
  decide

theorem move_from_offending_tile_valid (m : MapRenderer) (fuel : Nat) (st : MoveState)
    (hv : validAt m st.stats st.stats.pos.x st.stats.pos.y = true) :
    move_from_offending_tile m (fuel + 1) st = some st := by
  simp [move_from_offending_tile, unstick, hv]

theorem direction_tables (d : Nat) (hd : d < 8) :
    ∃ mult deltaX deltaY, speedMultiplyer[d]? = some mult
      ∧ directionDeltaX[d]? = some deltaX ∧ directionDeltaY[d]? = some deltaY := by
  interval_cases d <;> exact ⟨_, _, _, rfl, rfl, rfl⟩

/-- C13: for an entity on a valid position (the recovery loop then ends at
once and changes nothing), `move` returns false with position and log
unchanged, the oracle's `move` not being called, if the knockback speed is
nonzero, the entity is stunned, the effect speed is 0 or the charge speed is
nonzero; in every other case, for a direction within the tables, it calls the
oracle's `move` once from the entity's position, returns the boolean the
oracle returned and takes over the position the oracle reached. -/
theorem move_on_valid_position (m : MapRenderer) (fuel : Nat) (st : MoveState)
    (hv : validAt m st.stats st.stats.pos.x st.stats.pos.y = true) :
    (st.stats.effects.knockback_speed ≠ 0 ∨ st.stats.effects.stun = true
        ∨ st.stats.effects.speed = 0 ∨ st.stats.charge_speed ≠ 0 →
      move m (fuel + 1) st = some (.ok (false, st)))
    ∧ (st.stats.effects.knockback_speed = 0 → st.stats.effects.stun = false →
        st.stats.effects.speed ≠ 0 → st.stats.charge_speed = 0 → st.stats.direction < 8 →
      ∃ dx dy, move m (fuel + 1) st = some (.ok
        ((m.move st.stats.pos dx dy st.stats.movement_type st.stats.hero).1,
          { stats := { st.stats with
              pos := (m.move st.stats.pos dx dy st.stats.movement_type st.stats.hero).2 }
            log := st.log ++ [.colliderMove st.stats.pos dx dy] }))) := by
  have h0 := move_from_offending_tile_valid m fuel st hv
  refine ⟨?_, ?_⟩
  · intro h
    unfold move
    rw [h0]
    simp only
    by_cases hk : st.stats.effects.knockback_speed = 0
    · by_cases hs : st.stats.effects.stun = true
      · simp [hk, hs]
      · by_cases he : st.stats.effects.speed = 0
        · simp [hk, he]
        · have hc : st.stats.charge_speed ≠ 0 := by
            rcases h with h | h | h | h
            · exact absurd hk h
            · exact absurd h hs
            · exact absurd h he
            · exact h
          simp [hk, hs, he, hc]
    · simp [hk]
  · intro hk hs he hc hd
    obtain ⟨mult, deltaX, deltaY, hm, hx, hy⟩ := direction_tables st.stats.direction hd
    unfold move
    rw [h0]
    simp only
    rw [if_neg (by simp [hk]), if_neg (by simp [hs, he]), if_neg (by simp [hc]), hm, hx, hy]
    exact ⟨_, _, rfl⟩

theorem move_on_valid_position_witness :
    move corridorMap 1 stunnedWalker = some (.ok (false, stunnedWalker))
    ∧ ∃ dx dy, move corridorMap 1 walkingState = some (.ok
        ((corridorMap.move walkingState.stats.pos dx dy walkingState.stats.movement_type
            walkingState.stats.hero).1,
          { stats := { walkingState.stats with
              pos := (corridorMap.move walkingState.stats.pos dx dy
                walkingState.stats.movement_type walkingState.stats.hero).2 }
            log := walkingState.log ++ [.colliderMove walkingState.stats.pos dx dy] })) :=
  ⟨(move_on_valid_position corridorMap 0 stunnedWalker (by with_unfolding_all decide)).1
      (Or.inr (Or.inl rfl)),
    (move_on_valid_position corridorMap 0 walkingState (by with_unfolding_all decide)).2
      (by with_unfolding_all decide) (by decide) (by decide) (by with_unfolding_all decide)
      (by decide)⟩

theorem ringLoop_bound (m : MapRenderer) (s : StatBlock) (p : Point) (n : Nat) :
    ∀ (radius : Int) (acc : Nearest) (steps : Nat),
      (ringLoop m s p n radius acc steps).steps ≤ steps + n
      ∧ (ringLoop m s p n radius acc steps).radius ≤ radius + n
      ∧ (acc.shortest_dist = 0 →
          (ringLoop m s p n radius acc steps).nearest.shortest_dist ≠ 0 →
          (ringLoop m s p n radius acc steps).radius < radius + n) := by
  induction n with
  | zero =>
    intro radius acc steps
    simp [ringLoop]
  | succ n ih =>
    intro radius acc steps
    unfold ringLoop
    split
    · exact ⟨by show steps + 1 ≤ steps + (n + 1); omega,
        by show radius ≤ radius + ((n + 1 : Nat) : Int); omega,
        fun _ _ => by show radius < radius + ((n + 1 : Nat) : Int); omega⟩
    · rename_i hz
      have hz' : (scanSquare m s p radius acc).shortest_dist = 0 := by simpa using hz
      obtain ⟨h1, h2, h3⟩ := ih (radius + 1) (scanSquare m s p radius acc) (steps + 1)
      refine ⟨by omega, by push_cast; omega, fun _ hne => ?_⟩
      have := h3 hz' hne
      push_cast
      omega

theorem unstick_sweep (m : MapRenderer) (fuel : Nat) (s : StatBlock)
    (hbad : validAt m s s.pos.x s.pos.y = false)
    (hgood : validAt m (sweep m s) (sweep m s).pos.x (sweep m s).pos.y = true) :
    unstick m (fuel + 2) s = some (sweep m s) := by
  simp [unstick, hbad, hgood]

theorem unstick_stuck (m : MapRenderer) (s : StatBlock)
    (hbad : validAt m s s.pos.x s.pos.y = false) (hsame : sweep m s = s) :
    ∀ fuel, unstick m fuel s = none := by
  intro fuel
  induction fuel with
  | zero => rfl
  | succ n ih => simp [unstick, hbad, hsame, ih]

/-- Where `move_from_offending_tile` does end: its ring search always ends,
after scanning at most max(map width, map height) squares, none of a radius
above that maximum; the function itself ends at once, changing nothing, when
the starting position is valid, and after one pass, with one log entry, when
the position reached by that pass (by a nudge or by the ring search) is
valid. -/
theorem move_from_offending_tile_ends (m : MapRenderer) (st : MoveState) :
    (∀ s, (ringSearch m s).steps ≤ (max m.w m.h).toNat
      ∧ ((ringSearch m s).nearest.shortest_dist ≠ 0 → (ringSearch m s).radius ≤ max m.w m.h))
    ∧ (validAt m st.stats st.stats.pos.x st.stats.pos.y = true →
        ∀ fuel, move_from_offending_tile m (fuel + 1) st = some st)
    ∧ (validAt m st.stats st.stats.pos.x st.stats.pos.y = false →
        validAt m (sweep m st.stats) (sweep m st.stats).pos.x (sweep m st.stats).pos.y = true →
        ∀ fuel, move_from_offending_tile m (fuel + 2) st =
          some { stats := sweep m st.stats
                 log := st.log ++
                   [.logInfo (sweep m st.stats).name st.stats.pos (sweep m st.stats).pos] }) := by
  refine ⟨?_, ?_, ?_⟩
  · intro s
    obtain ⟨h1, -, h3⟩ := ringLoop_bound m s (FPointToPoint s.pos) (max m.w m.h).toNat 1
      ⟨0, ⟨0, 0⟩⟩ 0
    refine ⟨by simpa [ringSearch] using h1, fun hne => ?_⟩
    have h := h3 rfl hne
    have hpos : 0 < (max m.w m.h).toNat := by
      by_contra hcon
      have h0 : (max m.w m.h).toNat = 0 := by omega
      simp only [ringSearch, h0, ringLoop] at hne
      exact hne rfl
    have : ((max m.w m.h).toNat : Int) = max m.w m.h := Int.toNat_of_nonneg (by omega)
    simp only [ringSearch]
    omega
  · intro hv fuel
    exact move_from_offending_tile_valid m fuel st hv
  · intro hbad hgood fuel
    simp [move_from_offending_tile, unstick_sweep m fuel st.stats hbad hgood, hbad]

theorem move_from_offending_tile_ends_witness :
    (ringSearch gapMap stuckState.stats).steps = 2
    ∧ (ringSearch gapMap stuckState.stats).radius = 2
    ∧ (ringSearch gapMap stuckState.stats).steps ≤ (max gapMap.w gapMap.h).toNat
    ∧ move_from_offending_tile corridorMap 1 walkingState = some walkingState
    ∧ move_from_offending_tile gapMap 2 stuckState =
        some { stats := sweep gapMap stuckState.stats
               log := stuckState.log ++
                 [.logInfo (sweep gapMap stuckState.stats).name stuckState.stats.pos
                   (sweep gapMap stuckState.stats).pos] } :=
  ⟨by with_unfolding_all decide, by with_unfolding_all decide,
    ((move_from_offending_tile_ends gapMap stuckState).1 stuckState.stats).1,
    (move_from_offending_tile_ends corridorMap walkingState).2.1
      (by with_unfolding_all decide) 0,
    (move_from_offending_tile_ends gapMap stuckState).2.2 (by with_unfolding_all decide)
      (by with_unfolding_all decide) 0⟩

/-- On a map without a valid tile no nudge is possible, the ring search scans
its 3 squares and finds nothing, the position stays as it is, and the outer
loop starts over, for ever. -/
theorem sealed_map_never_recovers :
    pushX sealedMap sealedState.stats = 0 ∧ pushY sealedMap sealedState.stats = 0
      ∧ (ringSearch sealedMap sealedState.stats).steps = 3
      ∧ (ringSearch sealedMap sealedState.stats).nearest.shortest_dist = 0
      ∧ sweep sealedMap sealedState.stats = sealedState.stats
      ∧ ¬ recovers sealedMap sealedState := by
  have h1 : pushX sealedMap sealedState.stats = 0 := by with_unfolding_all decide
  have h2 : pushY sealedMap sealedState.stats = 0 := by with_unfolding_all decide
  have h3 : (ringSearch sealedMap sealedState.stats).nearest.shortest_dist = 0 := by
    with_unfolding_all decide
  have hbad : validAt sealedMap sealedState.stats sealedState.stats.pos.x
      sealedState.stats.pos.y = false := by with_unfolding_all decide
  have hsame : sweep sealedMap sealedState.stats = sealedState.stats := by
    unfold sweep
    simp only [h1, h2, add_zero]
    simp [h3]
  refine ⟨h1, h2, by with_unfolding_all decide, h3, hsame, ?_⟩
  rintro ⟨fuel, st', h⟩
  simp [move_from_offending_tile, unstick_stuck sealedMap sealedState.stats hbad hsame fuel] at h

theorem diagonal_low (x : Rat) (h1 : 11 / 2 < x) (h2 : x < 6) :
    truncRat x = 5 ∧ truncRat (x + 1) = 6 ∧ truncRat (x - 1) = 4 :=
  ⟨truncRat_eq x 5 (by decide) (by norm_num; linarith) (by norm_num; linarith),
    truncRat_eq (x + 1) 6 (by decide) (by norm_num; linarith) (by norm_num; linarith),
    truncRat_eq (x - 1) 4 (by decide) (by norm_num; linarith) (by norm_num; linarith)⟩

theorem diagonal_high (x : Rat) (h1 : 6 ≤ x) (h2 : x < 13 / 2) :
    truncRat x = 6 ∧ truncRat (x + 1) = 7 ∧ truncRat (x - 1) = 5 :=
  ⟨truncRat_eq x 6 (by decide) (by norm_num; linarith) (by norm_num; linarith),
    truncRat_eq (x + 1) 7 (by decide) (by norm_num; linarith) (by norm_num; linarith),
    truncRat_eq (x - 1) 5 (by decide) (by norm_num; linarith) (by norm_num; linarith)⟩

theorem diagonal_pass (s : StatBlock) (x : Rat) (hp : s.pos = ⟨x, x⟩)
    (h1 : 11 / 2 < x) (h2 : x < 13 / 2) :
    validAt diagonalMap s s.pos.x s.pos.y = false
      ∧ ∃ x', (sweep diagonalMap s).pos = ⟨x', x'⟩ ∧ 11 / 2 < x' ∧ x' < 13 / 2 := by
  have hx : s.pos.x = x := by rw [hp]
  have hy : s.pos.y = x := by rw [hp]
  by_cases h6 : x < 6
  · obtain ⟨t0, t1, t2⟩ := diagonal_low x h1 h6
    have px : pushX diagonalMap s = (2 * x - 11) / 10 := by
      simp only [pushX, validAt, diagonalMap, offDiagonal, hx, hy, t0, t1, t2]
      norm_num
      ring
    have py : pushY diagonalMap s = (2 * x - 11) / 10 := by
      simp only [pushY, validAt, diagonalMap, offDiagonal, hx, hy, t0, t1, t2]
      norm_num
      ring
    have hne : (2 * x - 11) / 10 ≠ 0 := by
      intro h
      have : 2 * x - 11 = 0 := by
        rcases div_eq_zero_iff.mp h with h | h
        · exact h
        · norm_num at h
      linarith
    refine ⟨by simp [validAt, diagonalMap, offDiagonal, hx, hy, t0],
      x + (2 * x - 11) / 10, ?_, by linarith, by linarith⟩
    unfold sweep
    rw [px, py]
    simp [hne, hx, hy]
  · have h6' : 6 ≤ x := not_lt.mp h6
    obtain ⟨t0, t1, t2⟩ := diagonal_high x h6' h2
    have px : pushX diagonalMap s = (2 * x - 13) / 10 := by
      simp only [pushX, validAt, diagonalMap, offDiagonal, hx, hy, t0, t1, t2]
      norm_num
      ring
    have py : pushY diagonalMap s = (2 * x - 13) / 10 := by
      simp only [pushY, validAt, diagonalMap, offDiagonal, hx, hy, t0, t1, t2]
      norm_num
      ring
    have hne : (2 * x - 13) / 10 ≠ 0 := by
      intro h
      have : 2 * x - 13 = 0 := by
        rcases div_eq_zero_iff.mp h with h | h
        · exact h
        · norm_num at h
      linarith
    refine ⟨by simp [validAt, diagonalMap, offDiagonal, hx, hy, t0],
      x + (2 * x - 13) / 10, ?_, by linarith, by linarith⟩
    unfold sweep
    rw [px, py]
    simp [hne, hx, hy]

theorem diagonal_unstick (fuel : Nat) :
    ∀ (s : StatBlock) (x : Rat), s.pos = ⟨x, x⟩ → 11 / 2 < x → x < 13 / 2 →
      unstick diagonalMap fuel s = none := by
  induction fuel with
  | zero => intro s x _ _ _; rfl
  | succ n ih =>
    intro s x hp h1 h2
    obtain ⟨hbad, x', hp', h1', h2'⟩ := diagonal_pass s x hp h1 h2
    rw [unstick, hbad]
    exact ih _ x' hp' h1' h2'

/-- C11 fails on the code: the outer loop of line 202 has no bound.  On a 10
by 10 map with a wall along the diagonal, an entity at (5.6, 5.6) stands on the
wall tile (5,5) with free tiles on all four sides; every pass nudges it by the
same amount along x and along y, so it stays on the diagonal, between 5.5 and
6.5, on the wall tiles (5,5) and (6,6), the nudge is never 0, the ring search
is never tried, and no amount of fuel lets `move_from_offending_tile`
return. -/
theorem diagonal_wall_never_recovers :
    validAt diagonalMap wallState.stats (28 / 5) (28 / 5) = false
      ∧ validAt diagonalMap wallState.stats (33 / 5) (28 / 5) = true
      ∧ validAt diagonalMap wallState.stats (23 / 5) (28 / 5) = true
      ∧ validAt diagonalMap wallState.stats (28 / 5) (33 / 5) = true
      ∧ validAt diagonalMap wallState.stats (28 / 5) (23 / 5) = true
      ∧ (sweep diagonalMap wallState.stats).pos = ⟨281 / 50, 281 / 50⟩
      ∧ (∀ fuel, move_from_offending_tile diagonalMap fuel wallState = none)
      ∧ ¬ recovers diagonalMap wallState := by
  have hnone : ∀ fuel, move_from_offending_tile diagonalMap fuel wallState = none := by
    intro fuel
    have h := diagonal_unstick fuel wallState.stats (28 / 5) rfl (by norm_num) (by norm_num)
    simp [move_from_offending_tile, h]
  refine ⟨by with_unfolding_all decide, by with_unfolding_all decide,
    by with_unfolding_all decide, by with_unfolding_all decide, by with_unfolding_all decide,
    by with_unfolding_all decide, hnone, ?_⟩
  rintro ⟨fuel, st', h⟩
  rw [hnone fuel] at h
  cases h

/-- C12 fails on the code: line 237 measures the distance from the entity to
`shortest_pos`, the best tile so far, not to the tile under test, so the tile
kept is not the nearest one.  An entity at (5.2, 5.5) with no valid neighbour
and valid tiles (3,3) and (7,7), both first met at radius 2, is moved to
(7.5, 7.5) although (3.5, 3.5) is nearer; the correction is logged once. -/
theorem ring_search_not_nearest :
    pushX gapMap stuckState.stats = 0 ∧ pushY gapMap stuckState.stats = 0
      ∧ (ringSearch gapMap stuckState.stats).radius = 2
      ∧ validAt gapMap stuckState.stats 3 3 = true
      ∧ validAt gapMap stuckState.stats 7 7 = true
      ∧ calcDistSq stuckState.stats.pos ⟨7 / 2, 7 / 2⟩
          < calcDistSq stuckState.stats.pos ⟨15 / 2, 15 / 2⟩
      ∧ (move_from_offending_tile gapMap 2 stuckState).map (fun st => st.stats.pos)
          = some ⟨15 / 2, 15 / 2⟩
      ∧ (move_from_offending_tile gapMap 2 stuckState).map (fun st => st.log)
          = some [.logInfo "enemy" ⟨26 / 5, 11 / 2⟩ ⟨15 / 2, 15 / 2⟩] := by
  with_unfolding_all decide

theorem requiresStatusLoop_eq (env : Env) (l : List String) (b : Bool) :
    requiresStatusLoop env l b = if l = [] then b else l.all env.checkStatus := by
  induction l generalizing b with
  | nil => rfl
  | cons s rest ih =>
    rw [requiresStatusLoop, ih true]
    cases hs : env.checkStatus s <;> cases rest <;> simp [hs]

theorem requiresNotStatusLoop_eq (env : Env) (l : List String) (b : Bool) :
    requiresNotStatusLoop env l b
      = if l = [] then b else l.all fun s => !env.checkStatus s := by
  induction l generalizing b with
  | nil => rfl
  | cons s rest ih =>
    rw [requiresNotStatusLoop, ih true]
    cases hs : env.checkStatus s <;> cases rest <;> simp [hs]

/-- C23 (amended): each loop of the invincibility filter ends at the first
entry that fails its test, with the flag cleared, so every entry counts: the
outcome of a list check on a list with a last entry is the outcome computed
from that last entry alone if all earlier entries pass the test (are active,
for `invincible_requires_status`; are not active, for
`invincible_requires_not_status`), and "not invincible" otherwise. -/
theorem invincible_loop_every_entry (env : Env) (pre : List String) (last : String)
    (b : Bool) :
    requiresStatusLoop env (pre ++ [last]) b
        = (pre.all env.checkStatus && requiresStatusLoop env [last] b)
      ∧ requiresNotStatusLoop env (pre ++ [last]) b
        = (pre.all (fun s => !env.checkStatus s) && requiresNotStatusLoop env [last] b) := by
  constructor
  · rw [requiresStatusLoop_eq, requiresStatusLoop_eq]
    simp
  · rw [requiresNotStatusLoop_eq, requiresNotStatusLoop_eq]
    simp

/-- C23 as stated fails: with only the status "b" set, the check of the list
["a", "b"] says "not invincible" although the check of its last entry alone
says "invincible"; the hit on the first enemy lands and takes 10 hit points,
the hit on the second is rejected. -/
theorem earlier_status_entry_decides :
    requiresStatusLoop campaignEnv ["a", "b"] false = false
      ∧ requiresStatusLoop campaignEnv ["b"] false = true
      ∧ invincibleFilter campaignEnv guardedWorld = false
      ∧ invincibleFilter campaignEnv wardedWorld = true
      ∧ returned (takeHit campaignEnv guardedWorld) = some true
      ∧ observe (takeHit campaignEnv guardedWorld) (fun w => w.ent.stats.hp) = some 90
      ∧ returned (takeHit campaignEnv wardedWorld) = some false := by
  decide

/-- C24: for a hazard that passed the five earlier filters, (1) with a target
that is neither hero nor ally and a source that is not an enemy, the
invincibility filter rejects the hit exactly when
`invincible_requires_status` is non-empty and all its statuses are active, or
`invincible_requires_not_status` is non-empty and none of its statuses is
active; (2) for a hero, an ally or an enemy-sourced hazard the filter never
rejects; (3) when the filter rejects, `takeHit` returns false with nothing
changed; (4) when it does not, `takeHit` goes on with the beacon check. -/
theorem takeHit_invincibility (env : Env) (w : World)
    (hearlier : categoryMismatch env w = false ∧ powerFiltered w = false
      ∧ alreadyDead w = false ∧ movementNotTargeted w = false ∧ wallBlocked env w = false) :
    (w.ent.stats.hero = false → w.ent.stats.hero_ally = false
        → w.h.source_type ≠ .SOURCE_TYPE_ENEMY →
        (invincibleFilter env w = true ↔
          (w.ent.stats.invincible_requires_status ≠ []
              ∧ ∀ s ∈ w.ent.stats.invincible_requires_status, env.checkStatus s = true)
            ∨ (w.ent.stats.invincible_requires_not_status ≠ []
              ∧ ∀ s ∈ w.ent.stats.invincible_requires_not_status, env.checkStatus s = false)))
      ∧ (w.ent.stats.hero = true ∨ w.ent.stats.hero_ally = true
          ∨ w.h.source_type = .SOURCE_TYPE_ENEMY → invincibleFilter env w = false)
      ∧ (invincibleFilter env w = true → takeHit env w = .ok (false, w))
      ∧ (invincibleFilter env w = false →
          takeHit env w =
            if (env.power w).beacon then .ok (false, aggro env w)
            else if (reflectRoll (aggro env w)).1 then reflect (reflectRoll (aggro env w)).2
            else
              (damagePipeline env (env.power w) (reflectRoll (aggro env w)).2).map
                (resolve env (env.power w))) := by
  obtain ⟨h1, h2, h3, h4, h5⟩ := hearlier
  refine ⟨?_, ?_, ?_, ?_⟩
  · intro hh ha hs
    simp only [invincibleFilter, hh, ha, requiresStatusLoop_eq, requiresNotStatusLoop_eq]
    cases h : w.ent.stats.invincible_requires_status <;>
      cases h' : w.ent.stats.invincible_requires_not_status <;>
      simp [hs]
  · intro h
    simp only [invincibleFilter]
    rcases h with h | h | h <;> simp [h]
  · intro h6
    exact takeHit_of_filtered env w (by simp [passesFilters, h6])
  · intro h6
    exact takeHit_of_pass env w (by simp [passesFilters, h1, h2, h3, h4, h5, h6])

theorem takeHit_invincibility_witness :
    invincibleFilter campaignEnv wardedWorld = true
      ∧ takeHit campaignEnv wardedWorld = .ok (false, wardedWorld) :=
  ⟨by decide,
    (takeHit_invincibility campaignEnv wardedWorld (by decide)).2.2.1 (by decide)⟩

theorem setAnimation_ret (getAnimation : String → Option Animation) (e : Entity)
    (animationName : String) :
    (setAnimation getAnimation e animationName).ret = true ↔
      (∃ a, e.activeAnimation = some a ∧ a.name = animationName)
        ∨ (setAnimation getAnimation e animationName).ent.activeAnimation = none := by
  unfold setAnimation loadAnimation
  cases h : e.activeAnimation with
  | none => cases hg : getAnimation animationName <;> simp
  | some a =>
    by_cases hn : a.name = animationName
    · simp [hn, h]
    · cases hg : getAnimation animationName <;> simp [hn]

/-- C25 fails on the code: with "stance" active, asking for "run", which the
animation set has, makes "run" the active animation and returns false;
asking for "fly", which it has not, leaves no active animation, logs the
error and returns true; asking for "stance" returns true. -/
theorem setAnimation_reports_load_as_failure :
    (setAnimation sampleAnimationSet sampleEntity "run").ret = false
      ∧ (setAnimation sampleAnimationSet sampleEntity "run").ent.activeAnimation
          = some ⟨"run", 0⟩
      ∧ (setAnimation sampleAnimationSet sampleEntity "fly").ret = true
      ∧ (setAnimation sampleAnimationSet sampleEntity "fly").ent.activeAnimation = none
      ∧ (setAnimation sampleAnimationSet sampleEntity "fly").errors
          = ["Entity::setAnimation(fly): not found"]
      ∧ (setAnimation sampleAnimationSet sampleEntity "stance").ret = true
      ∧ (setAnimation sampleAnimationSet sampleEntity "stance").ent.activeAnimation
          = some ⟨"stance", 2⟩ := by
  decide

theorem calc_size_fits : calc_size tenPixelBackend 4 [97, 98, 32, 99] 50 = some ⟨40, 12⟩ := by
  decide

theorem calc_size_wraps :
    calc_size tenPixelBackend 6 [97, 98, 99, 32, 100, 101] 20 = some ⟨20, 36⟩ := by
  decide

theorem longTokenLoop_stuck (f : FontBackend) (width : Int) (t : List Nat)
    (ht : t ≠ []) (hp : popTokenByWidth f.calc_width t width = (t, t)) (fuel : Nat) :
    ∀ mw h, longTokenLoop f width fuel ⟨t, t, mw, h⟩ = none := by
  induction fuel with
  | zero => intro mw h; rfl
  | succ n ih =>
    intro mw h
    rw [longTokenLoop]
    simp only [hp, List.isEmpty_eq_true, ht, if_false]
    exact ih _ _

/-- C26 fails on the code: with a font in which "W" is 10 pixels wide and a
wrap width of 5, `popTokenByWidth` gives back the whole token, so the long-token
loop of `calc_size` starts each round with the same token as the one before and
no amount of fuel lets `calc_size` return. -/
theorem calc_size_wide_character_hangs :
    (∀ t, 0 ≤ tenPixelFont t) ∧ (∀ t n, tenPixelFont (t.take n) ≤ tenPixelFont t)
      ∧ popTokenByWidth tenPixelFont [87] 5 = ([87], [87])
      ∧ ∀ fuel, calc_size tenPixelBackend fuel [87] 5 = none := by
  refine ⟨fun t => by simp [tenPixelFont], fun t n => ?_, by decide, fun fuel => ?_⟩
  · simp only [tenPixelFont, List.length_take]
    omega
  · cases fuel with
    | zero => rfl
    | succ n =>
      cases n with
      | zero => rfl
      | succ k =>
        have hstuck := longTokenLoop_stuck tenPixelBackend 5 [87] (by decide) (by decide) k
        have hp : popTokenByWidth tenPixelFont [87] 5 = ([87], [87]) := by decide
        simp [calc_size, wordLoop, tenPixelBackend, splitToken, hp, tenPixelFont] at hstuck ⊢
        simp [hstuck]

theorem hitSound_ent (w : World) : (hitSound w).ent = w.ent := by
  unfold hitSound
  split
  · rw [playSound_stats]
  · rfl

theorem interrupt_alive (env : Env) (w : World) (d : Int) (c wd : Bool)
    (hd : 0 < d) (hhp : 0 < w.ent.stats.hp) :
    interrupt env w d c wd =
      match (debuffLookup env (hitSound w) wd).1 with
      | some ai_power =>
        castAIPower { hitSound w with rng := (debuffLookup env (hitSound w) wd).2 } ai_power
      | none =>
        match (hitLookup env (hitSound w) wd).1 with
        | some ai_power =>
          castAIPower { hitSound w with rng := (hitLookup env (hitSound w) wd).2 } ai_power
        | none =>
          hitState { hitSound w with rng := (hitLookup env (hitSound w) wd).2 }
            (percentChance w.rng .poise (w.ent.stats.get .STAT_POISE)).1 c := by
  have hhp' : ¬ w.ent.stats.hp ≤ 0 := by omega
  unfold interrupt hitSound hitLookup debuffLookup
  simp only [hd, if_true, hhp', if_false]

theorem takeHit_damaged (env : Env) (w : World) (hit : Hit)
    (hpass : passesFilters env w = true) (hbeacon : (env.power w).beacon = false)
    (hrefl : (reflectRoll (aggro env w)).1 = false)
    (hpipe : damagePipeline env (env.power w) (reflectRoll (aggro env w)).2 = .ok hit)
    (hdmg : 0 < hit.dmg) :
    takeHit env w =
      .ok (true, interrupt env (damaged env (env.power w) hit) hit.dmg hit.crit
        (env.isDebuffed hit.w.ent.stats.effects)) := by
  rw [takeHit_resolved env w hpass hbeacon hrefl, hpipe, Except.map,
    resolve_applied env _ hit (Or.inr (by omega))]
  rfl

theorem die_triggered_death (w : World) (crit : Bool) :
    (die w crit).ent.stats.effects.triggered_death = true := by
  simp only [die]
  split <;> rfl

/-- C5 (amended): a hit that passes the filters, is no beacon, is not
reflected, does positive damage and leaves the target with 0 hit points or
fewer when the damage and its after effects have been applied (the test of
line 587) makes `takeHit` return true with the target marked as dead and in a
dead state: the hero-dead state for a hero, and for others the critical-dead
state if the hit was a crit, else the dead state; in particular not in a hit
or power state, and its hit points are what the after effects left.  The
state-transition step goes to exactly that state whenever the damage is
positive and the hit points are 0 or below. -/
theorem takeHit_death_state (env : Env) (w : World) (hit : Hit)
    (hpass : passesFilters env w = true) (hbeacon : (env.power w).beacon = false)
    (hrefl : (reflectRoll (aggro env w)).1 = false)
    (hpipe : damagePipeline env (env.power w) (reflectRoll (aggro env w)).2 = .ok hit)
    (hdmg : 0 < hit.dmg)
    (hdead : (damaged env (env.power w) hit).ent.stats.hp ≤ 0) :
    (∃ w', takeHit env w = .ok (true, w')
      ∧ w'.ent.stats.hp = (damaged env (env.power w) hit).ent.stats.hp
      ∧ w'.ent.stats.effects.triggered_death = true
      ∧ w'.ent.stats.cur_state =
          (if w'.ent.stats.hero then .AVATAR_DEAD
            else if hit.crit then .ENEMY_CRITDEAD else .ENEMY_DEAD)
      ∧ w'.ent.stats.cur_state ≠ .AVATAR_HIT ∧ w'.ent.stats.cur_state ≠ .ENEMY_HIT
      ∧ w'.ent.stats.cur_state ≠ .ENEMY_POWER)
    ∧ ∀ w0 d crit wd, 0 < d → w0.ent.stats.hp ≤ 0 →
        (interrupt env w0 d crit wd).ent.stats.cur_state =
          if w0.ent.stats.hero then .AVATAR_DEAD
          else if crit then .ENEMY_CRITDEAD else .ENEMY_DEAD := by
  have hstep : ∀ (w0 : World) (d : Int) (crit wd : Bool), 0 < d → w0.ent.stats.hp ≤ 0 →
      (interrupt env w0 d crit wd).ent.stats.hero = w0.ent.stats.hero ∧
      (interrupt env w0 d crit wd).ent.stats.cur_state =
        (if w0.ent.stats.hero then .AVATAR_DEAD
        else if crit then .ENEMY_CRITDEAD else .ENEMY_DEAD) ∧
      (interrupt env w0 d crit wd).ent.stats.effects.triggered_death = true := by
    intro w0 d crit wd hd hhp
    rw [interrupt_dead env w0 d crit wd hd hhp]
    exact ⟨(die_state _ crit).1, (die_state _ crit).2, die_triggered_death _ crit⟩
  obtain ⟨e1, e2, e3⟩ := hstep (damaged env (env.power w) hit) hit.dmg hit.crit
    (env.isDebuffed hit.w.ent.stats.effects) hdmg hdead
  have hst : (interrupt env (damaged env (env.power w) hit) hit.dmg hit.crit
      (env.isDebuffed hit.w.ent.stats.effects)).ent.stats.cur_state =
      (if (interrupt env (damaged env (env.power w) hit) hit.dmg hit.crit
          (env.isDebuffed hit.w.ent.stats.effects)).ent.stats.hero then .AVATAR_DEAD
        else if hit.crit then .ENEMY_CRITDEAD else .ENEMY_DEAD) := by
    rw [e2, e1]
  refine ⟨⟨_, takeHit_damaged env w hit hpass hbeacon hrefl hpipe hdmg, interrupt_hp _ _ _ _ _,
    e3, hst, ?_, ?_, ?_⟩, fun w0 d crit wd hd hhp => (hstep w0 d crit wd hd hhp).2.1⟩
  all_goals
    rw [hst]
    repeat' split
    all_goals simp

theorem takeHit_death_state_witness :
    (∃ w', takeHit sampleEnv lethalWorld = .ok (true, w')
      ∧ w'.ent.stats.effects.triggered_death = true
      ∧ w'.ent.stats.cur_state ≠ .AVATAR_HIT ∧ w'.ent.stats.cur_state ≠ .ENEMY_HIT
      ∧ w'.ent.stats.cur_state ≠ .ENEMY_POWER)
    ∧ observe (takeHit sampleEnv lethalWorld) (fun w => w.ent.stats.hp) = some 0
    ∧ observe (takeHit sampleEnv lethalWorld) (fun w => w.ent.stats.cur_state)
        = some .ENEMY_DEAD := by
  obtain ⟨w', h, -, h2, -, h4, h5, h6⟩ := (takeHit_death_state sampleEnv lethalWorld _
    (by decide) (by decide) (by decide) rfl (by decide) (by decide)).1
  exact ⟨⟨w', h, h2, h4, h5, h6⟩, by decide, by decide⟩

/-- C5, as stated, fails where the hit points reach 0 during the call but the
test of line 587 does not see it.  A target with 5 hit points hit for 10 is
at 0 after line 535; the power's effect then lifts it to 50, and `takeHit`
leaves it in the hit state.  And a hit for 0 by a power that ignores zero
damage and whose effect drains the target to 0 hit points skips the state
transition: the target ends at 0 hit points in the state it had. -/
theorem revived_target_not_dead :
    weakWorld.ent.stats.hp = 5
      ∧ (weakWorld.ent.stats.takeDamage 10).hp = 0
      ∧ returned (takeHit healEnv weakWorld) = some true
      ∧ observe (takeHit healEnv weakWorld) (fun w => targetDamage w.log) = some [10]
      ∧ observe (takeHit healEnv weakWorld) (fun w => w.ent.stats.hp) = some 50
      ∧ observe (takeHit healEnv weakWorld) (fun w => w.ent.stats.cur_state)
          = some .ENEMY_HIT
      ∧ returned (takeHit drainEnv harmlessWorld) = some true
      ∧ observe (takeHit drainEnv harmlessWorld) (fun w => w.ent.stats.hp) = some 0
      ∧ observe (takeHit drainEnv harmlessWorld) (fun w => w.ent.stats.cur_state)
          = some (.OTHER 0) := by
  decide

theorem castAIPower_stats (w : World) (p : AIPower) :
    (castAIPower w p).ent.stats =
      { w.ent.stats with
        cur_state := .ENEMY_POWER, activated_power := some p, cooldown_ticks := 0 } := rfl

/-- C21: a hit that passes the filters, is no beacon, is not reflected, does
positive damage and leaves the target alive makes `takeHit` return true, and
(1) if the target was not debuffed before the damage was applied, is debuffed
after the after effects, and the lookup of its on-debuff AI power gives a
power, the target's StatBlock is the one the after effects left with
`cur_state` the power state, `activated_power` that power and `cooldown_ticks`
0, whatever the lookup of an on-hit power would give; (2) otherwise (the
target was debuffed before, is not debuffed now, or has no on-debuff power), if
the lookup of the on-hit AI power gives a power, the same holds with the
on-hit power. -/
theorem takeHit_ai_power (env : Env) (w : World) (hit : Hit)
    (hpass : passesFilters env w = true) (hbeacon : (env.power w).beacon = false)
    (hrefl : (reflectRoll (aggro env w)).1 = false)
    (hpipe : damagePipeline env (env.power w) (reflectRoll (aggro env w)).2 = .ok hit)
    (hdmg : 0 < hit.dmg)
    (halive : 0 < (damaged env (env.power w) hit).ent.stats.hp) :
    ∃ w', takeHit env w = .ok (true, w')
      ∧ (∀ p, env.isDebuffed hit.w.ent.stats.effects = false →
          env.isDebuffed (damaged env (env.power w) hit).ent.stats.effects = true →
          (env.getAIPower (damaged env (env.power w) hit).ent.stats .AI_POWER_DEBUFF
            (hitSound (damaged env (env.power w) hit)).rng).1 = some p →
          w'.ent.stats =
            { (damaged env (env.power w) hit).ent.stats with
              cur_state := .ENEMY_POWER, activated_power := some p, cooldown_ticks := 0 })
      ∧ (∀ q, (env.isDebuffed hit.w.ent.stats.effects = true
            ∨ env.isDebuffed (damaged env (env.power w) hit).ent.stats.effects = false
            ∨ (env.getAIPower (damaged env (env.power w) hit).ent.stats .AI_POWER_DEBUFF
                (hitSound (damaged env (env.power w) hit)).rng).1 = none) →
          (hitLookup env (hitSound (damaged env (env.power w) hit))
            (env.isDebuffed hit.w.ent.stats.effects)).1 = some q →
          w'.ent.stats =
            { (damaged env (env.power w) hit).ent.stats with
              cur_state := .ENEMY_POWER, activated_power := some q, cooldown_ticks := 0 }) := by
  refine ⟨_, takeHit_damaged env w hit hpass hbeacon hrefl hpipe hdmg, ?_, ?_⟩
  · intro p hwas hnow hp
    have hl : (debuffLookup env (hitSound (damaged env (env.power w) hit))
        (env.isDebuffed hit.w.ent.stats.effects)).1 = some p := by
      simp only [debuffLookup, hitSound_ent, hwas, hnow]
      exact hp
    rw [interrupt_alive env _ _ _ _ hdmg halive]
    simp only [hl]
    rw [castAIPower_stats]
    simp only [hitSound_ent]
  · intro q hother hq
    have hl : (debuffLookup env (hitSound (damaged env (env.power w) hit))
        (env.isDebuffed hit.w.ent.stats.effects)).1 = none := by
      simp only [debuffLookup, hitSound_ent]
      rcases hother with h | h | h
      · simp [h]
      · simp [h]
      · split
        · exact h
        · rfl
    rw [interrupt_alive env _ _ _ _ hdmg halive]
    simp only [hl, hq]
    rw [castAIPower_stats]
    simp only [hitSound_ent]

theorem takeHit_ai_power_witness :
    ∃ w', takeHit hexEnv sampleWorld = .ok (true, w')
      ∧ w'.ent.stats.cur_state = .ENEMY_POWER
      ∧ w'.ent.stats.activated_power = some ⟨.AI_POWER_DEBUFF, 7⟩
      ∧ w'.ent.stats.cooldown_ticks = 0 ∧ w'.ent.stats.hp = 90 := by
  obtain ⟨w', h, h1, -⟩ := takeHit_ai_power hexEnv sampleWorld _
    (by decide) (by decide) (by decide) rfl (by decide) (by decide)
  have hs := h1 ⟨.AI_POWER_DEBUFF, 7⟩ (by decide) (by decide) (by decide)
  exact ⟨w', h, by rw [hs], by rw [hs], by rw [hs], by rw [hs]; decide⟩

theorem hitState_skip (w : World) (p c : Bool) (h : w.ent.stats.cooldown_hit_ticks ≠ 0) :
    hitState w p c = w := by
  simp [hitState, h]

theorem hitState_cooldown (w : World) (p c : Bool) (h : w.ent.stats.cooldown_hit_ticks = 0) :
    (hitState w p c).ent.stats.cooldown_hit_ticks = w.ent.stats.cooldown_hit := by
  simp only [hitState, h, beq_self_eq_true, if_true]
  repeat' split
  all_goals rfl

theorem hitState_calm (w : World) (p c : Bool) (h : interrupts w.ent.stats p c = false) :
    (hitState w p c).ent.stats.cur_state = w.ent.stats.cur_state := by
  simp only [interrupts] at h
  simp only [hitState, h]
  split <;> rfl

theorem hitState_interrupted (w : World) (p c : Bool)
    (h0 : w.ent.stats.cooldown_hit_ticks = 0) (h : interrupts w.ent.stats p c = true) :
    (hitState w p c).ent.stats.cur_state
        = (if w.ent.stats.hero then .AVATAR_HIT else .ENEMY_HIT)
      ∧ (w.ent.stats.hero = false → w.ent.stats.cur_state = .ENEMY_POWER →
          (hitState w p c).ent.stats.activated_power = none
            ∧ (hitState w p c).ent.stats.cooldown_ticks = w.ent.stats.cooldown) := by
  simp only [interrupts] at h
  simp only [hitState, h0, beq_self_eq_true, if_true, h]
  refine ⟨?_, fun hh hs => ?_⟩
  · cases hh : w.ent.stats.hero
    · simp only [Bool.false_eq_true, if_false]
      repeat' split
      all_goals rfl
    · simp only [if_true]
      repeat' split
      all_goals rfl
  · simp only [hh, Bool.false_eq_true, if_false, hs, beq_self_eq_true, if_true]
    split <;> exact ⟨rfl, rfl⟩

theorem World.setSource_hitFields (w : World) (s : StatBlock)
    (h : s.hitFields = w.source.hitFields) :
    (w.setSource s).ent.stats.hitFields = w.ent.stats.hitFields := by
  rw [World.setSource_stats]
  cases hs : w.src_is_self
  · rfl
  · rw [World.source_of_self w hs] at h
    simpa using h

theorem stealHp_hitFields (w : World) (d p : Int) :
    (stealHp w d p).ent.stats.hitFields = w.ent.stats.hitFields := by
  unfold stealHp
  split
  · exact World.setSource_hitFields w _ rfl
  · rfl

theorem stealMp_hitFields (w : World) (d p : Int) :
    (stealMp w d p).ent.stats.hitFields = w.ent.stats.hitFields := by
  unfold stealMp
  split
  · exact World.setSource_hitFields w _ rfl
  · rfl

theorem returnDamage_hitFields (w : World) (d : Int) :
    (returnDamage w d).ent.stats.hitFields = w.ent.stats.hitFields := by
  unfold returnDamage
  split
  · exact World.setSource_hitFields w _ rfl
  · rfl

theorem postPower_hitFields (env : Env) (pw : Power) (w : World)
    (hact : w.src_is_self = false ∨ env.activateKeepsHitFields) :
    (postPower env pw w).ent.stats.hitFields = w.ent.stats.hitFields := by
  simp only [postPower]
  split
  · split
    · show (World.setSource _ _).ent.stats.hitFields = _
      rcases hact with h | h
      · rw [World.setSource_ent _ _ (by simpa [World.setStats] using h)]
        rfl
      · rw [World.setSource_hitFields _ _ (h _ _ _ _)]
        rfl
    · rfl
  · rfl

theorem afterEffects_hitFields (env : Env) (pw : Power) (w : World) (d : Int)
    (heff : env.effectKeepsHitFields)
    (hact : w.src_is_self = false ∨ env.activateKeepsHitFields) :
    (afterEffects env pw w d).ent.stats.hitFields = w.ent.stats.hitFields := by
  simp only [afterEffects]
  split
  · rw [postPower_hitFields _ _ _ (by
        rcases hact with h | h
        · left
          rw [returnDamage_src_is_self, stealMp_src_is_self, stealHp_src_is_self,
            applyEffects_src_is_self]
          exact h
        · exact Or.inr h),
      returnDamage_hitFields, stealMp_hitFields, stealHp_hitFields, applyEffects_stats, heff]
    rfl
  · rfl

theorem damaged_hitFields (env : Env) (pw : Power) (hit : Hit)
    (heff : env.effectKeepsHitFields)
    (hact : hit.w.src_is_self = false ∨ env.activateKeepsHitFields) :
    (damaged env pw hit).ent.stats.hitFields = hit.w.ent.stats.hitFields := by
  have hw1 : (if !pw.ignore_zero_damage then hit.w.emit (damageText hit)
      else hit.w).ent.stats = hit.w.ent.stats := by
    split <;> rfl
  have hw2 : (if !pw.ignore_zero_damage then hit.w.emit (damageText hit)
      else hit.w).src_is_self = hit.w.src_is_self := by
    split <;> rfl
  rw [damaged, afterEffects_hitFields env pw _ _ heff (by rw [hw2]; exact hact), hw1]

theorem aggro_hitFields (env : Env) (w : World) :
    (aggro env w).ent.stats.hitFields = w.ent.stats.hitFields := by
  simp only [aggro]; split <;> rfl

/-- C22: a hit that passes the filters, is no beacon, is not reflected, does
positive damage, leaves the target alive and triggers no AI power makes
`takeHit` return true, and with the StatBlock `s` that the after effects left
and the poise roll of line 585: (1) if the hit cooldown is 0, the target is not
stunned, the poise roll failed or the hit was a crit, and `prevent_interrupt`
is false, `cur_state` becomes the hit state (`AVATAR_HIT` for a hero,
`ENEMY_HIT` otherwise); (2) in every other case `cur_state` stays what it was;
(3) a hit cooldown of 0 is set to `cooldown_hit`, interrupted or not; (4) with
a hit cooldown other than 0 the whole StatBlock stays what it was, and if power
effects (and the post power, should the hazard's source be the target itself)
do not touch them, `cur_state`, `cooldown_hit_ticks`, `activated_power` and
`transform_duration` are what they were when `takeHit` was called; (5) a
non-hero interrupted in `ENEMY_POWER` has `activated_power` cleared and
`cooldown_ticks` set to `cooldown`. -/
theorem takeHit_hit_state (env : Env) (w : World) (hit : Hit)
    (hpass : passesFilters env w = true) (hbeacon : (env.power w).beacon = false)
    (hrefl : (reflectRoll (aggro env w)).1 = false)
    (hpipe : damagePipeline env (env.power w) (reflectRoll (aggro env w)).2 = .ok hit)
    (hdmg : 0 < hit.dmg)
    (halive : 0 < (damaged env (env.power w) hit).ent.stats.hp)
    (hnodebuff : (debuffLookup env (hitSound (damaged env (env.power w) hit))
      (env.isDebuffed hit.w.ent.stats.effects)).1 = none)
    (hnohit : (hitLookup env (hitSound (damaged env (env.power w) hit))
      (env.isDebuffed hit.w.ent.stats.effects)).1 = none) :
    ∃ w', takeHit env w = .ok (true, w')
      ∧ ((damaged env (env.power w) hit).ent.stats.cooldown_hit_ticks = 0
          ∧ interrupts (damaged env (env.power w) hit).ent.stats
              (percentChance (damaged env (env.power w) hit).rng .poise
                ((damaged env (env.power w) hit).ent.stats.get .STAT_POISE)).1 hit.crit = true →
          w'.ent.stats.cur_state =
            if (damaged env (env.power w) hit).ent.stats.hero then .AVATAR_HIT else .ENEMY_HIT)
      ∧ (¬ ((damaged env (env.power w) hit).ent.stats.cooldown_hit_ticks = 0
          ∧ interrupts (damaged env (env.power w) hit).ent.stats
              (percentChance (damaged env (env.power w) hit).rng .poise
                ((damaged env (env.power w) hit).ent.stats.get .STAT_POISE)).1 hit.crit = true) →
          w'.ent.stats.cur_state = (damaged env (env.power w) hit).ent.stats.cur_state)
      ∧ ((damaged env (env.power w) hit).ent.stats.cooldown_hit_ticks = 0 →
          w'.ent.stats.cooldown_hit_ticks
            = (damaged env (env.power w) hit).ent.stats.cooldown_hit)
      ∧ ((damaged env (env.power w) hit).ent.stats.cooldown_hit_ticks ≠ 0 →
          w'.ent.stats = (damaged env (env.power w) hit).ent.stats
            ∧ (env.effectKeepsHitFields →
                (w.src_is_self = false ∨ env.activateKeepsHitFields) →
                w'.ent.stats.hitFields = w.ent.stats.hitFields))
      ∧ ((damaged env (env.power w) hit).ent.stats.cooldown_hit_ticks = 0
          ∧ interrupts (damaged env (env.power w) hit).ent.stats
              (percentChance (damaged env (env.power w) hit).rng .poise
                ((damaged env (env.power w) hit).ent.stats.get .STAT_POISE)).1 hit.crit = true →
          (damaged env (env.power w) hit).ent.stats.hero = false →
          (damaged env (env.power w) hit).ent.stats.cur_state = .ENEMY_POWER →
          w'.ent.stats.activated_power = none
            ∧ w'.ent.stats.cooldown_ticks = (damaged env (env.power w) hit).ent.stats.cooldown) := by
  have hint : interrupt env (damaged env (env.power w) hit) hit.dmg hit.crit
      (env.isDebuffed hit.w.ent.stats.effects) =
      hitState { hitSound (damaged env (env.power w) hit) with
          rng := (hitLookup env (hitSound (damaged env (env.power w) hit))
            (env.isDebuffed hit.w.ent.stats.effects)).2 }
        (percentChance (damaged env (env.power w) hit).rng .poise
          ((damaged env (env.power w) hit).ent.stats.get .STAT_POISE)).1 hit.crit := by
    rw [interrupt_alive env _ _ _ _ hdmg halive]
    simp only [hnodebuff, hnohit]
  have hent : ({ hitSound (damaged env (env.power w) hit) with
      rng := (hitLookup env (hitSound (damaged env (env.power w) hit))
        (env.isDebuffed hit.w.ent.stats.effects)).2 } : World).ent.stats
      = (damaged env (env.power w) hit).ent.stats := by
    show (hitSound (damaged env (env.power w) hit)).ent.stats = _
    rw [hitSound_ent]
  refine ⟨_, takeHit_damaged env w hit hpass hbeacon hrefl hpipe hdmg, ?_, ?_, ?_, ?_, ?_⟩
  · rintro ⟨h0, hi⟩
    rw [hint, (hitState_interrupted _ _ _ (hent ▸ h0) (hent ▸ hi)).1, hent]
  · intro hn
    rw [hint]
    by_cases h0 : (damaged env (env.power w) hit).ent.stats.cooldown_hit_ticks = 0
    · have hi : interrupts (damaged env (env.power w) hit).ent.stats
          (percentChance (damaged env (env.power w) hit).rng .poise
            ((damaged env (env.power w) hit).ent.stats.get .STAT_POISE)).1 hit.crit = false := by
        cases hb : interrupts (damaged env (env.power w) hit).ent.stats
          (percentChance (damaged env (env.power w) hit).rng .poise
            ((damaged env (env.power w) hit).ent.stats.get .STAT_POISE)).1 hit.crit
        · rfl
        · exact absurd ⟨h0, hb⟩ hn
      rw [hitState_calm _ _ _ (hent ▸ hi), hent]
    · rw [hitState_skip _ _ _ (hent ▸ h0), hent]
  · intro h0
    rw [hint, hitState_cooldown _ _ _ (hent ▸ h0), hent]
  · intro h0
    rw [hint, hitState_skip _ _ _ (hent ▸ h0), hent]
    refine ⟨rfl, fun heff hact => ?_⟩
    have hfl : hit.w.src_is_self = w.src_is_self := by
      rw [damagePipeline_src_is_self env _ _ hit hpipe, reflectRoll_src_is_self,
        aggro_src_is_self]
    rw [damaged_hitFields env _ hit heff (by rw [hfl]; exact hact),
      (damagePipeline_preserves env _ _ hit hpipe).1, reflectRoll_ent, aggro_hitFields]
  · rintro ⟨h0, hi⟩ hh hs
    rw [hint]
    have := (hitState_interrupted _ _ _ (hent ▸ h0) (hent ▸ hi)).2 (hent ▸ hh) (hent ▸ hs)
    rw [hent] at this
    exact this

theorem takeHit_hit_state_witness :
    ∃ w', takeHit sampleEnv castingWorld = .ok (true, w')
      ∧ w'.ent.stats.cur_state = .ENEMY_HIT
      ∧ w'.ent.stats.cooldown_hit_ticks = 20
      ∧ w'.ent.stats.activated_power = none ∧ w'.ent.stats.cooldown_ticks = 30 := by
  obtain ⟨w', h, h1, -, h3, -, h5⟩ := takeHit_hit_state sampleEnv castingWorld _
    (by decide) (by decide) (by decide) rfl (by decide) (by decide) (by decide) (by decide)
  exact ⟨w', h, (h1 (by decide)).trans (by decide), (h3 (by decide)).trans (by decide),
    (h5 (by decide) (by decide) (by decide)).1,
    (h5 (by decide) (by decide) (by decide)).2.trans (by decide)⟩

theorem hit_during_cooldown :
    returned (takeHit sampleEnv coolingWorld) = some true
      ∧ observe (takeHit sampleEnv coolingWorld) (fun w => w.ent.stats.hitFields)
          = some coolingWorld.ent.stats.hitFields
      ∧ observe (takeHit sampleEnv coolingWorld) (fun w => w.ent.stats.hp) = some 90 := by
  decide

theorem on_hit_power_cast :
    returned (takeHit riposteEnv sampleWorld) = some true
      ∧ observe (takeHit riposteEnv sampleWorld) (fun w => w.ent.stats.cur_state)
          = some .ENEMY_POWER
      ∧ observe (takeHit riposteEnv sampleWorld) (fun w => w.ent.stats.activated_power)
          = some (some ⟨.AI_POWER_HIT, 3⟩)
      ∧ observe (takeHit riposteEnv sampleWorld) (fun w => w.ent.stats.cooldown_ticks)
          = some 0 := by
  decide

end Flare
